import Mathlib

/-!
Contact-adaptive gait controller of `Gantry/GantryApp.cpp`.

A shallow embedding of the control loop of `main` (lines 624-1286) and of the
three joint-command generators `snakeInitialPosition`, `snakeUpdatePosition`
and `snakeAMM2` (lines 2741-2977).

Conventions of the embedding
* C `double`/`float` values are exact numbers.  The control loop only uses
  decimal literals, `ceil`, comparison and field arithmetic, so its times and
  amplitudes are rationals (`ℚ`).  The joint-command generators call `sin` and
  use `M_PI`; they are written over an arbitrary ordered field `R` with the
  sine function and the constant passed in, and the theorems instantiate them
  with `Real.sin` and `Real.pi`.
* C `int` counters only ever start at `0`, are incremented by one or reset to
  `0`, and a trial has at most `stmax / (2.5 * dst) = 2000` processed ticks, so
  they are natural numbers; `sign` and `wsign` are integers.
* Variables the source leaves uninitialised (`sign`, `ContactStart`, ...) get
  their initial value from an arbitrary carrier record, see `initTrial`.
* `cout` lines that mark an event of the state machine are kept as a log.
-/

namespace Gantry

/-! ## Joint-command generators -/

section Snake

variable {R : Type} [LinearOrderedField R] [FloorRing R]

/-- The conversion `(int)x` of a floating value: truncation toward zero. -/
def cInt (x : R) : Int :=
  if 0 ≤ x then ⌊x⌋ else ⌈x⌉

/-- The C library function `round`: nearest integer, halfway cases away from
zero. -/
def cRound (x : R) : Int :=
  if 0 ≤ x then ⌊x + 1 / 2⌋ else ⌈x - 1 / 2⌉

/-- Local `double B0 = 0.4` of all three generators. -/
def B0 : R := 0.4

/-- Local `int N = 12` of all three generators. -/
def N : Nat := 12

/-- Local `double offset = 0` of `snakeUpdatePosition` and `snakeAMM2`. -/
def offset : R := 0

/-- Value of `snake_angle[i - 1]` in `snakeInitialPosition` (line 2762). -/
def snakeInitialPosition_angle (sin : R → R) (Pi : R) (i : Nat) : R :=
  B0 * sin (2 * Pi * (i : R) / (N : R))

/-- Value of `init_pos[i - 1]` in `snakeInitialPosition` (line 2763):
`(int)(snake_angle[i - 1] * 1024 / 3 + 512)`. -/
def snakeInitialPosition_goal (sin : R → R) (Pi : R) (i : Nat) : Int :=
  cInt (snakeInitialPosition_angle sin Pi i * 1024 / 3 + 512)

/-- The array `init_pos` staged by one pass of `snakeInitialPosition`. -/
def snakeInitialPosition (sin : R → R) (Pi : R) : List Int :=
  (List.range' 1 N).map (snakeInitialPosition_goal sin Pi)

/-- Value of `snake_angle[i - 1]` in `snakeUpdatePosition(t, ContactCondition)`
(line 2885). -/
def snakeUpdatePosition_angle (sin : R → R) (Pi : R) (t : R)
    (_ContactCondition : Int) (i : Nat) : R :=
  B0 * sin (2 * Pi * (i : R) / (N : R) - 2 * Pi * t)

/-- Value of `snake_goal[i - 1]` in `snakeUpdatePosition` (line 2887):
`(int)(round(snake_angle[i - 1] * 1024 / 3 + 512 + offset))`. -/
def snakeUpdatePosition_goal (sin : R → R) (Pi : R) (t : R)
    (ContactCondition : Int) (i : Nat) : Int :=
  cRound (snakeUpdatePosition_angle sin Pi t ContactCondition i * 1024 / 3 + 512 + offset)

/-- The array `snake_angle` filled by the loop `for (i = 1; i <= N; i++)` of
`snakeUpdatePosition`. -/
def snakeUpdatePosition_angles (sin : R → R) (Pi : R) (t : R)
    (ContactCondition : Int) : List R :=
  (List.range' 1 N).map (snakeUpdatePosition_angle sin Pi t ContactCondition)

/-- The array `snake_goal` staged by `snakeUpdatePosition`. -/
def snakeUpdatePosition (sin : R → R) (Pi : R) (t : R) (ContactCondition : Int) : List Int :=
  (List.range' 1 N).map (snakeUpdatePosition_goal sin Pi t ContactCondition)

/-- Value of `AMMmin` in `snakeAMM2` for joint `i` (line 2943). -/
def AMMmin (AMMStart : R) (i : Nat) : R :=
  AMMStart + (((i : R) - 1.0) / (N : R))

/-- Value of `AMMmax` in `snakeAMM2` for joint `i` (line 2944). -/
def AMMmax (AMMStart : R) (i : Nat) : R :=
  AMMStart + 0.5 + (((i : R) - 1.0) / (N : R))

/-- Value of `snake_angle[i - 1]` in `snakeAMM2(t, delA, AMMStart)` (lines 2946-2953). -/
def snakeAMM2_angle (sin : R → R) (Pi : R) (t delA AMMStart : R) (i : Nat) : R :=
  if t > AMMmin AMMStart i ∧ t < AMMmax AMMStart i then
    (B0 + delA) * sin ((2 * Pi * (i : R)) / (N : R) - 2 * Pi * t)
  else
    B0 * sin ((2 * Pi * (i : R)) / (N : R) - 2 * Pi * t)

/-- Value of `snake_goal[i - 1]` in `snakeAMM2` (line 2954):
`(int)(snake_angle[i - 1] * 1024 / 3 + 512 + offset)`. -/
def snakeAMM2_goal (sin : R → R) (Pi : R) (t delA AMMStart : R) (i : Nat) : Int :=
  cInt (snakeAMM2_angle sin Pi t delA AMMStart i * 1024 / 3 + 512 + offset)

/-- The array `snake_goal` computed by `snakeAMM2`. -/
def snakeAMM2 (sin : R → R) (Pi : R) (t delA AMMStart : R) : List Int :=
  (List.range' 1 N).map (snakeAMM2_goal sin Pi t delA AMMStart)

/-- The affine rounding map `command = round(angle * 1024 / 3 + 512)` of the
data model, as `snakeUpdatePosition` computes it. -/
def roundedCommand (angle : R) : Int :=
  cRound (angle * 1024 / 3 + 512)

end Snake

/-! ## Control loop of `main` -/

/-- Event-marking `cout` lines of the control loop, in source order. -/
inductive Msg where
  /-- Line 793, "First Contact Made!". -/
  | firstContactMade
  /-- Line 842, "First End Time: ". -/
  | firstEndTime
  /-- Line 848, "Contact Left! Steering Positive". -/
  | contactLeft
  /-- Lines 853 and 949, "Contact Right! Steering Negative". -/
  | contactRight
  /-- Lines 857 and 953, "Controller Error -- Undefined Contact -- No Steering". -/
  | controllerError
  /-- Line 904, "Second Contact Made!". -/
  | secondContactMade
  /-- Line 938, "Second End Time: ". -/
  | secondEndTime
  /-- Line 944, "2nd Contact Left! Steering Positive". -/
  | secondContactLeft
  /-- Line 966, "Steering Based on Second Contact". -/
  | steeringBasedOnSecond
  /-- Line 969, "First Contact is longer than Second". -/
  | firstLongerThanSecond
  /-- Line 1055, "Only One Contact Detected". -/
  | onlyOneContact
  /-- Lines 1033 and 1119, "Steer now!". -/
  | steerNow
  /-- Lines 1038 and 1124, "Wait to steer". -/
  | waitToSteer
  deriving DecidableEq, Repr

/-- The variables of `main` the control loop reads and writes: `st`, `prev_t`
and `delA`, declared before the trial loop (lines 225, 413, 485), and the
per-trial locals of lines 624-666; `out` is the log of event-marking `cout`
lines. -/
structure Ctrl where
  st : ℚ
  prev_t : ℚ
  delA : ℚ
  ContactCondition : Int
  ContactStart : ℚ
  wContactStart : ℚ
  ContactEnd : ℚ
  wContactEnd : ℚ
  ActualStart : ℚ
  wActualStart : ℚ
  ActualEnd : ℚ
  wActualEnd : ℚ
  ActualDuration : ℚ
  wActualDuration : ℚ
  WaitInitialTime : ℚ
  LoopTime : ℚ
  prev_input : String
  end_state : String
  wend_state : String
  ContactCounter : Nat
  wContactCounter : Nat
  InitialContact : Bool
  wInitialContact : Bool
  WaitState : Bool
  FinalContact : Bool
  InitializeWait : Bool
  AMMStart : ℚ
  EndCounter : Nat
  wEndCounter : Nat
  ContactDuration : ℚ
  wContactDuration : ℚ
  ContactAngle : ℚ
  PosContactAngle : ℚ
  NegContactAngle : ℚ
  sign : Int
  wsign : Int
  out : List Msg

/-- One reading of the loop head (lines 679-718): the frame timestamp
`t = TT_FrameTimeStamp()` and `last_input = input.substr(0,4)`. -/
structure Input where
  t : ℚ
  last_input : String

/-- Base gait step, `double dst = 0.001` (line 226). -/
def dst : ℚ := 0.001

/-- Bound of the trial loop, `const int stmax = 5` (line 422). -/
def stmax : ℚ := 5

/-- The declarations of lines 624-666 at the start of a trial: the variables
with an initialiser get it, the others (`sign`, `wsign`, `ContactStart`, ...,
and `st`, `prev_t`, `delA`, which live outside the trial loop) keep whatever
`junk` holds. -/
def initTrial (junk : Ctrl) : Ctrl :=
  { junk with
    ContactCondition := 0
    LoopTime := 0
    prev_input := "0000"
    end_state := ""
    wend_state := ""
    ContactCounter := 0
    wContactCounter := 0
    InitialContact := false
    wInitialContact := false
    WaitState := false
    FinalContact := false
    InitializeWait := false
    AMMStart := 0
    EndCounter := 0
    wEndCounter := 0
    ContactDuration := 0
    wContactDuration := 0
    ContactAngle := 0
    PosContactAngle := 0
    NegContactAngle := 0
    out := [] }

/-- A carrier with every number zero; `initTrial zeroCtrl` is the state of a
first trial (`st = 0`, `prev_t = 0`) with the uninitialised variables at 0. -/
def zeroCtrl : Ctrl :=
  { st := 0, prev_t := 0, delA := 0, ContactCondition := 0, ContactStart := 0,
    wContactStart := 0, ContactEnd := 0, wContactEnd := 0, ActualStart := 0,
    wActualStart := 0, ActualEnd := 0, wActualEnd := 0, ActualDuration := 0,
    wActualDuration := 0, WaitInitialTime := 0, LoopTime := 0, prev_input := "",
    end_state := "", wend_state := "", ContactCounter := 0, wContactCounter := 0,
    InitialContact := false, wInitialContact := false, WaitState := false,
    FinalContact := false, InitializeWait := false, AMMStart := 0, EndCounter := 0,
    wEndCounter := 0, ContactDuration := 0, wContactDuration := 0, ContactAngle := 0,
    PosContactAngle := 0, NegContactAngle := 0, sign := 0, wsign := 0, out := [] }

/-- The test of lines 770 and 887: `last_input` is one of "0100", "0010",
"0110" (source comment: left front, right front, both). -/
def isContact (last_input : String) : Bool :=
  decide (last_input = "0100" ∨ last_input = "0010" ∨ last_input = "0110")

/-- The test of lines 817 and 913: `last_input` is one of "0000", "0001",
"1000" (source comment: no contact, right back, left back). -/
def isRelease (last_input : String) : Bool :=
  decide (last_input = "0000" ∨ last_input = "0001" ∨ last_input = "1000")

/-- The value given to `sign` by lines 847-859 from `end_state`. -/
def classifyFirst (end_state : String) : Int :=
  if end_state = "0100" ∨ end_state = "1100" then -1
  else if end_state = "0010" ∨ end_state = "0011" then 1
  else 0

/-- The `cout` line of lines 847-859. -/
def classifyFirstMsg (end_state : String) : Msg :=
  if end_state = "0100" ∨ end_state = "1100" then Msg.contactLeft
  else if end_state = "0010" ∨ end_state = "0011" then Msg.contactRight
  else Msg.controllerError

/-- The value given to `wsign` by lines 943-955 from `wend_state`. -/
def classifySecond (wend_state : String) : Int :=
  if wend_state = "0100" ∨ wend_state = "1100" then -1
  else if wend_state = "0010" ∨ wend_state = "0011" then 1
  else 0

/-- The `cout` line of lines 943-955. -/
def classifySecondMsg (wend_state : String) : Msg :=
  if wend_state = "0100" ∨ wend_state = "1100" then Msg.secondContactLeft
  else if wend_state = "0010" ∨ wend_state = "0011" then Msg.contactRight
  else Msg.controllerError

/-- Lines 770-776: the first contact counter. -/
def updateContactCounter (s : Ctrl) (inp : Input) : Ctrl :=
  if isContact inp.last_input = true then
    { s with ContactCounter := s.ContactCounter + 1 }
  else
    { s with ContactCounter := 0 }

/-- Lines 787-809, "Detect Contact Start". -/
def detectContactStart (s : Ctrl) (inp : Input) : Ctrl :=
  if s.ContactCounter = 3 ∧ s.InitialContact = false ∧ s.WaitState = false then
    { s with
      InitialContact := true
      ActualStart := inp.t
      ContactStart := s.st
      out := s.out ++ [Msg.firstContactMade] }
  else s

/-- Lines 832-868: the body of `if (EndCounter == 3)` of the first episode. -/
def finalizeFirst (s : Ctrl) (inp : Input) : Ctrl :=
  let s1 : Ctrl := { s with ContactEnd := s.st, ActualEnd := inp.t, WaitState := true }
  let s2 : Ctrl :=
    { s1 with
      sign := classifyFirst s1.end_state
      out := s1.out ++ [Msg.firstEndTime, classifyFirstMsg s1.end_state] }
  { s2 with
    ContactDuration := s2.ContactEnd - s2.ContactStart
    ActualDuration := s2.ActualEnd - s2.ActualStart }

/-- Lines 816-869, "Detecting End Contact". -/
def detectEndContact (s : Ctrl) (inp : Input) : Ctrl :=
  if s.InitialContact = true ∧ s.FinalContact = false ∧ s.WaitState = false then
    let s1 : Ctrl :=
      if isRelease inp.last_input = true then { s with EndCounter := s.EndCounter + 1 }
      else { s with EndCounter := 0 }
    let s2 : Ctrl :=
      if s1.EndCounter = 1 then { s1 with end_state := s1.prev_input } else s1
    if s2.EndCounter = 3 then finalizeFirst s2 inp else s2
  else s

/-- Lines 1017-1041 and 1103-1127 (the two copies are token-for-token the
same): doubling of `ContactEnd`, `AMMStart = ceil(ContactEnd)`, the parity
negation and the steer-now / wait-to-steer branch. -/
def phaseAlign (s : Ctrl) : Ctrl :=
  let s1 : Ctrl := { s with ContactEnd := s.ContactEnd * 2 }
  let s2 : Ctrl := { s1 with AMMStart := (⌈s1.ContactEnd⌉ : ℚ) }
  let s3 : Ctrl :=
    if Int.tmod (cInt s2.AMMStart) 2 = 1 then { s2 with delA := -s2.delA } else s2
  if s3.delA < 0 then
    { s3 with AMMStart := s3.AMMStart / 2, out := s3.out ++ [Msg.steerNow] }
  else
    { s3 with
      delA := -s3.delA
      AMMStart := (s3.AMMStart / 2) + 0.5
      out := s3.out ++ [Msg.waitToSteer] }

/-- Lines 980-1041: the decision block of the two-episode path. -/
def decisionTwoEpisode (s : Ctrl) : Ctrl :=
  let s1 : Ctrl :=
    { s with
      PosContactAngle := 14.1 * s.ActualDuration + 2.3
      NegContactAngle := -25.2 * s.ActualDuration + 2.1 }
  let s2 : Ctrl :=
    { s1 with
      PosContactAngle := (1.0 / 0.85) * s1.PosContactAngle
      NegContactAngle := (1.0 / 0.85) * s1.NegContactAngle }
  let s3 : Ctrl := { s2 with ContactAngle := (1.0 / 0.85) * s2.ContactAngle }
  let s4 : Ctrl :=
    if s3.sign > 0 then { s3 with ContactAngle := s3.NegContactAngle }
    else { s3 with ContactAngle := s3.PosContactAngle }
  let s5 : Ctrl :=
    { s4 with delA := (3.14159265 / 12.0) * ((s4.sign : ℚ) * s4.ContactAngle) }
  let s6 : Ctrl := { s5 with delA := s5.delA / 100 }
  phaseAlign s6

/-- Lines 1067-1128: the decision block of the timeout path. -/
def decisionTimeout (s : Ctrl) : Ctrl :=
  let s1 : Ctrl :=
    { s with
      PosContactAngle := 14.1 * s.ActualDuration + 2.3
      NegContactAngle := -25.2 * s.ActualDuration + 2.1 }
  let s2 : Ctrl :=
    { s1 with
      PosContactAngle := (1.0 / 0.85) * s1.PosContactAngle
      NegContactAngle := (1.0 / 0.85) * s1.NegContactAngle }
  let s4 : Ctrl :=
    if s2.sign > 0 then { s2 with ContactAngle := s2.NegContactAngle }
    else { s2 with ContactAngle := s2.PosContactAngle }
  let s5 : Ctrl := { s4 with delA := (3.14159265 / 12.0) * s4.ContactAngle }
  let s6 : Ctrl := { s5 with delA := s5.delA / 100 }
  phaseAlign s6

/-- Lines 980-1015: the two regressions, the choice of `ContactAngle` by
`sign` and the base `delA` of the two-episode path, up to the line before the
phase alignment. -/
def steeringTwoEpisode (s : Ctrl) : Ctrl :=
  let s1 : Ctrl :=
    { s with
      PosContactAngle := 14.1 * s.ActualDuration + 2.3
      NegContactAngle := -25.2 * s.ActualDuration + 2.1 }
  let s2 : Ctrl :=
    { s1 with
      PosContactAngle := (1.0 / 0.85) * s1.PosContactAngle
      NegContactAngle := (1.0 / 0.85) * s1.NegContactAngle }
  let s3 : Ctrl := { s2 with ContactAngle := (1.0 / 0.85) * s2.ContactAngle }
  let s4 : Ctrl :=
    if s3.sign > 0 then { s3 with ContactAngle := s3.NegContactAngle }
    else { s3 with ContactAngle := s3.PosContactAngle }
  let s5 : Ctrl :=
    { s4 with delA := (3.14159265 / 12.0) * ((s4.sign : ℚ) * s4.ContactAngle) }
  { s5 with delA := s5.delA / 100 }

/-- Lines 1067-1101: the two regressions, the choice of `ContactAngle` by
`sign` and the base `delA` of the timeout path, up to the line before the
phase alignment. -/
def steeringTimeout (s : Ctrl) : Ctrl :=
  let s1 : Ctrl :=
    { s with
      PosContactAngle := 14.1 * s.ActualDuration + 2.3
      NegContactAngle := -25.2 * s.ActualDuration + 2.1 }
  let s2 : Ctrl :=
    { s1 with
      PosContactAngle := (1.0 / 0.85) * s1.PosContactAngle
      NegContactAngle := (1.0 / 0.85) * s1.NegContactAngle }
  let s4 : Ctrl :=
    if s2.sign > 0 then { s2 with ContactAngle := s2.NegContactAngle }
    else { s2 with ContactAngle := s2.PosContactAngle }
  let s5 : Ctrl := { s4 with delA := (3.14159265 / 12.0) * s4.ContactAngle }
  { s5 with delA := s5.delA / 100 }

/-- Lines 928-1048: the body of `if (wEndCounter == 3)`. -/
def finalizeSecond (s : Ctrl) (inp : Input) : Ctrl :=
  let s1 : Ctrl := { s with wContactEnd := s.st, wActualEnd := inp.t, FinalContact := true }
  let s2 : Ctrl :=
    { s1 with
      wsign := classifySecond s1.wend_state
      out := s1.out ++ [Msg.secondEndTime, classifySecondMsg s1.wend_state] }
  let s3 : Ctrl :=
    { s2 with
      wContactDuration := s2.wContactEnd - s2.wContactStart
      wActualDuration := s2.wActualEnd - s2.wActualStart }
  let s4 : Ctrl :=
    if s3.wActualDuration > s3.ActualDuration then
      { s3 with
        sign := s3.wsign
        ContactDuration := s3.wContactDuration
        ActualDuration := s3.wActualDuration
        out := s3.out ++ [Msg.steeringBasedOnSecond] }
    else
      { s3 with out := s3.out ++ [Msg.firstLongerThanSecond] }
  decisionTwoEpisode s4

/-- Lines 1052-1129: the body of `if (LoopTime > 1.0)`. -/
def timeoutDecide (s : Ctrl) : Ctrl :=
  decisionTimeout
    { s with WaitState := false, FinalContact := true, out := s.out ++ [Msg.onlyOneContact] }

/-- Lines 880-883: the wait timer is latched when `InitializeWait` is false. -/
def latchWaitTimer (s : Ctrl) (inp : Input) : Ctrl :=
  if s.InitializeWait = false then
    { s with WaitInitialTime := inp.t, InitializeWait := true }
  else s

/-- Lines 886-925: the second contact counter, "Detecting Second Contact
start" and the second end counter with its `wend_state`. -/
def trackSecondContact (s : Ctrl) (inp : Input) : Ctrl :=
  let s2 : Ctrl :=
    if isContact inp.last_input = true then
      { s with wContactCounter := s.wContactCounter + 1 }
    else { s with wContactCounter := 0 }
  let s3 : Ctrl :=
    if s2.wContactCounter = 3 ∧ s2.wInitialContact = false then
      { s2 with
        wInitialContact := true
        wActualStart := inp.t
        wContactStart := s2.st
        out := s2.out ++ [Msg.secondContactMade] }
    else s2
  if s3.wInitialContact = true ∧ s3.FinalContact = false then
    let s41 : Ctrl :=
      if isRelease inp.last_input = true then { s3 with wEndCounter := s3.wEndCounter + 1 }
      else { s3 with wEndCounter := 0 }
    if s41.wEndCounter = 1 then { s41 with wend_state := s41.prev_input } else s41
  else s3

/-- Lines 878-1131, "Waiting State". -/
def waitingState (s : Ctrl) (inp : Input) : Ctrl :=
  if s.WaitState = true ∧ s.FinalContact = false then
    let s4 : Ctrl := trackSecondContact (latchWaitTimer s inp) inp
    let s5 : Ctrl := if s4.wEndCounter = 3 then finalizeSecond s4 inp else s4
    let s6 : Ctrl := { s5 with LoopTime := inp.t - s5.WaitInitialTime }
    if s6.LoopTime > 1.0 then timeoutDecide s6 else s6
  else s

/-- Lines 770-1131: the state machine part of one processed tick. -/
def stateMachine (s : Ctrl) (inp : Input) : Ctrl :=
  waitingState (detectEndContact (detectContactStart (updateContactCounter s inp) inp) inp) inp

/-- The generator call of lines 1245-1269, "Implement Controller State". -/
inductive Command where
  /-- `snakeAMM2(st, delA, AMMStart)` (line 1258). -/
  | AMM2 (st delA AMMStart : ℚ)
  /-- `snakeUpdatePosition(st, ContactCondition)` (line 1267). -/
  | UpdatePosition (st : ℚ) (ContactCondition : Int)

/-- Lines 1245-1269: which generator the tick calls, with which arguments. -/
def controllerCommand (s : Ctrl) : Command :=
  if s.FinalContact = true then Command.AMM2 s.st s.delA s.AMMStart
  else Command.UpdatePosition s.st s.ContactCondition

/-- Lines 1280-1285: `st += 2.5*dst; prev_t = t; prev_input = last_input`. -/
def advance (s : Ctrl) (inp : Input) : Ctrl :=
  { s with st := s.st + 2.5 * dst, prev_t := inp.t, prev_input := inp.last_input }

/-- One processed tick: the loop body from line 770 to line 1285. -/
def tick (s : Ctrl) (inp : Input) : Ctrl :=
  advance (stateMachine s inp) inp

/-- One iteration of `while (st < stmax)`: when `prev_t == t` the iteration is
skipped by `continue` (lines 744-747), otherwise the tick is processed. -/
def loopIteration (s : Ctrl) (inp : Input) : Ctrl :=
  if s.prev_t = inp.t then s else tick s inp

/-- The state after processing the ticks `inps` in order. -/
def runTicks (s : Ctrl) (inps : List Input) : Ctrl :=
  inps.foldl tick s

/-- The ticks with samples `samples` whose timestamps start at `t0 + dt` and
are spaced by `dt`. -/
def uniformTicks (t0 dt : ℚ) : List String → List Input
  | [] => []
  | x :: xs => { t := t0 + dt, last_input := x } :: uniformTicks (t0 + dt) dt xs

/-! ## Actuation bus -/

/-- Modelled from the spec: the macro `DXL_LOBYTE` of the Dynamixel SDK header,
which is not among the sources; the low byte of the 2-byte little-endian
position. -/
def DXL_LOBYTE (w : Int) : Int := w % 256

/-- Modelled from the spec: the macro `DXL_HIBYTE` of the Dynamixel SDK header,
which is not among the sources; the high byte of the 2-byte little-endian
position. -/
def DXL_HIBYTE (w : Int) : Int := (w / 256) % 256

/-- What the synchronized-write group answers during one generator call:
the result of `groupSyncWrite->addParam` for a joint id, and whether the
`n`-th `groupSyncWrite->txPacket()` of the call (counted from 0) returns
`COMM_SUCCESS`.  The group belongs to the Dynamixel SDK, so its answers are
inputs of the model. -/
structure BusResults where
  addParam : Int → Bool
  txPacket : Nat → Bool

/-- A bus that accepts every parameter and transmits successfully. -/
def busAllOk : BusResults :=
  { addParam := fun _ => true, txPacket := fun _ => true }

/-- A bus that rejects every parameter. -/
def busRejects : BusResults :=
  { addParam := fun _ => false, txPacket := fun _ => true }

/-- The calls a generator makes on the bus, in order. -/
inductive BusOp where
  /-- Call `groupSyncWrite->addParam(id, param_goal_position)` with the two
  staged bytes and its result. -/
  | addParam (id : Int) (lo hi : Int) (result : Bool)
  /-- Call `groupSyncWrite->txPacket()` and whether it returned `COMM_SUCCESS`. -/
  | txPacket (success : Bool)
  /-- Call `packetHandler->printTxRxResult(dxl_comm_result)`. -/
  | printTxRxResult
  /-- Call `groupSyncWrite->clearParam()`. -/
  | clearParam
  deriving DecidableEq

section SnakeBus

variable {R : Type} [LinearOrderedField R] [FloorRing R]

/-- The loop `for (int i = 1; i <= N; i++)` of `snakeUpdatePosition` (lines
2845-2902) over the joint indices still to do: the bus calls made, and whether
the loop ran to its end (`false`: it left by `return 0` after a rejected
`addParam`). -/
def snakeUpdatePosition_loop (sin : R → R) (Pi : R) (bus : BusResults) (t : R)
    (ContactCondition : Int) : List Nat → List BusOp × Bool
  | [] => ([], true)
  | i :: rest =>
    if bus.addParam ((i : Int) - 1) = true then
      (BusOp.addParam ((i : Int) - 1)
          (DXL_LOBYTE (snakeUpdatePosition_goal sin Pi t ContactCondition i))
          (DXL_HIBYTE (snakeUpdatePosition_goal sin Pi t ContactCondition i)) true ::
        (snakeUpdatePosition_loop sin Pi bus t ContactCondition rest).1,
        (snakeUpdatePosition_loop sin Pi bus t ContactCondition rest).2)
    else
      ([BusOp.addParam ((i : Int) - 1)
          (DXL_LOBYTE (snakeUpdatePosition_goal sin Pi t ContactCondition i))
          (DXL_HIBYTE (snakeUpdatePosition_goal sin Pi t ContactCondition i)) false], false)

/-- The bus calls of `snakeUpdatePosition(t, ContactCondition)` (lines
2845-2910) and its return value: `some 0` after a rejected `addParam`; the
function ends without a `return` otherwise, which is `none`. -/
def snakeUpdatePosition_bus (sin : R → R) (Pi : R) (bus : BusResults) (t : R)
    (ContactCondition : Int) : List BusOp × Option Int :=
  if (snakeUpdatePosition_loop sin Pi bus t ContactCondition (List.range' 1 N)).2 = true then
    ((snakeUpdatePosition_loop sin Pi bus t ContactCondition (List.range' 1 N)).1 ++
      [BusOp.txPacket (bus.txPacket 0)] ++
      (if bus.txPacket 0 = true then [] else [BusOp.printTxRxResult]) ++
      [BusOp.clearParam], none)
  else
    ((snakeUpdatePosition_loop sin Pi bus t ContactCondition (List.range' 1 N)).1, some 0)

/-- The loop of `snakeAMM2` (lines 2939-2976) over the joint indices still to
do; `addParam`, `txPacket` and `clearParam` are all inside the loop body.  The
return value is `some 0` after a rejected `addParam`, else `none`. -/
def snakeAMM2_loop (sin : R → R) (Pi : R) (bus : BusResults) (t delA AMMStart : R) :
    List Nat → List BusOp × Option Int
  | [] => ([], none)
  | i :: rest =>
    if bus.addParam ((i : Int) - 1) = true then
      ([BusOp.addParam ((i : Int) - 1)
          (DXL_LOBYTE (snakeAMM2_goal sin Pi t delA AMMStart i))
          (DXL_HIBYTE (snakeAMM2_goal sin Pi t delA AMMStart i)) true,
        BusOp.txPacket (bus.txPacket (i - 1))] ++
        (if bus.txPacket (i - 1) = true then [] else [BusOp.printTxRxResult]) ++
        [BusOp.clearParam] ++
        (snakeAMM2_loop sin Pi bus t delA AMMStart rest).1,
        (snakeAMM2_loop sin Pi bus t delA AMMStart rest).2)
    else
      ([BusOp.addParam ((i : Int) - 1)
          (DXL_LOBYTE (snakeAMM2_goal sin Pi t delA AMMStart i))
          (DXL_HIBYTE (snakeAMM2_goal sin Pi t delA AMMStart i)) false], some 0)

/-- The bus calls of `snakeAMM2(t, delA, AMMStart)` and its return value. -/
def snakeAMM2_bus (sin : R → R) (Pi : R) (bus : BusResults) (t delA AMMStart : R) :
    List BusOp × Option Int :=
  snakeAMM2_loop sin Pi bus t delA AMMStart (List.range' 1 N)

/-- The bus calls of the generator call of lines 1245-1269; the return value of
the generator is discarded there. -/
def dispatch (sin : R → R) (Pi : R) (bus : BusResults) : Command → List BusOp
  | Command.AMM2 st delA AMMStart =>
    (snakeAMM2_bus sin Pi bus (st : R) (delA : R) (AMMStart : R)).1
  | Command.UpdatePosition st ContactCondition =>
    (snakeUpdatePosition_bus sin Pi bus (st : R) ContactCondition).1

/-- One processed tick with its bus calls: the state machine part, the
generator call, then lines 1280-1285. -/
def tickBus (sin : R → R) (Pi : R) (bus : BusResults) (s : Ctrl) (inp : Input) :
    Ctrl × List BusOp :=
  (advance (stateMachine s inp) inp,
    dispatch sin Pi bus (controllerCommand (stateMachine s inp)))

/-- One iteration of `while (st < stmax)` with its bus calls: the `continue` of
lines 744-747 comes before the state machine and the generator call. -/
def loopIterationBus (sin : R → R) (Pi : R) (bus : BusResults) (s : Ctrl) (inp : Input) :
    Ctrl × List BusOp :=
  if s.prev_t = inp.t then (s, []) else tickBus sin Pi bus s inp

end SnakeBus

/-- The packets a sequence of bus calls transmits: `addParam` appends an
accepted parameter to the staged ones, `txPacket` sends the staged parameters
as one packet, `clearParam` empties the staging storage. -/
def packets : List (Int × Int × Int) → List BusOp → List (List (Int × Int × Int))
  | _, [] => []
  | staged, BusOp.addParam id lo hi result :: ops =>
    packets (if result = true then staged ++ [(id, lo, hi)] else staged) ops
  | staged, BusOp.txPacket _ :: ops => staged :: packets staged ops
  | staged, BusOp.printTxRxResult :: ops => packets staged ops
  | _, BusOp.clearParam :: ops => packets [] ops

/-- The joint ids carried by each transmitted packet. -/
def packetIds (ops : List BusOp) : List (List Int) :=
  (packets [] ops).map (fun pkt => pkt.map (fun x => x.1))

/-! ## Vocabulary of the statements -/

/-- The state before tick `k` (ticks are numbered from 0) of a trial whose
processed ticks are `inps`; `stateAt junk inps (k + 1)` is the state after
tick `k`. -/
def stateAt (junk : Ctrl) (inps : List Input) (k : Nat) : Ctrl :=
  runTicks (initTrial junk) (inps.take k)

/-- Tick `j` exists and its sample satisfies `p`. -/
def sampleIs (p : String → Bool) (inps : List Input) (j : Nat) : Bool :=
  match inps[j]? with
  | some x => p x.last_input
  | none => false

/-- The three most recent samples at tick `k`, those of ticks `k - 2`, `k - 1`
and `k`, all satisfy `p`. -/
def threeConsecutive (p : String → Bool) (inps : List Input) (k : Nat) : Bool :=
  decide (2 ≤ k) && sampleIs p inps (k - 2) && sampleIs p inps (k - 1) && sampleIs p inps k

/-- Length of the run of consecutive samples satisfying `p` that ends with
tick `k - 1`. -/
def runLen (p : String → Bool) (inps : List Input) : Nat → Nat
  | 0 => 0
  | k + 1 => if sampleIs p inps k = true then runLen p inps k + 1 else 0

/-- The idle state of a trial: no contact start detected yet, no flag set. -/
def Idle (s : Ctrl) : Prop :=
  s.InitialContact = false ∧ s.WaitState = false ∧ s.FinalContact = false ∧
    s.InitializeWait = false ∧ s.wInitialContact = false ∧ s.wEndCounter = 0

/-- The first contact start has been detected and the first episode is not
finalized yet. -/
def FirstActive (s : Ctrl) : Prop :=
  s.InitialContact = true ∧ s.WaitState = false ∧ s.FinalContact = false ∧
    s.InitializeWait = false ∧ s.wInitialContact = false ∧ s.wEndCounter = 0

/-- The first episode has been finalized: the wait timer is latched, and the
machine is waiting unless it is decided. -/
def Waiting (s : Ctrl) : Prop :=
  s.InitialContact = true ∧ s.InitializeWait = true ∧
    (s.FinalContact = false → s.WaitState = true)

/-- The generator call made on tick `k`: the dispatch of lines 1245-1269 runs
after the state machine part of the tick and before `st` is advanced. -/
def commandAt (junk : Ctrl) (inps : List Input) (k : Nat) (hk : k < inps.length) : Command :=
  controllerCommand (stateMachine (stateAt junk inps k) (inps.get ⟨k, hk⟩))

/-- The correction-angle magnitude of the steering model as the specification
states it, for a sign and a wall-clock duration: the regression `negAngle`
when `sign > 0`, `posAngle` otherwise. -/
def correctionAngleMagnitude (sign : Int) (duration : ℚ) : ℚ :=
  if sign > 0 then ((-25.2 * duration) + 2.1) / 0.85 else ((14.1 * duration) + 2.3) / 0.85

/-- The correction angle of one decision computation as the specification
states it, for a base `delA` and an end phase `e`: with `k = ceil(2e)` and
`d = -delA` if `k` is odd, else `delA`, the output is `d` if `d < 0`, else
`-d`. -/
def alignedAngle (delA e : ℚ) : ℚ :=
  if (if ⌈2 * e⌉ % 2 = 1 then -delA else delA) < 0 then
    (if ⌈2 * e⌉ % 2 = 1 then -delA else delA)
  else -(if ⌈2 * e⌉ % 2 = 1 then -delA else delA)

/-- The start phase of one decision computation as the specification states
it: `k/2` if `d < 0`, else `k/2 + 0.5`, with `k` and `d` as in `alignedAngle`. -/
def alignedStart (delA e : ℚ) : ℚ :=
  if (if ⌈2 * e⌉ % 2 = 1 then -delA else delA) < 0 then (⌈2 * e⌉ : ℚ) / 2
  else (⌈2 * e⌉ : ℚ) / 2 + 0.5

/-- Number of executions of a decision computation recorded in the log: each
execution of the phase alignment prints exactly one of "Steer now!" and "Wait
to steer" (lines 1031-1040 and 1117-1126). -/
def decisionsRun (s : Ctrl) : Nat :=
  s.out.countP (fun m => decide (m = Msg.steerNow ∨ m = Msg.waitToSteer))

/-! ## Inputs used in the worked examples -/

/-- Four ticks: a release sample followed by three contact samples. -/
def contactStartTicks : List Input :=
  uniformTicks 0 (1 / 100) ["0000", "0100", "0100", "0100"]

/-- The end-to-end scenario: three "0100" samples, then three "0000" samples,
with timestamps `t1 .. t6`. -/
def sixTicks (t1 t2 t3 t4 t5 t6 : ℚ) : List Input :=
  [⟨t1, "0100"⟩, ⟨t2, "0100"⟩, ⟨t3, "0100"⟩, ⟨t4, "0000"⟩, ⟨t5, "0000"⟩, ⟨t6, "0000"⟩]

/-- The end-to-end scenario at 10 ms frames, for the worked example of the
finalization. -/
def scenarioTicks : List Input :=
  sixTicks 0.01 0.02 0.03 0.04 0.05 0.06

/-- The end-to-end scenario at 10 ms frames, followed by one frame two seconds
into the trial. -/
def timeoutTicks : List Input :=
  sixTicks 0.01 0.02 0.03 0.04 0.05 0.06 ++ [⟨2, "0000"⟩]

/-- Two ticks with a contact sample each. -/
def twoContacts : List Input := [⟨0.01, "0100"⟩, ⟨0.02, "0100"⟩]

/-- Three "0110" samples followed by three "0000" samples. -/
def bothFrontTicks : List Input :=
  [⟨0.01, "0110"⟩, ⟨0.02, "0110"⟩, ⟨0.03, "0110"⟩, ⟨0.04, "0000"⟩, ⟨0.05, "0000"⟩, ⟨0.06, "0000"⟩]

/-- A state on the tick that finalizes the second episode: the first episode
had sign -1 and wall duration 0.4; the second started at wall time 0.85 and
has end state "0010". -/
def firstShorterState : Ctrl :=
  { zeroCtrl with sign := -1, ActualDuration := 0.4, wActualStart := 0.85, wend_state := "0010" }

/-- A state on the tick that finalizes the second episode: the first episode
had sign -1 and wall duration 0.7; the second started at wall time 1.15 and
has end state "0010". -/
def firstLongerState : Ctrl :=
  { zeroCtrl with sign := -1, ActualDuration := 0.7, wActualStart := 1.15, wend_state := "0010" }

/-- A state entering the decision with end phase 1.3, sign -1 and wall
duration 0.03. -/
def endPhase13State : Ctrl :=
  { zeroCtrl with ContactEnd := 1.3, sign := -1, ActualDuration := 0.03 }

/-- A state on the tick that finalizes the second episode at gait time 0.5175
(tick 207), the first episode having ended at gait time 0.4975 (tick 199) with
sign -1 and wall duration 0.03; the second episode started at wall time 2.03
and has end state "0010". -/
def secondSelectedState : Ctrl :=
  { zeroCtrl with
    st := 0.5175, ContactEnd := 0.4975, sign := -1, ActualDuration := 0.03, wActualStart := 2.03,
    wend_state := "0010" }

/-- Three "0110" samples, three "0000" samples, then one frame two seconds into
the trial. -/
def bothFrontTimeoutTicks : List Input :=
  bothFrontTicks ++ [⟨2, "0000"⟩]

/-- The end-to-end scenario, the frame two seconds into the trial that times
the wait out, and one more frame. -/
def decidedTicks : List Input :=
  timeoutTicks ++ [⟨2.01, "0000"⟩]

/-- Two episodes at irregular frames: contact on ticks 0-2, release on ticks
3-5 (wait timer latched at 0.6), contact on ticks 6-8, release on ticks 9-11;
the last frame, at 1.7, both completes the second release debounce and lies
more than 1.0 after the latched time. -/
def doubleDecisionTicks : List Input :=
  [⟨0.1, "0100"⟩, ⟨0.2, "0100"⟩, ⟨0.3, "0100"⟩, ⟨0.4, "0000"⟩, ⟨0.5, "0000"⟩, ⟨0.6, "0000"⟩,
   ⟨0.7, "0010"⟩, ⟨0.8, "0010"⟩, ⟨0.9, "0010"⟩, ⟨1.0, "0000"⟩, ⟨1.1, "0000"⟩, ⟨1.7, "0000"⟩]

/-! ## Frame lemmas of the decision blocks -/

theorem phaseAlign_frame (s : Ctrl) :
    ∃ (a b c : ℚ) (m : Msg),
      phaseAlign s = { s with ContactEnd := a, AMMStart := b, delA := c, out := s.out ++ [m] } ∧
      (m = Msg.steerNow ∨ m = Msg.waitToSteer) := by
  unfold phaseAlign
  simp only
  split_ifs
  · exact ⟨_, _, _, _, rfl, Or.inl rfl⟩
  · exact ⟨_, _, _, _, rfl, Or.inr rfl⟩
  · exact ⟨_, _, _, _, rfl, Or.inl rfl⟩
  · exact ⟨_, _, _, _, rfl, Or.inr rfl⟩

theorem decisionTimeout_frame (s : Ctrl) :
    ∃ (p n g a b c : ℚ) (m : Msg),
      decisionTimeout s = { s with PosContactAngle := p, NegContactAngle := n, ContactAngle := g, ContactEnd := a, AMMStart := b, delA := c, out := s.out ++ [m] } ∧
      (m = Msg.steerNow ∨ m = Msg.waitToSteer) := by
  unfold decisionTimeout
  simp only
  split_ifs
  all_goals
    obtain ⟨a, b, c, m, h, hm⟩ := phaseAlign_frame _
    rw [h]
    exact ⟨_, _, _, _, _, _, _, rfl, hm⟩

theorem decisionTwoEpisode_frame (s : Ctrl) :
    ∃ (p n g a b c : ℚ) (m : Msg),
      decisionTwoEpisode s = { s with PosContactAngle := p, NegContactAngle := n, ContactAngle := g, ContactEnd := a, AMMStart := b, delA := c, out := s.out ++ [m] } ∧
      (m = Msg.steerNow ∨ m = Msg.waitToSteer) := by
  unfold decisionTwoEpisode
  simp only
  split_ifs
  all_goals
    obtain ⟨a, b, c, m, h, hm⟩ := phaseAlign_frame _
    rw [h]
    exact ⟨_, _, _, _, _, _, _, rfl, hm⟩

theorem timeoutDecide_frame (s : Ctrl) :
    ∃ (p n g a b c : ℚ) (m : Msg),
      timeoutDecide s = { s with WaitState := false, FinalContact := true, PosContactAngle := p, NegContactAngle := n, ContactAngle := g, ContactEnd := a, AMMStart := b, delA := c, out := s.out ++ [Msg.onlyOneContact, m] } ∧
      (m = Msg.steerNow ∨ m = Msg.waitToSteer) := by
  unfold timeoutDecide
  obtain ⟨p, n, g, a, b, c, m, h, hm⟩ := decisionTimeout_frame
    { s with WaitState := false, FinalContact := true, out := s.out ++ [Msg.onlyOneContact] }
  rw [h]
  exact ⟨p, n, g, a, b, c, m, by simp, hm⟩

theorem finalizeSecond_frame (s : Ctrl) (inp : Input) :
    ∃ (sg : Int) (cd ad p n g a b c : ℚ) (l : List Msg),
      finalizeSecond s inp = { s with wContactEnd := s.st, wActualEnd := inp.t, FinalContact := true, wsign := classifySecond s.wend_state, wContactDuration := s.st - s.wContactStart, wActualDuration := inp.t - s.wActualStart, sign := sg, ContactDuration := cd, ActualDuration := ad, PosContactAngle := p, NegContactAngle := n, ContactAngle := g, ContactEnd := a, AMMStart := b, delA := c, out := s.out ++ Msg.secondEndTime :: l } ∧
      ((sg = s.sign ∧ ad = s.ActualDuration) ∨ (sg = classifySecond s.wend_state ∧ ad = inp.t - s.wActualStart)) := by
  unfold finalizeSecond
  simp only
  split_ifs
  · obtain ⟨p, n, g, a, b, c, m, h, -⟩ := decisionTwoEpisode_frame
      { s with wContactEnd := s.st, wActualEnd := inp.t, FinalContact := true, wsign := classifySecond s.wend_state, wContactDuration := s.st - s.wContactStart, wActualDuration := inp.t - s.wActualStart, sign := classifySecond s.wend_state, ContactDuration := s.st - s.wContactStart, ActualDuration := inp.t - s.wActualStart, out := s.out ++ [Msg.secondEndTime, classifySecondMsg s.wend_state] ++ [Msg.steeringBasedOnSecond] }
    rw [h]
    exact ⟨classifySecond s.wend_state, s.st - s.wContactStart, inp.t - s.wActualStart, p, n, g, a, b, c,
      [classifySecondMsg s.wend_state, Msg.steeringBasedOnSecond, m], by simp, Or.inr ⟨rfl, rfl⟩⟩
  · obtain ⟨p, n, g, a, b, c, m, h, -⟩ := decisionTwoEpisode_frame
      { s with wContactEnd := s.st, wActualEnd := inp.t, FinalContact := true, wsign := classifySecond s.wend_state, wContactDuration := s.st - s.wContactStart, wActualDuration := inp.t - s.wActualStart, out := s.out ++ [Msg.secondEndTime, classifySecondMsg s.wend_state] ++ [Msg.firstLongerThanSecond] }
    rw [h]
    exact ⟨s.sign, s.ContactDuration, s.ActualDuration, p, n, g, a, b, c,
      [classifySecondMsg s.wend_state, Msg.firstLongerThanSecond, m], by simp, Or.inl ⟨rfl, rfl⟩⟩

@[simp]
theorem timeoutDecide_st (s : Ctrl) : (timeoutDecide s).st = s.st := by
  obtain ⟨p, n, g, a, b, c, m, h, -⟩ := timeoutDecide_frame s; rw [h]

@[simp]
theorem timeoutDecide_prev_t (s : Ctrl) : (timeoutDecide s).prev_t = s.prev_t := by
  obtain ⟨p, n, g, a, b, c, m, h, -⟩ := timeoutDecide_frame s; rw [h]

@[simp]
theorem timeoutDecide_ContactCondition (s : Ctrl) : (timeoutDecide s).ContactCondition = s.ContactCondition := by
  obtain ⟨p, n, g, a, b, c, m, h, -⟩ := timeoutDecide_frame s; rw [h]

@[simp]
theorem timeoutDecide_ContactStart (s : Ctrl) : (timeoutDecide s).ContactStart = s.ContactStart := by
  obtain ⟨p, n, g, a, b, c, m, h, -⟩ := timeoutDecide_frame s; rw [h]

@[simp]
theorem timeoutDecide_wContactStart (s : Ctrl) : (timeoutDecide s).wContactStart = s.wContactStart := by
  obtain ⟨p, n, g, a, b, c, m, h, -⟩ := timeoutDecide_frame s; rw [h]

@[simp]
theorem timeoutDecide_wContactEnd (s : Ctrl) : (timeoutDecide s).wContactEnd = s.wContactEnd := by
  obtain ⟨p, n, g, a, b, c, m, h, -⟩ := timeoutDecide_frame s; rw [h]

@[simp]
theorem timeoutDecide_ActualStart (s : Ctrl) : (timeoutDecide s).ActualStart = s.ActualStart := by
  obtain ⟨p, n, g, a, b, c, m, h, -⟩ := timeoutDecide_frame s; rw [h]

@[simp]
theorem timeoutDecide_wActualStart (s : Ctrl) : (timeoutDecide s).wActualStart = s.wActualStart := by
  obtain ⟨p, n, g, a, b, c, m, h, -⟩ := timeoutDecide_frame s; rw [h]

@[simp]
theorem timeoutDecide_ActualEnd (s : Ctrl) : (timeoutDecide s).ActualEnd = s.ActualEnd := by
  obtain ⟨p, n, g, a, b, c, m, h, -⟩ := timeoutDecide_frame s; rw [h]

@[simp]
theorem timeoutDecide_wActualEnd (s : Ctrl) : (timeoutDecide s).wActualEnd = s.wActualEnd := by
  obtain ⟨p, n, g, a, b, c, m, h, -⟩ := timeoutDecide_frame s; rw [h]

@[simp]
theorem timeoutDecide_ActualDuration (s : Ctrl) : (timeoutDecide s).ActualDuration = s.ActualDuration := by
  obtain ⟨p, n, g, a, b, c, m, h, -⟩ := timeoutDecide_frame s; rw [h]

@[simp]
theorem timeoutDecide_wActualDuration (s : Ctrl) : (timeoutDecide s).wActualDuration = s.wActualDuration := by
  obtain ⟨p, n, g, a, b, c, m, h, -⟩ := timeoutDecide_frame s; rw [h]

@[simp]
theorem timeoutDecide_WaitInitialTime (s : Ctrl) : (timeoutDecide s).WaitInitialTime = s.WaitInitialTime := by
  obtain ⟨p, n, g, a, b, c, m, h, -⟩ := timeoutDecide_frame s; rw [h]

@[simp]
theorem timeoutDecide_LoopTime (s : Ctrl) : (timeoutDecide s).LoopTime = s.LoopTime := by
  obtain ⟨p, n, g, a, b, c, m, h, -⟩ := timeoutDecide_frame s; rw [h]

@[simp]
theorem timeoutDecide_prev_input (s : Ctrl) : (timeoutDecide s).prev_input = s.prev_input := by
  obtain ⟨p, n, g, a, b, c, m, h, -⟩ := timeoutDecide_frame s; rw [h]

@[simp]
theorem timeoutDecide_end_state (s : Ctrl) : (timeoutDecide s).end_state = s.end_state := by
  obtain ⟨p, n, g, a, b, c, m, h, -⟩ := timeoutDecide_frame s; rw [h]

@[simp]
theorem timeoutDecide_wend_state (s : Ctrl) : (timeoutDecide s).wend_state = s.wend_state := by
  obtain ⟨p, n, g, a, b, c, m, h, -⟩ := timeoutDecide_frame s; rw [h]

@[simp]
theorem timeoutDecide_ContactCounter (s : Ctrl) : (timeoutDecide s).ContactCounter = s.ContactCounter := by
  obtain ⟨p, n, g, a, b, c, m, h, -⟩ := timeoutDecide_frame s; rw [h]

@[simp]
theorem timeoutDecide_wContactCounter (s : Ctrl) : (timeoutDecide s).wContactCounter = s.wContactCounter := by
  obtain ⟨p, n, g, a, b, c, m, h, -⟩ := timeoutDecide_frame s; rw [h]

@[simp]
theorem timeoutDecide_InitialContact (s : Ctrl) : (timeoutDecide s).InitialContact = s.InitialContact := by
  obtain ⟨p, n, g, a, b, c, m, h, -⟩ := timeoutDecide_frame s; rw [h]

@[simp]
theorem timeoutDecide_wInitialContact (s : Ctrl) : (timeoutDecide s).wInitialContact = s.wInitialContact := by
  obtain ⟨p, n, g, a, b, c, m, h, -⟩ := timeoutDecide_frame s; rw [h]

@[simp]
theorem timeoutDecide_InitializeWait (s : Ctrl) : (timeoutDecide s).InitializeWait = s.InitializeWait := by
  obtain ⟨p, n, g, a, b, c, m, h, -⟩ := timeoutDecide_frame s; rw [h]

@[simp]
theorem timeoutDecide_EndCounter (s : Ctrl) : (timeoutDecide s).EndCounter = s.EndCounter := by
  obtain ⟨p, n, g, a, b, c, m, h, -⟩ := timeoutDecide_frame s; rw [h]

@[simp]
theorem timeoutDecide_wEndCounter (s : Ctrl) : (timeoutDecide s).wEndCounter = s.wEndCounter := by
  obtain ⟨p, n, g, a, b, c, m, h, -⟩ := timeoutDecide_frame s; rw [h]

@[simp]
theorem timeoutDecide_ContactDuration (s : Ctrl) : (timeoutDecide s).ContactDuration = s.ContactDuration := by
  obtain ⟨p, n, g, a, b, c, m, h, -⟩ := timeoutDecide_frame s; rw [h]

@[simp]
theorem timeoutDecide_wContactDuration (s : Ctrl) : (timeoutDecide s).wContactDuration = s.wContactDuration := by
  obtain ⟨p, n, g, a, b, c, m, h, -⟩ := timeoutDecide_frame s; rw [h]

@[simp]
theorem timeoutDecide_sign (s : Ctrl) : (timeoutDecide s).sign = s.sign := by
  obtain ⟨p, n, g, a, b, c, m, h, -⟩ := timeoutDecide_frame s; rw [h]

@[simp]
theorem timeoutDecide_wsign (s : Ctrl) : (timeoutDecide s).wsign = s.wsign := by
  obtain ⟨p, n, g, a, b, c, m, h, -⟩ := timeoutDecide_frame s; rw [h]

@[simp]
theorem timeoutDecide_WaitState (s : Ctrl) : (timeoutDecide s).WaitState = false := by
  obtain ⟨p, n, g, a, b, c, m, h, -⟩ := timeoutDecide_frame s; rw [h]

@[simp]
theorem timeoutDecide_FinalContact (s : Ctrl) : (timeoutDecide s).FinalContact = true := by
  obtain ⟨p, n, g, a, b, c, m, h, -⟩ := timeoutDecide_frame s; rw [h]

@[simp]
theorem finalizeSecond_st (s : Ctrl) (inp : Input) : (finalizeSecond s inp).st = s.st := by
  obtain ⟨sg, cd, ad, p, n, g, a, b, c, l, h, -⟩ := finalizeSecond_frame s inp; rw [h]

@[simp]
theorem finalizeSecond_prev_t (s : Ctrl) (inp : Input) : (finalizeSecond s inp).prev_t = s.prev_t := by
  obtain ⟨sg, cd, ad, p, n, g, a, b, c, l, h, -⟩ := finalizeSecond_frame s inp; rw [h]

@[simp]
theorem finalizeSecond_ContactCondition (s : Ctrl) (inp : Input) : (finalizeSecond s inp).ContactCondition = s.ContactCondition := by
  obtain ⟨sg, cd, ad, p, n, g, a, b, c, l, h, -⟩ := finalizeSecond_frame s inp; rw [h]

@[simp]
theorem finalizeSecond_ContactStart (s : Ctrl) (inp : Input) : (finalizeSecond s inp).ContactStart = s.ContactStart := by
  obtain ⟨sg, cd, ad, p, n, g, a, b, c, l, h, -⟩ := finalizeSecond_frame s inp; rw [h]

@[simp]
theorem finalizeSecond_wContactStart (s : Ctrl) (inp : Input) : (finalizeSecond s inp).wContactStart = s.wContactStart := by
  obtain ⟨sg, cd, ad, p, n, g, a, b, c, l, h, -⟩ := finalizeSecond_frame s inp; rw [h]

@[simp]
theorem finalizeSecond_ActualStart (s : Ctrl) (inp : Input) : (finalizeSecond s inp).ActualStart = s.ActualStart := by
  obtain ⟨sg, cd, ad, p, n, g, a, b, c, l, h, -⟩ := finalizeSecond_frame s inp; rw [h]

@[simp]
theorem finalizeSecond_wActualStart (s : Ctrl) (inp : Input) : (finalizeSecond s inp).wActualStart = s.wActualStart := by
  obtain ⟨sg, cd, ad, p, n, g, a, b, c, l, h, -⟩ := finalizeSecond_frame s inp; rw [h]

@[simp]
theorem finalizeSecond_ActualEnd (s : Ctrl) (inp : Input) : (finalizeSecond s inp).ActualEnd = s.ActualEnd := by
  obtain ⟨sg, cd, ad, p, n, g, a, b, c, l, h, -⟩ := finalizeSecond_frame s inp; rw [h]

@[simp]
theorem finalizeSecond_WaitInitialTime (s : Ctrl) (inp : Input) : (finalizeSecond s inp).WaitInitialTime = s.WaitInitialTime := by
  obtain ⟨sg, cd, ad, p, n, g, a, b, c, l, h, -⟩ := finalizeSecond_frame s inp; rw [h]

@[simp]
theorem finalizeSecond_LoopTime (s : Ctrl) (inp : Input) : (finalizeSecond s inp).LoopTime = s.LoopTime := by
  obtain ⟨sg, cd, ad, p, n, g, a, b, c, l, h, -⟩ := finalizeSecond_frame s inp; rw [h]

@[simp]
theorem finalizeSecond_prev_input (s : Ctrl) (inp : Input) : (finalizeSecond s inp).prev_input = s.prev_input := by
  obtain ⟨sg, cd, ad, p, n, g, a, b, c, l, h, -⟩ := finalizeSecond_frame s inp; rw [h]

@[simp]
theorem finalizeSecond_end_state (s : Ctrl) (inp : Input) : (finalizeSecond s inp).end_state = s.end_state := by
  obtain ⟨sg, cd, ad, p, n, g, a, b, c, l, h, -⟩ := finalizeSecond_frame s inp; rw [h]

@[simp]
theorem finalizeSecond_wend_state (s : Ctrl) (inp : Input) : (finalizeSecond s inp).wend_state = s.wend_state := by
  obtain ⟨sg, cd, ad, p, n, g, a, b, c, l, h, -⟩ := finalizeSecond_frame s inp; rw [h]

@[simp]
theorem finalizeSecond_ContactCounter (s : Ctrl) (inp : Input) : (finalizeSecond s inp).ContactCounter = s.ContactCounter := by
  obtain ⟨sg, cd, ad, p, n, g, a, b, c, l, h, -⟩ := finalizeSecond_frame s inp; rw [h]

@[simp]
theorem finalizeSecond_wContactCounter (s : Ctrl) (inp : Input) : (finalizeSecond s inp).wContactCounter = s.wContactCounter := by
  obtain ⟨sg, cd, ad, p, n, g, a, b, c, l, h, -⟩ := finalizeSecond_frame s inp; rw [h]

@[simp]
theorem finalizeSecond_InitialContact (s : Ctrl) (inp : Input) : (finalizeSecond s inp).InitialContact = s.InitialContact := by
  obtain ⟨sg, cd, ad, p, n, g, a, b, c, l, h, -⟩ := finalizeSecond_frame s inp; rw [h]

@[simp]
theorem finalizeSecond_wInitialContact (s : Ctrl) (inp : Input) : (finalizeSecond s inp).wInitialContact = s.wInitialContact := by
  obtain ⟨sg, cd, ad, p, n, g, a, b, c, l, h, -⟩ := finalizeSecond_frame s inp; rw [h]

@[simp]
theorem finalizeSecond_WaitState (s : Ctrl) (inp : Input) : (finalizeSecond s inp).WaitState = s.WaitState := by
  obtain ⟨sg, cd, ad, p, n, g, a, b, c, l, h, -⟩ := finalizeSecond_frame s inp; rw [h]

@[simp]
theorem finalizeSecond_InitializeWait (s : Ctrl) (inp : Input) : (finalizeSecond s inp).InitializeWait = s.InitializeWait := by
  obtain ⟨sg, cd, ad, p, n, g, a, b, c, l, h, -⟩ := finalizeSecond_frame s inp; rw [h]

@[simp]
theorem finalizeSecond_EndCounter (s : Ctrl) (inp : Input) : (finalizeSecond s inp).EndCounter = s.EndCounter := by
  obtain ⟨sg, cd, ad, p, n, g, a, b, c, l, h, -⟩ := finalizeSecond_frame s inp; rw [h]

@[simp]
theorem finalizeSecond_wEndCounter (s : Ctrl) (inp : Input) : (finalizeSecond s inp).wEndCounter = s.wEndCounter := by
  obtain ⟨sg, cd, ad, p, n, g, a, b, c, l, h, -⟩ := finalizeSecond_frame s inp; rw [h]

@[simp]
theorem finalizeSecond_FinalContact (s : Ctrl) (inp : Input) : (finalizeSecond s inp).FinalContact = true := by
  obtain ⟨sg, cd, ad, p, n, g, a, b, c, l, h, -⟩ := finalizeSecond_frame s inp; rw [h]

/-! ## Frame lemmas of the second-contact tracking -/

@[simp]
theorem trackSecondContact_st (s : Ctrl) (inp : Input) : (trackSecondContact s inp).st = s.st := by
  unfold trackSecondContact
  simp only [apply_ite Ctrl.st, ite_self]

@[simp]
theorem trackSecondContact_prev_t (s : Ctrl) (inp : Input) : (trackSecondContact s inp).prev_t = s.prev_t := by
  unfold trackSecondContact
  simp only [apply_ite Ctrl.prev_t, ite_self]

@[simp]
theorem trackSecondContact_delA (s : Ctrl) (inp : Input) : (trackSecondContact s inp).delA = s.delA := by
  unfold trackSecondContact
  simp only [apply_ite Ctrl.delA, ite_self]

@[simp]
theorem trackSecondContact_ContactCondition (s : Ctrl) (inp : Input) : (trackSecondContact s inp).ContactCondition = s.ContactCondition := by
  unfold trackSecondContact
  simp only [apply_ite Ctrl.ContactCondition, ite_self]

@[simp]
theorem trackSecondContact_ContactStart (s : Ctrl) (inp : Input) : (trackSecondContact s inp).ContactStart = s.ContactStart := by
  unfold trackSecondContact
  simp only [apply_ite Ctrl.ContactStart, ite_self]

@[simp]
theorem trackSecondContact_ContactEnd (s : Ctrl) (inp : Input) : (trackSecondContact s inp).ContactEnd = s.ContactEnd := by
  unfold trackSecondContact
  simp only [apply_ite Ctrl.ContactEnd, ite_self]

@[simp]
theorem trackSecondContact_wContactEnd (s : Ctrl) (inp : Input) : (trackSecondContact s inp).wContactEnd = s.wContactEnd := by
  unfold trackSecondContact
  simp only [apply_ite Ctrl.wContactEnd, ite_self]

@[simp]
theorem trackSecondContact_ActualStart (s : Ctrl) (inp : Input) : (trackSecondContact s inp).ActualStart = s.ActualStart := by
  unfold trackSecondContact
  simp only [apply_ite Ctrl.ActualStart, ite_self]

@[simp]
theorem trackSecondContact_ActualEnd (s : Ctrl) (inp : Input) : (trackSecondContact s inp).ActualEnd = s.ActualEnd := by
  unfold trackSecondContact
  simp only [apply_ite Ctrl.ActualEnd, ite_self]

@[simp]
theorem trackSecondContact_wActualEnd (s : Ctrl) (inp : Input) : (trackSecondContact s inp).wActualEnd = s.wActualEnd := by
  unfold trackSecondContact
  simp only [apply_ite Ctrl.wActualEnd, ite_self]

@[simp]
theorem trackSecondContact_ActualDuration (s : Ctrl) (inp : Input) : (trackSecondContact s inp).ActualDuration = s.ActualDuration := by
  unfold trackSecondContact
  simp only [apply_ite Ctrl.ActualDuration, ite_self]

@[simp]
theorem trackSecondContact_wActualDuration (s : Ctrl) (inp : Input) : (trackSecondContact s inp).wActualDuration = s.wActualDuration := by
  unfold trackSecondContact
  simp only [apply_ite Ctrl.wActualDuration, ite_self]

@[simp]
theorem trackSecondContact_WaitInitialTime (s : Ctrl) (inp : Input) : (trackSecondContact s inp).WaitInitialTime = s.WaitInitialTime := by
  unfold trackSecondContact
  simp only [apply_ite Ctrl.WaitInitialTime, ite_self]

@[simp]
theorem trackSecondContact_LoopTime (s : Ctrl) (inp : Input) : (trackSecondContact s inp).LoopTime = s.LoopTime := by
  unfold trackSecondContact
  simp only [apply_ite Ctrl.LoopTime, ite_self]

@[simp]
theorem trackSecondContact_prev_input (s : Ctrl) (inp : Input) : (trackSecondContact s inp).prev_input = s.prev_input := by
  unfold trackSecondContact
  simp only [apply_ite Ctrl.prev_input, ite_self]

@[simp]
theorem trackSecondContact_end_state (s : Ctrl) (inp : Input) : (trackSecondContact s inp).end_state = s.end_state := by
  unfold trackSecondContact
  simp only [apply_ite Ctrl.end_state, ite_self]

@[simp]
theorem trackSecondContact_ContactCounter (s : Ctrl) (inp : Input) : (trackSecondContact s inp).ContactCounter = s.ContactCounter := by
  unfold trackSecondContact
  simp only [apply_ite Ctrl.ContactCounter, ite_self]

@[simp]
theorem trackSecondContact_InitialContact (s : Ctrl) (inp : Input) : (trackSecondContact s inp).InitialContact = s.InitialContact := by
  unfold trackSecondContact
  simp only [apply_ite Ctrl.InitialContact, ite_self]

@[simp]
theorem trackSecondContact_WaitState (s : Ctrl) (inp : Input) : (trackSecondContact s inp).WaitState = s.WaitState := by
  unfold trackSecondContact
  simp only [apply_ite Ctrl.WaitState, ite_self]

@[simp]
theorem trackSecondContact_FinalContact (s : Ctrl) (inp : Input) : (trackSecondContact s inp).FinalContact = s.FinalContact := by
  unfold trackSecondContact
  simp only [apply_ite Ctrl.FinalContact, ite_self]

@[simp]
theorem trackSecondContact_InitializeWait (s : Ctrl) (inp : Input) : (trackSecondContact s inp).InitializeWait = s.InitializeWait := by
  unfold trackSecondContact
  simp only [apply_ite Ctrl.InitializeWait, ite_self]

@[simp]
theorem trackSecondContact_AMMStart (s : Ctrl) (inp : Input) : (trackSecondContact s inp).AMMStart = s.AMMStart := by
  unfold trackSecondContact
  simp only [apply_ite Ctrl.AMMStart, ite_self]

@[simp]
theorem trackSecondContact_EndCounter (s : Ctrl) (inp : Input) : (trackSecondContact s inp).EndCounter = s.EndCounter := by
  unfold trackSecondContact
  simp only [apply_ite Ctrl.EndCounter, ite_self]

@[simp]
theorem trackSecondContact_ContactDuration (s : Ctrl) (inp : Input) : (trackSecondContact s inp).ContactDuration = s.ContactDuration := by
  unfold trackSecondContact
  simp only [apply_ite Ctrl.ContactDuration, ite_self]

@[simp]
theorem trackSecondContact_wContactDuration (s : Ctrl) (inp : Input) : (trackSecondContact s inp).wContactDuration = s.wContactDuration := by
  unfold trackSecondContact
  simp only [apply_ite Ctrl.wContactDuration, ite_self]

@[simp]
theorem trackSecondContact_ContactAngle (s : Ctrl) (inp : Input) : (trackSecondContact s inp).ContactAngle = s.ContactAngle := by
  unfold trackSecondContact
  simp only [apply_ite Ctrl.ContactAngle, ite_self]

@[simp]
theorem trackSecondContact_PosContactAngle (s : Ctrl) (inp : Input) : (trackSecondContact s inp).PosContactAngle = s.PosContactAngle := by
  unfold trackSecondContact
  simp only [apply_ite Ctrl.PosContactAngle, ite_self]

@[simp]
theorem trackSecondContact_NegContactAngle (s : Ctrl) (inp : Input) : (trackSecondContact s inp).NegContactAngle = s.NegContactAngle := by
  unfold trackSecondContact
  simp only [apply_ite Ctrl.NegContactAngle, ite_self]

@[simp]
theorem trackSecondContact_sign (s : Ctrl) (inp : Input) : (trackSecondContact s inp).sign = s.sign := by
  unfold trackSecondContact
  simp only [apply_ite Ctrl.sign, ite_self]

@[simp]
theorem trackSecondContact_wsign (s : Ctrl) (inp : Input) : (trackSecondContact s inp).wsign = s.wsign := by
  unfold trackSecondContact
  simp only [apply_ite Ctrl.wsign, ite_self]

/-! ## One tick in each phase of the state machine -/

theorem isContact_not_isRelease (x : String) (h : isContact x = true) : isRelease x = false := by
  simp only [isContact, decide_eq_true_eq] at h
  rcases h with h | h | h <;> subst h <;> decide

theorem isRelease_not_isContact (x : String) (h : isRelease x = true) : isContact x = false := by
  simp only [isRelease, decide_eq_true_eq] at h
  rcases h with h | h | h <;> subst h <;> decide

theorem one_not_lt_zero : ¬ ((1.0 : ℚ) < 0) := by norm_num

theorem stateAt_zero (junk : Ctrl) (inps : List Input) : stateAt junk inps 0 = initTrial junk := by
  simp [stateAt, runTicks]

theorem stateAt_succ (junk : Ctrl) (inps : List Input) (k : Nat) (hk : k < inps.length) :
    stateAt junk inps (k + 1) = tick (stateAt junk inps k) (inps.get ⟨k, hk⟩) := by
  unfold stateAt runTicks
  rw [List.take_succ, List.getElem?_eq_getElem hk, List.foldl_append]
  rfl

theorem sampleIs_of_lt (p : String → Bool) (inps : List Input) (k : Nat) (hk : k < inps.length) :
    sampleIs p inps k = p (inps.get ⟨k, hk⟩).last_input := by
  simp [sampleIs, List.getElem?_eq_getElem hk]

theorem threeConsecutive_iff_runLen (p : String → Bool) (inps : List Input) (k : Nat) :
    threeConsecutive p inps k = true ↔ 3 ≤ runLen p inps (k + 1) := by
  rcases k with _ | _ | k
  · simp [threeConsecutive, runLen]
    split_ifs <;> omega
  · simp [threeConsecutive, runLen]
    split_ifs <;> omega
  · have e1 : k + 1 + 1 - 2 = k := by omega
    have e2 : k + 1 + 1 - 1 = k + 1 := by omega
    simp only [threeConsecutive, runLen, Bool.and_eq_true, decide_eq_true_eq, e1, e2]
    by_cases h0 : sampleIs p inps k = true <;> by_cases h1 : sampleIs p inps (k + 1) = true <;>
      by_cases h2 : sampleIs p inps (k + 1 + 1) = true <;> simp [h0, h1, h2]

theorem tick_idle (s : Ctrl) (inp : Input) (h : Idle s) :
    (tick s inp).ContactCounter = (if isContact inp.last_input = true then s.ContactCounter + 1 else 0) ∧
    (((tick s inp).ContactCounter ≠ 3) → Idle (tick s inp)) ∧
    (((tick s inp).ContactCounter = 3) → FirstActive (tick s inp) ∧ (tick s inp).EndCounter = 0 ∧
        (tick s inp).ContactStart = s.st ∧ (tick s inp).ActualStart = inp.t) := by
  obtain ⟨h1, h2, h3, h4, h5, h6⟩ := h
  by_cases hc : isContact inp.last_input = true
  · have hr := isContact_not_isRelease _ hc
    by_cases h3' : s.ContactCounter + 1 = 3
    · simp [tick, advance, stateMachine, updateContactCounter, detectContactStart, detectEndContact,
        waitingState, Idle, FirstActive, h1, h2, h3, h4, h5, h6, hc, hr, h3']
    · simp [tick, advance, stateMachine, updateContactCounter, detectContactStart, detectEndContact,
        waitingState, Idle, FirstActive, h1, h2, h3, h4, h5, h6, hc, hr, h3']
  · simp [tick, advance, stateMachine, updateContactCounter, detectContactStart, detectEndContact,
        waitingState, Idle, FirstActive, h1, h2, h3, h4, h5, h6, hc]

theorem tick_firstActive (s : Ctrl) (inp : Input) (h : FirstActive s) :
    (tick s inp).EndCounter = (if isRelease inp.last_input = true then s.EndCounter + 1 else 0) ∧
    (tick s inp).end_state = (if (tick s inp).EndCounter = 1 then s.prev_input else s.end_state) ∧
    (((tick s inp).EndCounter ≠ 3) → FirstActive (tick s inp)) ∧
    (((tick s inp).EndCounter = 3) →
      Waiting (tick s inp) ∧ (tick s inp).WaitState = true ∧ (tick s inp).FinalContact = false ∧
      (tick s inp).WaitInitialTime = inp.t ∧ (tick s inp).ContactEnd = s.st ∧
      (tick s inp).sign = classifyFirst (tick s inp).end_state ∧
      (tick s inp).ActualDuration = inp.t - s.ActualStart ∧
      (tick s inp).out = s.out ++ [Msg.firstEndTime, classifyFirstMsg (tick s inp).end_state]) := by
  obtain ⟨h1, h2, h3, h4, h5, h6⟩ := h
  by_cases hr : isRelease inp.last_input = true
  · have hc := isRelease_not_isContact _ hr
    by_cases h3' : s.EndCounter + 1 = 3
    · have h1' : ¬ (s.EndCounter + 1 = 1) := by omega
      simp [tick, advance, stateMachine, updateContactCounter, detectContactStart, detectEndContact,
        waitingState, latchWaitTimer, trackSecondContact, finalizeFirst, FirstActive, Waiting, h1, h2, h3, h4, h5, h6, hc, hr, h3', h1', one_not_lt_zero]
    · by_cases h1' : s.EndCounter + 1 = 1
      · simp [tick, advance, stateMachine, updateContactCounter, detectContactStart, detectEndContact,
          waitingState, finalizeFirst, FirstActive, Waiting, h1, h2, h3, h4, h5, h6, hc, hr, h3', h1']
      · simp [tick, advance, stateMachine, updateContactCounter, detectContactStart, detectEndContact,
          waitingState, finalizeFirst, FirstActive, Waiting, h1, h2, h3, h4, h5, h6, hc, hr, h3', h1']
  · by_cases hc : isContact inp.last_input = true <;>
    simp [tick, advance, stateMachine, updateContactCounter, detectContactStart, detectEndContact,
        waitingState, finalizeFirst, FirstActive, Waiting, h1, h2, h3, h4, h5, h6, hc, hr]

theorem updateContactCounter_eq (s : Ctrl) (inp : Input) :
    updateContactCounter s inp =
      { s with ContactCounter := if isContact inp.last_input = true then s.ContactCounter + 1 else 0 } := by
  unfold updateContactCounter; split_ifs <;> rfl

/-- A tick of a decided machine only updates the first contact counter and
advances the gait time. -/
theorem tick_final (s : Ctrl) (inp : Input) (hI : s.InitialContact = true) (hF : s.FinalContact = true) :
    tick s inp = advance (updateContactCounter s inp) inp := by
  simp [tick, stateMachine, updateContactCounter_eq, detectContactStart, detectEndContact,
    waitingState, hI, hF]

theorem finalizeSecond_out_mem (s : Ctrl) (inp : Input) :
    Msg.secondEndTime ∈ (finalizeSecond s inp).out := by
  obtain ⟨sg, cd, ad, p, n, g, a, b, c, l, h, -⟩ := finalizeSecond_frame s inp
  rw [h]; simp

theorem timeoutDecide_out_mem (s : Ctrl) (x : Msg) (hx : x ∈ s.out) : x ∈ (timeoutDecide s).out := by
  obtain ⟨p, n, g, a, b, c, m, h, -⟩ := timeoutDecide_frame s
  rw [h]; simp [hx]

@[simp]
theorem secondEndTime_mem_timeoutDecide (s : Ctrl) :
    Msg.secondEndTime ∈ (timeoutDecide s).out ↔ Msg.secondEndTime ∈ s.out := by
  obtain ⟨p, n, g, a, b, c, m, h, hm⟩ := timeoutDecide_frame s
  rw [h]
  rcases hm with rfl | rfl <;> simp

theorem finalizeSecond_sign (s : Ctrl) (inp : Input) :
    ((finalizeSecond s inp).sign = s.sign ∧ (finalizeSecond s inp).ActualDuration = s.ActualDuration) ∨
    ((finalizeSecond s inp).sign = classifySecond s.wend_state ∧
      (finalizeSecond s inp).ActualDuration = inp.t - s.wActualStart) := by
  obtain ⟨sg, cd, ad, p, n, g, a, b, c, l, h, hor⟩ := finalizeSecond_frame s inp
  rw [h]; exact hor

theorem waitingState_entered (u : Ctrl) (inp : Input) (hW : u.WaitState = true)
    (hF : u.FinalContact = false) (hL : u.InitializeWait = true) :
    (waitingState u inp).InitialContact = u.InitialContact ∧
    (waitingState u inp).InitializeWait = true ∧
    (waitingState u inp).WaitInitialTime = u.WaitInitialTime ∧
    ((waitingState u inp).FinalContact = false → (waitingState u inp).WaitState = true ∧
      (waitingState u inp).sign = u.sign ∧ (waitingState u inp).ActualDuration = u.ActualDuration) ∧
    (inp.t - u.WaitInitialTime > 1 → (waitingState u inp).FinalContact = true) ∧
    (Msg.secondEndTime ∉ (waitingState u inp).out → (waitingState u inp).sign = u.sign ∧
      (waitingState u inp).ActualDuration = u.ActualDuration) := by
  have f1 : (trackSecondContact u inp).InitialContact = u.InitialContact := by simp
  have f2 : (trackSecondContact u inp).InitializeWait = true := by simp [hL]
  have f3 : (trackSecondContact u inp).WaitInitialTime = u.WaitInitialTime := by simp
  have f4 : (trackSecondContact u inp).WaitState = true := by simp [hW]
  have f5 : (trackSecondContact u inp).FinalContact = false := by simp [hF]
  have f6 : (trackSecondContact u inp).sign = u.sign := by simp
  have f7 : (trackSecondContact u inp).ActualDuration = u.ActualDuration := by simp
  have e1 : ((1.0 : ℚ)) = 1 := by norm_num
  simp only [waitingState, latchWaitTimer, hW, hF, hL, and_self, if_true, Bool.true_eq_false,
    if_false, e1]
  generalize trackSecondContact u inp = s4 at f1 f2 f3 f4 f5 f6 f7 ⊢
  by_cases h3 : s4.wEndCounter = 3
  · have m1 := finalizeSecond_out_mem s4 inp
    simp only [h3, if_true]
    by_cases hT : inp.t - u.WaitInitialTime > 1
    · simp [f1, f2, f3, hT, m1]
    · simp [f1, f2, f3, hT, m1]
  · simp only [h3, if_false]
    by_cases hT : inp.t - u.WaitInitialTime > 1
    · simp [f1, f2, f3, f6, f7, hT]
    · simp [f1, f2, f3, f4, f5, f6, f7, hT]

theorem tick_waiting (s : Ctrl) (inp : Input) (h : Waiting s) :
    Waiting (tick s inp) ∧ (tick s inp).WaitInitialTime = s.WaitInitialTime ∧
    (s.FinalContact = true → (tick s inp).FinalContact = true ∧ (tick s inp).WaitState = s.WaitState) ∧
    ((tick s inp).FinalContact = false → (tick s inp).sign = s.sign ∧
        (tick s inp).ActualDuration = s.ActualDuration) ∧
    (s.FinalContact = false → inp.t - s.WaitInitialTime > 1 →
      (tick s inp).FinalContact = true ∧
      (Msg.secondEndTime ∉ (tick s inp).out → (tick s inp).sign = s.sign ∧
        (tick s inp).ActualDuration = s.ActualDuration)) := by
  obtain ⟨hI, hL, hW⟩ := h
  by_cases hF : s.FinalContact = true
  · rw [tick_final s inp hI hF]
    simp [advance, updateContactCounter_eq, Waiting, hI, hL, hF]
  · have hF' : s.FinalContact = false := by simpa using hF
    have hW' := hW hF'
    have e : tick s inp = advance (waitingState (updateContactCounter s inp) inp) inp := by
      simp [tick, stateMachine, updateContactCounter_eq, detectContactStart, detectEndContact, hI, hW']
    obtain ⟨g1, g2, g3, g4, g5, g6⟩ := waitingState_entered (updateContactCounter s inp) inp
      (by simp [updateContactCounter_eq, hW']) (by simp [updateContactCounter_eq, hF'])
      (by simp [updateContactCounter_eq, hL])
    simp only [updateContactCounter_eq] at g1 g2 g3 g4 g5 g6
    rw [e]
    simp only [advance, Waiting, updateContactCounter_eq]
    refine ⟨⟨by rw [g1]; exact hI, g2, fun hh => (g4 hh).1⟩, g3, fun hh => absurd hh hF,
      fun hh => (g4 hh).2, fun _ hT => ⟨g5 hT, g6⟩⟩


/-! ## Phases of a trial -/

theorem initTrial_idle (junk : Ctrl) : Idle (initTrial junk) := by
  simp [Idle, initTrial]

/-- Every state of a trial is idle, first-contact-active, or past the first
episode. -/
theorem phase_stateAt (junk : Ctrl) (inps : List Input) (k : Nat) (hk : k ≤ inps.length) :
    Idle (stateAt junk inps k) ∨ FirstActive (stateAt junk inps k) ∨ Waiting (stateAt junk inps k) := by
  induction k with
  | zero => left; rw [stateAt_zero]; exact initTrial_idle junk
  | succ k ih =>
    have hk' : k < inps.length := hk
    rw [stateAt_succ junk inps k hk']
    rcases ih (Nat.le_of_lt hk') with h | h | h
    · obtain ⟨-, h1, h2⟩ := tick_idle _ (inps.get ⟨k, hk'⟩) h
      by_cases h3 : (tick (stateAt junk inps k) (inps.get ⟨k, hk'⟩)).ContactCounter = 3
      · exact Or.inr (Or.inl (h2 h3).1)
      · exact Or.inl (h1 h3)
    · obtain ⟨-, -, h1, h2⟩ := tick_firstActive _ (inps.get ⟨k, hk'⟩) h
      by_cases h3 : (tick (stateAt junk inps k) (inps.get ⟨k, hk'⟩)).EndCounter = 3
      · exact Or.inr (Or.inr (h2 h3).1)
      · exact Or.inr (Or.inl (h1 h3))
    · exact Or.inr (Or.inr (tick_waiting _ _ h).1)

theorem runLen_succ (p : String → Bool) (inps : List Input) (k : Nat) (hk : k < inps.length) :
    runLen p inps (k + 1) =
      if p (inps.get ⟨k, hk⟩).last_input = true then runLen p inps k + 1 else 0 := by
  simp only [runLen, sampleIs_of_lt p inps k hk]

/-- While no contact start has been detected the machine is idle and the first
contact counter is the length of the current run of contact samples; no start
is detected as long as no run reaches length 3. -/
theorem idle_phase (junk : Ctrl) (inps : List Input) (k : Nat) (hk : k ≤ inps.length) :
    ((stateAt junk inps k).InitialContact = false →
      Idle (stateAt junk inps k) ∧
      (stateAt junk inps k).ContactCounter = runLen isContact inps k ∧
      ∀ j, j < k → runLen isContact inps (j + 1) < 3) ∧
    ((∀ j, j < k → runLen isContact inps (j + 1) < 3) →
      (stateAt junk inps k).InitialContact = false) := by
  induction k with
  | zero =>
    rw [stateAt_zero]
    refine ⟨fun _ => ⟨initTrial_idle junk, by simp [initTrial, runLen], by simp⟩, fun _ => by simp [initTrial]⟩
  | succ k ih =>
    have hk' : k < inps.length := hk
    obtain ⟨ih1, ih2⟩ := ih (Nat.le_of_lt hk')
    have hs := stateAt_succ junk inps k hk'
    have hr := runLen_succ isContact inps k hk'
    constructor
    · intro hIC
      have hICk : (stateAt junk inps k).InitialContact = false := by
        by_contra hc
        have : (stateAt junk inps k).InitialContact = true := by simpa using hc
        rcases phase_stateAt junk inps k (Nat.le_of_lt hk') with h | h | h
        · exact hc h.1
        · obtain ⟨-, -, h1, h2⟩ := tick_firstActive _ (inps.get ⟨k, hk'⟩) h
          rw [← hs] at h1 h2
          by_cases h3 : (stateAt junk inps (k + 1)).EndCounter = 3
          · have := (h2 h3).1.1; simp [hIC] at this
          · have := (h1 h3).1; simp [hIC] at this
        · have := (tick_waiting _ (inps.get ⟨k, hk'⟩) h).1.1
          rw [← hs] at this; simp [hIC] at this
      obtain ⟨hidle, hcc, hprev⟩ := ih1 hICk
      obtain ⟨t1, t2, t3⟩ := tick_idle _ (inps.get ⟨k, hk'⟩) hidle
      rw [← hs] at t1 t2 t3
      have hne : (stateAt junk inps (k + 1)).ContactCounter ≠ 3 := by
        intro h3
        have := (t3 h3).1.1; simp [hIC] at this
      have hcc' : (stateAt junk inps (k + 1)).ContactCounter = runLen isContact inps (k + 1) := by
        rw [t1, hr, hcc]
      refine ⟨t2 hne, hcc', ?_⟩
      intro j hj
      rcases Nat.lt_succ_iff_lt_or_eq.mp hj with hj' | rfl
      · exact hprev j hj'
      · have hle : runLen isContact inps (j + 1) ≤ 3 := by
          rw [hr]
          rcases j with _ | j
          · simp [runLen]; split_ifs <;> omega
          · have := hprev j (Nat.lt_succ_self j)
            split_ifs <;> omega
        rw [← hcc'] at hle ⊢
        omega
    · intro hall
      have hICk := ih2 (fun j hj => hall j (Nat.lt_succ_of_lt hj))
      obtain ⟨hidle, hcc, -⟩ := ih1 hICk
      obtain ⟨t1, t2, -⟩ := tick_idle _ (inps.get ⟨k, hk'⟩) hidle
      rw [← hs] at t1 t2
      have hlt := hall k (Nat.lt_succ_self k)
      have hne : (stateAt junk inps (k + 1)).ContactCounter ≠ 3 := by
        rw [t1, hcc, ← hr]; omega
      exact (t2 hne).1


theorem stateAt_prev_input (junk : Ctrl) (inps : List Input) (k : Nat) (hk : k < inps.length) :
    (stateAt junk inps (k + 1)).prev_input = (inps.get ⟨k, hk⟩).last_input := by
  rw [stateAt_succ junk inps k hk]; rfl

/-- The tick on which the first contact start is detected processes a contact
sample and leaves the machine first-contact-active with the end counter at 0. -/
theorem detection_state (junk : Ctrl) (inps : List Input) (d : Nat) (hd : d < inps.length)
    (hdet : (stateAt junk inps d).InitialContact = false ∧
      (stateAt junk inps (d + 1)).InitialContact = true) :
    FirstActive (stateAt junk inps (d + 1)) ∧ (stateAt junk inps (d + 1)).EndCounter = 0 ∧
      isContact (inps.get ⟨d, hd⟩).last_input = true := by
  obtain ⟨hidle, -, -⟩ := (idle_phase junk inps d (Nat.le_of_lt hd)).1 hdet.1
  obtain ⟨t1, t2, t3⟩ := tick_idle _ (inps.get ⟨d, hd⟩) hidle
  rw [← stateAt_succ junk inps d hd] at t1 t2 t3
  by_cases h3 : (stateAt junk inps (d + 1)).ContactCounter = 3
  · refine ⟨(t3 h3).1, (t3 h3).2.1, ?_⟩
    by_contra hc
    rw [if_neg hc] at t1
    omega
  · have := (t2 h3).1
    simp [hdet.2] at this

/-- After the detection tick `d`: as long as no run of release samples has
reached length 3 the machine is first-contact-active, the first end counter is
the length of the current run of release samples and `end_state` is the sample
processed just before that run; afterwards the first episode is finalized. -/
theorem active_phase (junk : Ctrl) (inps : List Input) (d : Nat) (hd : d < inps.length)
    (hdet : (stateAt junk inps d).InitialContact = false ∧
      (stateAt junk inps (d + 1)).InitialContact = true)
    (m : Nat) (hdm : d + 1 ≤ m) (hm : m ≤ inps.length) :
    ((∀ j, d < j → j < m → runLen isRelease inps (j + 1) < 3) →
      FirstActive (stateAt junk inps m) ∧
      (stateAt junk inps m).EndCounter = runLen isRelease inps m ∧
      (stateAt junk inps m).EndCounter ≤ 2 ∧
      (stateAt junk inps m).EndCounter + d + 1 ≤ m ∧
      (1 ≤ (stateAt junk inps m).EndCounter →
        ∀ i (hi : i < inps.length), i + (stateAt junk inps m).EndCounter + 1 = m →
          (stateAt junk inps m).end_state = (inps.get ⟨i, hi⟩).last_input)) ∧
    (¬ (∀ j, d < j → j < m → runLen isRelease inps (j + 1) < 3) →
      Waiting (stateAt junk inps m)) := by
  obtain ⟨hFA, hEC, hC⟩ := detection_state junk inps d hd hdet
  have hR : isRelease (inps.get ⟨d, hd⟩).last_input = false := isContact_not_isRelease _ hC
  induction m, hdm using Nat.le_induction with
  | base =>
    constructor
    · intro _
      refine ⟨hFA, ?_, by omega, by omega, by omega⟩
      rw [hEC, runLen_succ isRelease inps d hd, hR]; simp
    · intro hn
      exact absurd (fun j h1 h2 => by omega) hn
  | succ m hdm ih =>
    have hm' : m < inps.length := hm
    obtain ⟨ih1, ih2⟩ := ih (Nat.le_of_lt hm')
    have hs := stateAt_succ junk inps m hm'
    have hr := runLen_succ isRelease inps m hm'
    constructor
    · intro hU
      obtain ⟨fa, ec, ec2, ecd, es⟩ := ih1 (fun j h1 h2 => hU j h1 (Nat.lt_succ_of_lt h2))
      obtain ⟨t1, t2, t3, -⟩ := tick_firstActive _ (inps.get ⟨m, hm'⟩) fa
      rw [← hs] at t1 t2 t3
      have hlt := hU m (by omega) (Nat.lt_succ_self m)
      have ec' : (stateAt junk inps (m + 1)).EndCounter = runLen isRelease inps (m + 1) := by
        rw [t1, hr, ec]
      refine ⟨t3 (by omega), ec', by omega, ?_, ?_⟩
      · rw [t1]; split_ifs <;> omega
      · intro h1 i hi hi'
        rw [t2]
        by_cases hone : (stateAt junk inps (m + 1)).EndCounter = 1
        · rw [if_pos hone]
          have hmi : m = i + 1 := by omega
          subst hmi
          exact stateAt_prev_input junk inps i hi
        · rw [if_neg hone]
          have hrel : isRelease (inps.get ⟨m, hm'⟩).last_input = true := by
            by_contra hc
            rw [if_neg hc] at t1
            omega
          rw [if_pos hrel] at t1
          exact es (by omega) i hi (by omega)
    · intro hU
      by_cases hUm : ∀ j, d < j → j < m → runLen isRelease inps (j + 1) < 3
      · obtain ⟨fa, ec, ec2, ecd, es⟩ := ih1 hUm
        obtain ⟨t1, -, -, t4⟩ := tick_firstActive _ (inps.get ⟨m, hm'⟩) fa
        rw [← hs] at t1 t4
        have hge : 3 ≤ runLen isRelease inps (m + 1) := by
          by_contra hlt
          apply hU
          intro j h1 h2
          rcases Nat.lt_succ_iff_lt_or_eq.mp h2 with h | rfl
          · exact hUm j h1 h
          · omega
        have : (stateAt junk inps (m + 1)).EndCounter = 3 := by
          rw [hr, ← ec] at hge
          rw [t1]
          split_ifs at hge ⊢ <;> omega
        exact (t4 this).1
      · have w := ih2 hUm
        rw [hs]
        exact (tick_waiting _ _ w).1


/-- Once the first episode is finalized the machine stays past it, the latched
wait time is kept, and `sign` and `ActualDuration` are kept while the machine
is not decided. -/
theorem waiting_mono (junk : Ctrl) (inps : List Input) (m n : Nat) (hmn : m ≤ n)
    (hn : n ≤ inps.length) (hw : Waiting (stateAt junk inps m)) :
    Waiting (stateAt junk inps n) ∧
    (stateAt junk inps n).WaitInitialTime = (stateAt junk inps m).WaitInitialTime ∧
    ((stateAt junk inps n).FinalContact = false →
      (stateAt junk inps n).sign = (stateAt junk inps m).sign ∧
      (stateAt junk inps n).ActualDuration = (stateAt junk inps m).ActualDuration) := by
  induction n, hmn using Nat.le_induction with
  | base => exact ⟨hw, rfl, fun _ => ⟨rfl, rfl⟩⟩
  | succ n hmn ih =>
    have hn' : n < inps.length := hn
    obtain ⟨w, wt, ws⟩ := ih (Nat.le_of_lt hn')
    obtain ⟨t1, t2, t3, t4, -⟩ := tick_waiting _ (inps.get ⟨n, hn'⟩) w
    rw [← stateAt_succ junk inps n hn'] at t1 t2 t3 t4
    refine ⟨t1, by rw [t2, wt], ?_⟩
    intro hF
    have hFn : (stateAt junk inps n).FinalContact = false := by
      by_contra hc
      have := (t3 (by simpa using hc)).1
      simp [hF] at this
    obtain ⟨s1, s2⟩ := t4 hF
    obtain ⟨s3, s4⟩ := ws hFn
    exact ⟨by rw [s1, s3], by rw [s2, s4]⟩

/-- The tick on which `WaitState` turns true starts from the first-contact-
active phase and latches the wait timer. -/
theorem finalization_state (junk : Ctrl) (inps : List Input) (k : Nat) (hk : k < inps.length)
    (hfin : (stateAt junk inps k).WaitState = false ∧
      (stateAt junk inps (k + 1)).WaitState = true) :
    FirstActive (stateAt junk inps k) ∧ Waiting (stateAt junk inps (k + 1)) ∧
      (stateAt junk inps (k + 1)).WaitInitialTime = (inps.get ⟨k, hk⟩).t := by
  have hs := stateAt_succ junk inps k hk
  obtain ⟨h0, h1⟩ := hfin
  rcases phase_stateAt junk inps k (Nat.le_of_lt hk) with h | h | h
  · obtain ⟨-, t2, t3⟩ := tick_idle _ (inps.get ⟨k, hk⟩) h
    rw [← hs] at t2 t3
    by_cases h3 : (stateAt junk inps (k + 1)).ContactCounter = 3
    · have := (t3 h3).1.2.1; simp [h1] at this
    · have := (t2 h3).2.1; simp [h1] at this
  · obtain ⟨-, -, t3, t4⟩ := tick_firstActive _ (inps.get ⟨k, hk⟩) h
    rw [← hs] at t3 t4
    by_cases h3 : (stateAt junk inps (k + 1)).EndCounter = 3
    · exact ⟨h, (t4 h3).1, (t4 h3).2.2.2.1⟩
    · have := (t3 h3).2.1; simp [h1] at this
  · have hF : (stateAt junk inps k).FinalContact = true := by
      by_contra hc
      have := h.2.2 (by simpa using hc)
      simp [h0] at this
    have := ((tick_waiting _ (inps.get ⟨k, hk⟩) h).2.2.1 hF).2
    rw [← hs, h0, h1] at this
    simp at this


theorem sixTicks_run (junk : Ctrl) (t1 t2 t3 t4 t5 t6 : ℚ) :
    (stateAt { junk with st := 0 } (sixTicks t1 t2 t3 t4 t5 t6) 5).WaitState = false ∧
    (stateAt { junk with st := 0 } (sixTicks t1 t2 t3 t4 t5 t6) 6).WaitState = true ∧
    (stateAt { junk with st := 0 } (sixTicks t1 t2 t3 t4 t5 t6) 6).sign = -1 ∧
    (stateAt { junk with st := 0 } (sixTicks t1 t2 t3 t4 t5 t6) 6).ContactEnd = 5 * (2.5 * dst) ∧
    (stateAt { junk with st := 0 } (sixTicks t1 t2 t3 t4 t5 t6) 6).out =
      [Msg.firstContactMade, Msg.firstEndTime, Msg.contactLeft] := by
  refine ⟨?_, ?_, ?_, ?_, ?_⟩
  all_goals
    simp [stateAt, runTicks, sixTicks, tick, advance, stateMachine, updateContactCounter_eq,
      detectContactStart, detectEndContact, waitingState, latchWaitTimer, trackSecondContact,
      finalizeFirst, classifyFirst, classifyFirstMsg, initTrial, isContact, isRelease,
      one_not_lt_zero]
  ring


/-! ## Counters on arbitrary states -/

theorem finalizeSecond_wsign (s : Ctrl) (inp : Input) :
    (finalizeSecond s inp).wsign = classifySecond s.wend_state := by
  obtain ⟨sg, cd, ad, p, n, g, a, b, c, l, h, -⟩ := finalizeSecond_frame s inp; rw [h]

theorem waitingState_ContactCounter (u : Ctrl) (inp : Input) :
    (waitingState u inp).ContactCounter = u.ContactCounter := by
  unfold waitingState latchWaitTimer
  simp only
  split_ifs <;> simp

theorem detectEndContact_ContactCounter (u : Ctrl) (inp : Input) :
    (detectEndContact u inp).ContactCounter = u.ContactCounter := by
  unfold detectEndContact finalizeFirst
  simp only
  split_ifs <;> rfl

theorem detectContactStart_ContactCounter (u : Ctrl) (inp : Input) :
    (detectContactStart u inp).ContactCounter = u.ContactCounter := by
  unfold detectContactStart
  split_ifs <;> rfl

/-- On every state the first contact counter is incremented by a contact sample
and reset to 0 by every other sample. -/
theorem tick_ContactCounter (s : Ctrl) (inp : Input) :
    (tick s inp).ContactCounter =
      if isContact inp.last_input = true then s.ContactCounter + 1 else 0 := by
  have : (tick s inp).ContactCounter = (stateMachine s inp).ContactCounter := rfl
  rw [this]
  unfold stateMachine
  rw [waitingState_ContactCounter, detectEndContact_ContactCounter,
    detectContactStart_ContactCounter, updateContactCounter_eq]

theorem detectEndContact_neutral (u : Ctrl) (inp : Input) (hr : isRelease inp.last_input = false) :
    detectEndContact u inp =
      if u.InitialContact = true ∧ u.FinalContact = false ∧ u.WaitState = false then
        { u with EndCounter := 0 }
      else u := by
  unfold detectEndContact
  simp [hr]

theorem waitingState_EndCounter (u : Ctrl) (inp : Input) :
    (waitingState u inp).EndCounter = u.EndCounter := by
  unfold waitingState latchWaitTimer
  simp only
  split_ifs <;> simp

theorem trackSecondContact_neutral (u : Ctrl) (inp : Input)
    (hc : isContact inp.last_input = false) (hr : isRelease inp.last_input = false) :
    (trackSecondContact u inp).wContactCounter = 0 ∧
    (trackSecondContact u inp).wEndCounter =
      (if u.wInitialContact = true ∧ u.FinalContact = false then 0 else u.wEndCounter) := by
  unfold trackSecondContact
  simp [hc, hr]
  split_ifs <;> simp

theorem waitingState_neutral (u : Ctrl) (inp : Input)
    (hc : isContact inp.last_input = false) (hr : isRelease inp.last_input = false) :
    (waitingState u inp).wContactCounter =
      (if u.WaitState = true ∧ u.FinalContact = false then 0 else u.wContactCounter) ∧
    (waitingState u inp).wEndCounter =
      (if u.WaitState = true ∧ u.FinalContact = false ∧ u.wInitialContact = true then 0
        else u.wEndCounter) := by
  by_cases h : u.WaitState = true ∧ u.FinalContact = false
  · obtain ⟨hW, hF⟩ := h
    have e1 : (waitingState u inp).wContactCounter =
        (trackSecondContact (latchWaitTimer u inp) inp).wContactCounter := by
      unfold waitingState
      simp only [hW, hF, and_self, if_true]
      split_ifs <;> simp
    have e2 : (waitingState u inp).wEndCounter =
        (trackSecondContact (latchWaitTimer u inp) inp).wEndCounter := by
      unfold waitingState
      simp only [hW, hF, and_self, if_true]
      split_ifs <;> simp
    obtain ⟨t1, t2⟩ := trackSecondContact_neutral (latchWaitTimer u inp) inp hc hr
    have l1 : (latchWaitTimer u inp).wInitialContact = u.wInitialContact := by
      unfold latchWaitTimer; split_ifs <;> rfl
    have l2 : (latchWaitTimer u inp).FinalContact = u.FinalContact := by
      unfold latchWaitTimer; split_ifs <;> rfl
    have l3 : (latchWaitTimer u inp).wEndCounter = u.wEndCounter := by
      unfold latchWaitTimer; split_ifs <;> rfl
    rw [e1, e2, t1, t2, l1, l2, l3]
    simp [hW, hF]
  · have e : waitingState u inp = u := by
      unfold waitingState; rw [if_neg h]
    rw [e]
    have h' : ¬ (u.WaitState = true ∧ u.FinalContact = false ∧ u.wInitialContact = true) :=
      fun hh => h ⟨hh.1, hh.2.1⟩
    rw [if_neg h, if_neg h']
    exact ⟨rfl, rfl⟩

theorem neutral_tick (s : Ctrl) (inp : Input)
    (hc : isContact inp.last_input = false) (hr : isRelease inp.last_input = false) :
    (tick s inp).ContactCounter = 0 ∧
    (tick s inp).EndCounter =
      (if s.InitialContact = true ∧ s.FinalContact = false ∧ s.WaitState = false then 0
        else s.EndCounter) ∧
    (tick s inp).wContactCounter =
      (if s.WaitState = true ∧ s.FinalContact = false then 0 else s.wContactCounter) ∧
    (tick s inp).wEndCounter =
      (if s.WaitState = true ∧ s.FinalContact = false ∧ s.wInitialContact = true then 0
        else s.wEndCounter) := by
  refine ⟨by rw [tick_ContactCounter, hc]; simp, ?_⟩
  have e : tick s inp = advance (waitingState (detectEndContact
      { s with ContactCounter := 0 } inp) inp) inp := by
    simp [tick, stateMachine, updateContactCounter_eq, detectContactStart, hc]
  obtain ⟨w1, w2⟩ := waitingState_neutral (detectEndContact { s with ContactCounter := 0 } inp)
    inp hc hr
  have a1 : (tick s inp).EndCounter = (waitingState (detectEndContact
      { s with ContactCounter := 0 } inp) inp).EndCounter := by rw [e]; rfl
  have a2 : (tick s inp).wContactCounter = (waitingState (detectEndContact
      { s with ContactCounter := 0 } inp) inp).wContactCounter := by rw [e]; rfl
  have a3 : (tick s inp).wEndCounter = (waitingState (detectEndContact
      { s with ContactCounter := 0 } inp) inp).wEndCounter := by rw [e]; rfl
  rw [a1, a2, a3, w1, w2, waitingState_EndCounter, detectEndContact_neutral _ _ hr]
  refine ⟨?_, ?_, ?_⟩ <;> split_ifs <;> simp_all



/-! ## The claims -/

/-- C1: for every gait time `t`, every `ContactCondition` and every joint index
`i` in 1..12, entry `i - 1` of the `snake_angle` array of `snakeUpdatePosition`
is `0.4 * sin(2*pi*i/12 - 2*pi*t)`; the value depends neither on
`ContactCondition` nor on any controller state. -/
theorem snakeUpdatePosition_angle_formula (t : ℝ) (ContactCondition : Int) (i : Nat)
    (h1 : 1 ≤ i) (h12 : i ≤ 12) :
    (snakeUpdatePosition_angles Real.sin Real.pi t ContactCondition)[i - 1]? =
      some (0.4 * Real.sin (2 * Real.pi * (i : ℝ) / 12 - 2 * Real.pi * t)) := by
  have hi : i - 1 < 12 := by omega
  have hi2 : 1 + (i - 1) = i := by omega
  simp [snakeUpdatePosition_angles, snakeUpdatePosition_angle, List.getElem?_range', N, B0, hi, hi2]

/-- C1, worked example: joint 3 at gait time 0 with `ContactCondition = 2`. -/
theorem snakeUpdatePosition_angle_formula_witness :
    (1 ≤ 3 ∧ 3 ≤ 12) ∧
    (snakeUpdatePosition_angles Real.sin Real.pi 0 2)[3 - 1]? =
      some (0.4 * Real.sin (2 * Real.pi * ((3 : ℕ) : ℝ) / 12 - 2 * Real.pi * 0)) :=
  ⟨⟨by decide, by decide⟩, snakeUpdatePosition_angle_formula 0 2 3 (by decide) (by decide)⟩

/-- C2: the nominal joint angles have period 1 in the gait time, and so have
the commanded positions: the arrays `snake_angle` and `snake_goal` of
`snakeUpdatePosition` are the same at `t + 1` and at `t`. -/
theorem snakeUpdatePosition_periodic (t : ℝ) (ContactCondition : Int) :
    snakeUpdatePosition_angles Real.sin Real.pi (t + 1) ContactCondition =
        snakeUpdatePosition_angles Real.sin Real.pi t ContactCondition ∧
      snakeUpdatePosition Real.sin Real.pi (t + 1) ContactCondition =
        snakeUpdatePosition Real.sin Real.pi t ContactCondition := by
  have key : ∀ i : Nat, snakeUpdatePosition_angle Real.sin Real.pi (t + 1) ContactCondition i =
      snakeUpdatePosition_angle Real.sin Real.pi t ContactCondition i := by
    intro i
    unfold snakeUpdatePosition_angle
    have : 2 * Real.pi * (i : ℝ) / ((N : ℕ) : ℝ) - 2 * Real.pi * (t + 1) =
        (2 * Real.pi * (i : ℝ) / ((N : ℕ) : ℝ) - 2 * Real.pi * t) - 2 * Real.pi := by ring
    rw [this, Real.sin_sub_two_pi]
  constructor
  · unfold snakeUpdatePosition_angles
    exact List.map_congr_left (fun i _ => key i)
  · unfold snakeUpdatePosition
    refine List.map_congr_left (fun i _ => ?_)
    unfold snakeUpdatePosition_goal
    rw [key i]

/-- C3: the three generators do not share one rounding map.  For the angle
0.4 of joint 3 (`sin(pi/2) = 1`), `snakeInitialPosition` and `snakeAMM2` stage
648, the truncation of 648.53, while the map `round(angle * 1024/3 + 512)`
gives 649, which is what `snakeUpdatePosition` stages for the same angle. -/
theorem generators_round_differently :
    snakeInitialPosition_goal Real.sin Real.pi 3 = 648 ∧
      roundedCommand (snakeInitialPosition_angle Real.sin Real.pi 3) = 649 ∧
      snakeUpdatePosition_goal Real.sin Real.pi 0 0 3 = 649 ∧
      snakeAMM2_goal Real.sin Real.pi 2 0 1.5 3 = 648 ∧
      roundedCommand (snakeAMM2_angle Real.sin Real.pi 2 0 1.5 3) = 649 ∧
      snakeUpdatePosition_goal Real.sin Real.pi 2 0 3 = 649 := by
  have e1 : 2 * Real.pi * ((3 : ℕ) : ℝ) / ((N : ℕ) : ℝ) = Real.pi / 2 := by
    simp only [N]; push_cast; ring
  have e2 : Real.pi / 2 - 2 * Real.pi * 2 = Real.pi / 2 - ((2 : ℕ) : ℝ) * (2 * Real.pi) := by
    push_cast; ring
  have tr : cInt ((0.4 : ℝ) * 1024 / 3 + 512) = 648 := by
    unfold cInt
    rw [if_pos (by norm_num)]
    rw [Int.floor_eq_iff]; constructor <;> norm_num
  have rd : cRound ((0.4 : ℝ) * 1024 / 3 + 512) = 649 := by
    unfold cRound
    rw [if_pos (by norm_num)]
    rw [Int.floor_eq_iff]; constructor <;> norm_num
  refine ⟨?_, ?_, ?_, ?_, ?_, ?_⟩
  · simp only [snakeInitialPosition_goal, snakeInitialPosition_angle, e1, Real.sin_pi_div_two,
      B0, mul_one]
    exact tr
  · simp only [roundedCommand, snakeInitialPosition_angle, e1, Real.sin_pi_div_two, B0, mul_one]
    exact rd
  · simp only [snakeUpdatePosition_goal, snakeUpdatePosition_angle, e1, Real.sin_pi_div_two, B0,
      mul_one, mul_zero, sub_zero, offset, add_zero]
    exact rd
  · simp only [snakeAMM2_goal, snakeAMM2_angle, e1, e2, Real.sin_sub_nat_mul_two_pi,
      Real.sin_pi_div_two, B0, mul_one, offset, add_zero, ite_self]
    exact tr
  · simp only [roundedCommand, snakeAMM2_angle, e1, e2, Real.sin_sub_nat_mul_two_pi,
      Real.sin_pi_div_two, B0, mul_one, add_zero, ite_self]
    exact rd
  · simp only [snakeUpdatePosition_goal, snakeUpdatePosition_angle, e1, e2,
      Real.sin_sub_nat_mul_two_pi, Real.sin_pi_div_two, B0, mul_one, offset, add_zero]
    exact rd

/-- C4: in a trial started from the idle state, the first contact start is
detected on tick `k` (`InitialContact` false before it, true after it) exactly
when `k` is the first tick whose three most recent samples are all contact
samples; on that tick `ContactStart` is set to the tick's gait time `st` and
`ActualStart` to its timestamp `t`.  A sample sequence without three
consecutive contact samples leaves the machine idle after every tick. -/
theorem first_contact_start_detected (junk : Ctrl) (inps : List Input) (k : Nat)
    (hk : k < inps.length) :
    (((stateAt junk inps k).InitialContact = false ∧
        (stateAt junk inps (k + 1)).InitialContact = true) ↔
      (threeConsecutive isContact inps k = true ∧
        ∀ j, j < k → threeConsecutive isContact inps j = false)) ∧
    (((stateAt junk inps k).InitialContact = false ∧
        (stateAt junk inps (k + 1)).InitialContact = true) →
      (stateAt junk inps (k + 1)).ContactStart = (stateAt junk inps k).st ∧
      (stateAt junk inps (k + 1)).ActualStart = (inps.get ⟨k, hk⟩).t) ∧
    ((∀ j, threeConsecutive isContact inps j = false) →
      ∀ m, m ≤ inps.length → Idle (stateAt junk inps m)) := by
  have hthree : ∀ j, threeConsecutive isContact inps j = false ↔ runLen isContact inps (j + 1) < 3 := by
    intro j
    rw [← Bool.not_eq_true, threeConsecutive_iff_runLen]; omega
  obtain ⟨a1, a2⟩ := idle_phase junk inps k (Nat.le_of_lt hk)
  obtain ⟨b1, b2⟩ := idle_phase junk inps (k + 1) hk
  have hs := stateAt_succ junk inps k hk
  refine ⟨⟨?_, ?_⟩, ?_, ?_⟩
  · rintro ⟨h0, h1⟩
    obtain ⟨-, -, hprev⟩ := a1 h0
    refine ⟨?_, fun j hj => (hthree j).mpr (hprev j hj)⟩
    rw [threeConsecutive_iff_runLen]
    by_contra hlt
    have : (stateAt junk inps (k + 1)).InitialContact = false := by
      apply b2
      intro j hj
      rcases Nat.lt_succ_iff_lt_or_eq.mp hj with hj' | rfl
      · exact hprev j hj'
      · omega
    simp [h1] at this
  · rintro ⟨h3, hnone⟩
    have h0 := a2 (fun j hj => (hthree j).mp (hnone j hj))
    refine ⟨h0, ?_⟩
    by_contra h1
    have h1' : (stateAt junk inps (k + 1)).InitialContact = false := by simpa using h1
    have := (b1 h1').2.2 k (Nat.lt_succ_self k)
    rw [threeConsecutive_iff_runLen] at h3
    omega
  · rintro ⟨h0, h1⟩
    obtain ⟨hidle, -, -⟩ := a1 h0
    obtain ⟨-, t2, t3⟩ := tick_idle _ (inps.get ⟨k, hk⟩) hidle
    rw [← hs] at t2 t3
    by_cases h3 : (stateAt junk inps (k + 1)).ContactCounter = 3
    · exact ⟨(t3 h3).2.2.1, (t3 h3).2.2.2⟩
    · have := (t2 h3).1; simp [h1] at this
  · intro hnone m hm
    obtain ⟨c1, c2⟩ := idle_phase junk inps m hm
    exact (c1 (c2 (fun j _ => (hthree j).mp (hnone j)))).1

/-- C4, worked example: after a release sample and three contact samples the
start is detected on the fourth tick, at gait time `3 * 2.5 * dst`. -/
theorem first_contact_start_detected_witness :
    3 < contactStartTicks.length ∧
    (stateAt zeroCtrl contactStartTicks 3).InitialContact = false ∧
    (stateAt zeroCtrl contactStartTicks 4).InitialContact = true ∧
    (stateAt zeroCtrl contactStartTicks 4).ContactStart = 3 * (2.5 * dst) := by
  have hk : 3 < contactStartTicks.length := by simp [contactStartTicks, uniformTicks]
  have h := first_contact_start_detected zeroCtrl contactStartTicks 3 hk
  have h3 : threeConsecutive isContact contactStartTicks 3 = true ∧
      ∀ j, j < 3 → threeConsecutive isContact contactStartTicks j = false := by
    refine ⟨by simp [threeConsecutive, sampleIs, contactStartTicks, uniformTicks, isContact], ?_⟩
    intro j hj
    interval_cases j <;>
      simp [threeConsecutive, sampleIs, contactStartTicks, uniformTicks, isContact]
  obtain ⟨e0, e1⟩ := h.1.mpr h3
  refine ⟨hk, e0, e1, ?_⟩
  rw [(h.2.1 ⟨e0, e1⟩).1]
  simp [contactStartTicks, uniformTicks, stateAt, runTicks, tick, advance, stateMachine, updateContactCounter_eq,
    detectContactStart, detectEndContact, waitingState, latchWaitTimer, trackSecondContact,
    finalizeFirst, classifyFirst, classifyFirstMsg, initTrial, zeroCtrl, isContact, isRelease,
    one_not_lt_zero]
  ring

/-- C5, as stated, fails: after two contact samples the first contact counter
is 2, and processing the sample "1111", which is neither a contact nor a
release pattern, resets it to 0. -/
theorem neutral_sample_counterexample :
    (isContact "1111" = false ∧ isRelease "1111" = false) ∧
    (stateAt zeroCtrl twoContacts 2).ContactCounter = 2 ∧
    (tick (stateAt zeroCtrl twoContacts 2) ⟨0.03, "1111"⟩).ContactCounter = 0 ∧
    ¬ (∀ (s : Ctrl) (inp : Input), isContact inp.last_input = false →
        isRelease inp.last_input = false →
        (tick s inp).ContactCounter = s.ContactCounter ∧
        (tick s inp).EndCounter = s.EndCounter ∧
        (tick s inp).wContactCounter = s.wContactCounter ∧
        (tick s inp).wEndCounter = s.wEndCounter) := by
  have hc : isContact "1111" = false := by simp [isContact]
  have hr : isRelease "1111" = false := by simp [isRelease]
  have h2 : (stateAt zeroCtrl twoContacts 2).ContactCounter = 2 := by
    simp [twoContacts, stateAt, runTicks, tick, advance, stateMachine, updateContactCounter_eq,
    detectContactStart, detectEndContact, waitingState, latchWaitTimer, trackSecondContact,
    finalizeFirst, classifyFirst, classifyFirstMsg, initTrial, zeroCtrl, isContact, isRelease,
    one_not_lt_zero]
  have h0 : (tick (stateAt zeroCtrl twoContacts 2) ⟨0.03, "1111"⟩).ContactCounter = 0 := by
    rw [tick_ContactCounter]; simp [hc]
  refine ⟨⟨hc, hr⟩, h2, h0, ?_⟩
  intro h
  have := (h (stateAt zeroCtrl twoContacts 2) ⟨0.03, "1111"⟩ hc hr).1
  rw [h0, h2] at this
  exact absurd this (by decide)

/-- C5, amended: on every state, a sample that is neither a contact nor a
release pattern resets to 0 each debounce counter whose update runs in that
state (the first contact counter always; the first end counter while the first
contact is active; the second contact counter while waiting; the second end
counter while waiting with the second contact started) and leaves the other
counters unchanged. -/
theorem neutral_sample_resets_counters (s : Ctrl) (inp : Input)
    (hc : isContact inp.last_input = false) (hr : isRelease inp.last_input = false) :
    (tick s inp).ContactCounter = 0 ∧
    (tick s inp).EndCounter =
      (if s.InitialContact = true ∧ s.FinalContact = false ∧ s.WaitState = false then 0
        else s.EndCounter) ∧
    (tick s inp).wContactCounter =
      (if s.WaitState = true ∧ s.FinalContact = false then 0 else s.wContactCounter) ∧
    (tick s inp).wEndCounter =
      (if s.WaitState = true ∧ s.FinalContact = false ∧ s.wInitialContact = true then 0
        else s.wEndCounter) :=
  neutral_tick s inp hc hr

/-- C5, worked example: the sample "1111" after two contact samples. -/
theorem neutral_sample_resets_counters_witness :
    (isContact "1111" = false ∧ isRelease "1111" = false) ∧
    (tick (stateAt zeroCtrl twoContacts 2) ⟨0.03, "1111"⟩).ContactCounter = 0 :=
  ⟨⟨by simp [isContact], by simp [isRelease]⟩,
    (neutral_sample_resets_counters (stateAt zeroCtrl twoContacts 2) ⟨0.03, "1111"⟩
      (by simp [isContact]) (by simp [isRelease])).1⟩

/-- C6, as stated, fails: "1000" is not a contact pattern but a release pattern
and resets the contact counter (2 before, 0 after), "0010" is a contact pattern
and not a release, and the end state "0100" is reported as a left contact. -/
theorem sample_order_counterexample :
    (isContact "1000" = false ∧ isRelease "1000" = true) ∧
    ((stateAt zeroCtrl twoContacts 2).ContactCounter = 2 ∧
      (tick (stateAt zeroCtrl twoContacts 2) ⟨0.03, "1000"⟩).ContactCounter = 0) ∧
    (isContact "0010" = true ∧ isRelease "0010" = false) ∧
    (classifyFirst "0100" = -1 ∧ classifyFirstMsg "0100" = Msg.contactLeft) := by
  refine ⟨⟨by simp [isContact], by simp [isRelease]⟩, ⟨?_, ?_⟩,
    ⟨by simp [isContact], by simp [isRelease]⟩,
    ⟨by simp [classifyFirst], by simp [classifyFirstMsg]⟩⟩
  · simp [twoContacts, stateAt, runTicks, tick, advance, stateMachine, updateContactCounter_eq,
    detectContactStart, detectEndContact, waitingState, latchWaitTimer, trackSecondContact,
    finalizeFirst, classifyFirst, classifyFirstMsg, initTrial, zeroCtrl, isContact, isRelease,
    one_not_lt_zero]
  · rw [tick_ContactCounter]; simp [isContact]

/-- C6, amended: the four characters are read in the order left-back,
left-front, right-front, right-back.  On every state "0100" (left front)
increments the contact counter, is not a release and classifies as LEFT
(sign -1); "0010" (right front) increments the contact counter, is not a
release and classifies as RIGHT (sign +1); "1000" (left back) and "0001"
(right back) are releases and reset the contact counter; "0110" (both front)
is a contact. -/
theorem sample_order_of_the_code (s : Ctrl) (t : ℚ) :
    ((tick s ⟨t, "0100"⟩).ContactCounter = s.ContactCounter + 1 ∧ isRelease "0100" = false ∧
      classifyFirst "0100" = -1 ∧ classifyFirstMsg "0100" = Msg.contactLeft) ∧
    ((tick s ⟨t, "0010"⟩).ContactCounter = s.ContactCounter + 1 ∧ isRelease "0010" = false ∧
      classifyFirst "0010" = 1 ∧ classifyFirstMsg "0010" = Msg.contactRight) ∧
    ((tick s ⟨t, "1000"⟩).ContactCounter = 0 ∧ isRelease "1000" = true ∧
      isContact "1000" = false) ∧
    ((tick s ⟨t, "0001"⟩).ContactCounter = 0 ∧ isRelease "0001" = true ∧
      isContact "0001" = false) ∧
    ((tick s ⟨t, "0110"⟩).ContactCounter = s.ContactCounter + 1 ∧ isRelease "0110" = false) := by
  refine ⟨⟨?_, ?_, ?_, ?_⟩, ⟨?_, ?_, ?_, ?_⟩, ⟨?_, ?_, ?_⟩, ⟨?_, ?_, ?_⟩, ⟨?_, ?_⟩⟩
  all_goals
    first
      | (rw [tick_ContactCounter]; simp [isContact])
      | simp [isContact, isRelease, classifyFirst, classifyFirstMsg]

/-- C7: after the first contact start has been detected on tick `d`, the first
episode is finalized (`WaitState` false before the tick, true after it) on tick
`k > d` exactly when `k` is the first tick after `d` whose three most recent
samples are all release samples; on that tick `ContactEnd` is the tick's gait
time `st` and `sign` is the classification of the sample of tick `k - 3`, the
one processed just before the first release sample of the run.  For the
sequence "0100" x3, "0000" x3 from `st = 0` the episode is finalized on the
sixth tick, with sign -1, and the log holds one finalization, reported LEFT. -/
theorem first_episode_finalized (junk : Ctrl) (inps : List Input) (d k : Nat)
    (hdk : d < k) (hk : k < inps.length)
    (hdet : (stateAt junk inps d).InitialContact = false ∧
      (stateAt junk inps (d + 1)).InitialContact = true) :
    (((stateAt junk inps k).WaitState = false ∧ (stateAt junk inps (k + 1)).WaitState = true) ↔
      (threeConsecutive isRelease inps k = true ∧
        ∀ j, d < j → j < k → threeConsecutive isRelease inps j = false)) ∧
    (((stateAt junk inps k).WaitState = false ∧ (stateAt junk inps (k + 1)).WaitState = true) →
      (stateAt junk inps (k + 1)).ContactEnd = (stateAt junk inps k).st ∧
      ∃ (i : Nat) (hi : i < inps.length), i + 3 = k ∧ d ≤ i ∧
        (stateAt junk inps (k + 1)).end_state = (inps.get ⟨i, hi⟩).last_input ∧
        (stateAt junk inps (k + 1)).sign = classifyFirst (inps.get ⟨i, hi⟩).last_input) ∧
    (∀ (junk0 : Ctrl) (t1 t2 t3 t4 t5 t6 : ℚ),
      (stateAt { junk0 with st := 0 } (sixTicks t1 t2 t3 t4 t5 t6) 5).WaitState = false ∧
      (stateAt { junk0 with st := 0 } (sixTicks t1 t2 t3 t4 t5 t6) 6).WaitState = true ∧
      (stateAt { junk0 with st := 0 } (sixTicks t1 t2 t3 t4 t5 t6) 6).sign = -1 ∧
      (stateAt { junk0 with st := 0 } (sixTicks t1 t2 t3 t4 t5 t6) 6).ContactEnd = 5 * (2.5 * dst) ∧
      (stateAt { junk0 with st := 0 } (sixTicks t1 t2 t3 t4 t5 t6) 6).out =
        [Msg.firstContactMade, Msg.firstEndTime, Msg.contactLeft]) := by
  have hd : d < inps.length := by omega
  have hthree : ∀ j, threeConsecutive isRelease inps j = false ↔
      runLen isRelease inps (j + 1) < 3 := by
    intro j
    rw [← Bool.not_eq_true, threeConsecutive_iff_runLen]; omega
  obtain ⟨a1, a2⟩ := active_phase junk inps d hd hdet k (by omega) (Nat.le_of_lt hk)
  have hs := stateAt_succ junk inps k hk
  have hr := runLen_succ isRelease inps k hk
  -- a finalization at tick `k` happens from the first-contact-active phase, with the counter at 3
  have key : (stateAt junk inps k).WaitState = false ∧ (stateAt junk inps (k + 1)).WaitState = true →
      (∀ j, d < j → j < k → runLen isRelease inps (j + 1) < 3) ∧
        (stateAt junk inps (k + 1)).EndCounter = 3 := by
    rintro ⟨h0, h1⟩
    have hU : ∀ j, d < j → j < k → runLen isRelease inps (j + 1) < 3 := by
      by_contra hn
      have w := a2 hn
      have hF : (stateAt junk inps k).FinalContact = true := by
        by_contra hc
        have := w.2.2 (by simpa using hc)
        simp [h0] at this
      have := ((tick_waiting _ (inps.get ⟨k, hk⟩) w).2.2.1 hF).2
      rw [← hs, h0, h1] at this
      simp at this
    refine ⟨hU, ?_⟩
    obtain ⟨fa, -, -, -, -⟩ := a1 hU
    obtain ⟨-, -, t3, -⟩ := tick_firstActive _ (inps.get ⟨k, hk⟩) fa
    rw [← hs] at t3
    by_contra hne
    have := (t3 hne).2.1
    simp [h1] at this
  refine ⟨⟨?_, ?_⟩, ?_, sixTicks_run⟩
  · intro h
    obtain ⟨hU, h3⟩ := key h
    obtain ⟨fa, ec, -, -, -⟩ := a1 hU
    obtain ⟨t1, -, -, -⟩ := tick_firstActive _ (inps.get ⟨k, hk⟩) fa
    rw [← hs] at t1
    refine ⟨?_, fun j h1 h2 => (hthree j).mpr (hU j h1 h2)⟩
    rw [threeConsecutive_iff_runLen, hr, ← ec, ← t1, h3]
  · rintro ⟨h3, hnone⟩
    have hU : ∀ j, d < j → j < k → runLen isRelease inps (j + 1) < 3 :=
      fun j h1 h2 => (hthree j).mp (hnone j h1 h2)
    obtain ⟨fa, ec, ec2, -, -⟩ := a1 hU
    obtain ⟨t1, -, -, t4⟩ := tick_firstActive _ (inps.get ⟨k, hk⟩) fa
    rw [← hs] at t1 t4
    rw [threeConsecutive_iff_runLen, hr, ← ec] at h3
    have h3' : (stateAt junk inps (k + 1)).EndCounter = 3 := by
      rw [t1]; split_ifs at h3 ⊢ <;> omega
    exact ⟨fa.2.1, (t4 h3').2.1⟩
  · intro h
    obtain ⟨hU, h3⟩ := key h
    obtain ⟨fa, ec, ec2, ecd, es⟩ := a1 hU
    obtain ⟨t1, t2, -, t4⟩ := tick_firstActive _ (inps.get ⟨k, hk⟩) fa
    rw [← hs] at t1 t2 t4
    obtain ⟨-, -, -, -, hce, hsg, -, -⟩ := t4 h3
    have hec : (stateAt junk inps k).EndCounter = 2 := by
      rw [h3] at t1
      split_ifs at t1
      omega
    have hes : (stateAt junk inps (k + 1)).end_state = (stateAt junk inps k).end_state := by
      rw [t2, h3]; simp
    have hi : k - 3 < inps.length := by omega
    refine ⟨hce, k - 3, hi, by omega, by omega, ?_, ?_⟩
    · rw [hes]; exact es (by omega) (k - 3) hi (by omega)
    · rw [hsg, hes, es (by omega) (k - 3) hi (by omega)]

/-- C7, worked example: the end-to-end scenario at 10 ms frames, detection on
the third tick and finalization on the sixth. -/
theorem first_episode_finalized_witness :
    ((stateAt zeroCtrl scenarioTicks 2).InitialContact = false ∧
      (stateAt zeroCtrl scenarioTicks (2 + 1)).InitialContact = true) ∧
    (((stateAt zeroCtrl scenarioTicks 5).WaitState = false ∧
        (stateAt zeroCtrl scenarioTicks (5 + 1)).WaitState = true) ↔
      (threeConsecutive isRelease scenarioTicks 5 = true ∧
        ∀ j, 2 < j → j < 5 → threeConsecutive isRelease scenarioTicks j = false)) := by
  have hdet : (stateAt zeroCtrl scenarioTicks 2).InitialContact = false ∧
      (stateAt zeroCtrl scenarioTicks (2 + 1)).InitialContact = true := by
    constructor <;> simp [scenarioTicks, sixTicks, stateAt, runTicks, tick, advance, stateMachine, updateContactCounter_eq,
    detectContactStart, detectEndContact, waitingState, latchWaitTimer, trackSecondContact,
    finalizeFirst, classifyFirst, classifyFirstMsg, initTrial, zeroCtrl, isContact, isRelease,
    one_not_lt_zero]
  exact ⟨hdet, (first_episode_finalized zeroCtrl scenarioTicks 2 5 (by decide)
    (by simp [scenarioTicks, sixTicks]) hdet).1⟩

/-- C8, as stated, fails: the both-front pattern "0110", which the machine
counts as a contact, classifies as UNKNOWN (sign 0, reported as a controller
error when it ends an episode), and the pattern "1100" classifies as LEFT. -/
theorem side_classification_counterexample :
    isContact "0110" = true ∧ classifyFirst "0110" = 0 ∧ classifyFirst "0110" ≠ -1 ∧
    classifyFirst "1100" = -1 ∧
    (stateAt zeroCtrl bothFrontTicks 6).sign = 0 ∧
    (stateAt zeroCtrl bothFrontTicks 6).end_state = "0110" ∧
    (stateAt zeroCtrl bothFrontTicks 6).out =
      [Msg.firstContactMade, Msg.firstEndTime, Msg.controllerError] := by
  refine ⟨by simp [isContact], by simp [classifyFirst], by simp [classifyFirst],
    by simp [classifyFirst], ?_, ?_, ?_⟩
  all_goals simp [bothFrontTicks, stateAt, runTicks, tick, advance, stateMachine, updateContactCounter_eq,
    detectContactStart, detectEndContact, waitingState, latchWaitTimer, trackSecondContact,
    finalizeFirst, classifyFirst, classifyFirstMsg, initTrial, zeroCtrl, isContact, isRelease,
    one_not_lt_zero]

/-- C8, amended: when the first episode is finalized, `sign` is -1 exactly for
the end states "0100" (left front) and "1100" (left front+back), +1 exactly
for "0010" (right front) and "0011" (right front+back), and 0 for every other
end state, the both-front pattern "0110" included. -/
theorem side_classification_of_the_code (s : Ctrl) (inp : Input) :
    ((finalizeFirst s inp).sign = -1 ↔ (s.end_state = "0100" ∨ s.end_state = "1100")) ∧
    ((finalizeFirst s inp).sign = 1 ↔ (s.end_state = "0010" ∨ s.end_state = "0011")) ∧
    ((finalizeFirst s inp).sign = 0 ↔
      ¬ (s.end_state = "0100" ∨ s.end_state = "1100" ∨ s.end_state = "0010" ∨
        s.end_state = "0011")) := by
  have e : (finalizeFirst s inp).sign = classifyFirst s.end_state := rfl
  rw [e]
  unfold classifyFirst
  by_cases h1 : s.end_state = "0100" ∨ s.end_state = "1100"
  · rw [if_pos h1]
    rcases h1 with h | h <;> simp [h]
  · rw [if_neg h1]
    by_cases h2 : s.end_state = "0010" ∨ s.end_state = "0011"
    · rw [if_pos h2]
      rcases h2 with h | h <;> simp [h]
    · rw [if_neg h2]
      simp only [not_or] at h1 h2
      simp [h1.1, h1.2, h2.1, h2.2]

/-- C9: the second episode is classified by the same table as the first: for
every end-state string the two tables agree, and the `wsign` a second
finalization assigns from `wend_state` is the `sign` a first finalization
assigns from the same string as `end_state`. -/
theorem second_episode_same_table (e : String) (s1 s2 : Ctrl) (inp1 inp2 : Input) :
    classifySecond e = classifyFirst e ∧
    (finalizeSecond s2 inp2).wsign =
      (finalizeFirst { s1 with end_state := s2.wend_state } inp1).sign := by
  refine ⟨rfl, ?_⟩
  rw [finalizeSecond_wsign]
  rfl

/-! ## The steering model and the phase alignment -/

theorem decisionTwoEpisode_eq (s : Ctrl) :
    decisionTwoEpisode s = phaseAlign (steeringTwoEpisode s) := rfl

theorem decisionTimeout_eq (s : Ctrl) :
    decisionTimeout s = phaseAlign (steeringTimeout s) := rfl

theorem phaseAlign_ContactAngle (s : Ctrl) : (phaseAlign s).ContactAngle = s.ContactAngle := by
  obtain ⟨a, b, c, m, h, -⟩ := phaseAlign_frame s; rw [h]

theorem phaseAlign_sign (s : Ctrl) : (phaseAlign s).sign = s.sign := by
  obtain ⟨a, b, c, m, h, -⟩ := phaseAlign_frame s; rw [h]

theorem phaseAlign_ActualDuration (s : Ctrl) :
    (phaseAlign s).ActualDuration = s.ActualDuration := by
  obtain ⟨a, b, c, m, h, -⟩ := phaseAlign_frame s; rw [h]

theorem steeringTwoEpisode_ContactAngle (s : Ctrl) :
    (steeringTwoEpisode s).ContactAngle = correctionAngleMagnitude s.sign s.ActualDuration := by
  unfold steeringTwoEpisode correctionAngleMagnitude
  simp only
  split_ifs
  · simp only; norm_num; ring
  · simp only; norm_num; ring

theorem steeringTimeout_ContactAngle (s : Ctrl) :
    (steeringTimeout s).ContactAngle = correctionAngleMagnitude s.sign s.ActualDuration := by
  unfold steeringTimeout correctionAngleMagnitude
  simp only
  split_ifs
  · simp only; norm_num; ring
  · simp only; norm_num; ring

theorem steeringTwoEpisode_delA (s : Ctrl) :
    (steeringTwoEpisode s).delA =
      (3.14159265 / 12) * (s.sign : ℚ) * correctionAngleMagnitude s.sign s.ActualDuration / 100 := by
  unfold steeringTwoEpisode correctionAngleMagnitude
  simp only
  split_ifs
  · simp only; norm_num; ring
  · simp only; norm_num; ring

theorem steeringTimeout_delA (s : Ctrl) :
    (steeringTimeout s).delA =
      (3.14159265 / 12) * correctionAngleMagnitude s.sign s.ActualDuration / 100 := by
  unfold steeringTimeout correctionAngleMagnitude
  simp only
  split_ifs
  · simp only; norm_num; ring
  · simp only; norm_num; ring

theorem steeringTwoEpisode_frame (s : Ctrl) :
    (steeringTwoEpisode s).ContactEnd = s.ContactEnd ∧ (steeringTwoEpisode s).sign = s.sign ∧
    (steeringTwoEpisode s).ActualDuration = s.ActualDuration ∧
    (steeringTwoEpisode s).out = s.out ∧ (steeringTwoEpisode s).AMMStart = s.AMMStart := by
  unfold steeringTwoEpisode
  simp only
  split_ifs <;> exact ⟨rfl, rfl, rfl, rfl, rfl⟩

theorem steeringTimeout_frame (s : Ctrl) :
    (steeringTimeout s).ContactEnd = s.ContactEnd ∧ (steeringTimeout s).sign = s.sign ∧
    (steeringTimeout s).ActualDuration = s.ActualDuration ∧
    (steeringTimeout s).out = s.out ∧ (steeringTimeout s).AMMStart = s.AMMStart := by
  unfold steeringTimeout
  simp only
  split_ifs <;> exact ⟨rfl, rfl, rfl, rfl, rfl⟩

theorem cInt_intCast (k : Int) : cInt ((k : ℚ)) = k := by
  unfold cInt
  split_ifs <;> simp

/-- What one execution of the phase alignment computes, in terms of
`k = ceil(2 * ContactEnd)`. -/
theorem phaseAlign_spec (s : Ctrl) :
    (phaseAlign s).delA =
      (if (if Int.tmod ⌈s.ContactEnd * 2⌉ 2 = 1 then -s.delA else s.delA) < 0 then
        (if Int.tmod ⌈s.ContactEnd * 2⌉ 2 = 1 then -s.delA else s.delA)
      else -(if Int.tmod ⌈s.ContactEnd * 2⌉ 2 = 1 then -s.delA else s.delA)) ∧
    (phaseAlign s).AMMStart =
      (if (if Int.tmod ⌈s.ContactEnd * 2⌉ 2 = 1 then -s.delA else s.delA) < 0 then
        (⌈s.ContactEnd * 2⌉ : ℚ) / 2
      else (⌈s.ContactEnd * 2⌉ : ℚ) / 2 + 0.5) := by
  unfold phaseAlign
  simp only [cInt_intCast]
  by_cases hodd : Int.tmod ⌈s.ContactEnd * 2⌉ 2 = 1
  · simp only [hodd, if_true]
    by_cases hneg : -s.delA < 0
    · simp only [hneg, if_true]; exact ⟨trivial, trivial⟩
    · simp only [hneg, if_false]; exact ⟨trivial, trivial⟩
  · simp only [hodd, if_false]
    by_cases hneg : s.delA < 0
    · simp only [hneg, if_true]; exact ⟨trivial, trivial⟩
    · simp only [hneg, if_false]; exact ⟨trivial, trivial⟩

theorem phaseAlign_delA_abs (s : Ctrl) : (phaseAlign s).delA = -|s.delA| := by
  rw [(phaseAlign_spec s).1]
  by_cases hodd : Int.tmod ⌈s.ContactEnd * 2⌉ 2 = 1
  · simp only [hodd, if_true]
    split_ifs with h
    · rw [abs_of_pos (by linarith)]
    · rw [abs_of_nonpos (by linarith)]
  · simp only [hodd, if_false]
    split_ifs with h
    · rw [abs_of_neg h]; ring
    · rw [abs_of_nonneg (by linarith)]

theorem tmod_two_eq_one_iff_odd (k : Int) (hk : 0 ≤ k) : Int.tmod k 2 = 1 ↔ Odd k := by
  rw [Int.tmod_eq_emod hk (by decide), Int.odd_iff]

theorem finalizeSecond_sign_eq (s : Ctrl) (inp : Input) :
    (finalizeSecond s inp).sign =
      if inp.t - s.wActualStart > s.ActualDuration then classifySecond s.wend_state else s.sign := by
  unfold finalizeSecond
  simp only
  split_ifs <;> rw [decisionTwoEpisode_eq, phaseAlign_sign, (steeringTwoEpisode_frame _).2.1]

theorem finalizeSecond_ActualDuration_eq (s : Ctrl) (inp : Input) :
    (finalizeSecond s inp).ActualDuration =
      if inp.t - s.wActualStart > s.ActualDuration then inp.t - s.wActualStart
      else s.ActualDuration := by
  unfold finalizeSecond
  simp only
  split_ifs <;>
    rw [decisionTwoEpisode_eq, phaseAlign_ActualDuration, (steeringTwoEpisode_frame _).2.2.1]

theorem finalizeSecond_wActualDuration (s : Ctrl) (inp : Input) :
    (finalizeSecond s inp).wActualDuration = inp.t - s.wActualStart := by
  obtain ⟨sg, cd, ad, p, n, g, a, b, c, l, h, -⟩ := finalizeSecond_frame s inp; rw [h]

theorem finalizeSecond_ContactAngle (s : Ctrl) (inp : Input) :
    (finalizeSecond s inp).ContactAngle =
      correctionAngleMagnitude (finalizeSecond s inp).sign (finalizeSecond s inp).ActualDuration := by
  rw [finalizeSecond_sign_eq, finalizeSecond_ActualDuration_eq]
  unfold finalizeSecond
  simp only
  split_ifs <;>
    rw [decisionTwoEpisode_eq, phaseAlign_ContactAngle, steeringTwoEpisode_ContactAngle]


theorem finalizeSecond_delA (s : Ctrl) (inp : Input) :
    (finalizeSecond s inp).delA =
      -|(3.14159265 / 12) * ((finalizeSecond s inp).sign : ℚ) *
        correctionAngleMagnitude (finalizeSecond s inp).sign (finalizeSecond s inp).ActualDuration
          / 100| := by
  rw [finalizeSecond_sign_eq, finalizeSecond_ActualDuration_eq]
  unfold finalizeSecond
  simp only
  split_ifs <;>
    rw [decisionTwoEpisode_eq, phaseAlign_delA_abs, steeringTwoEpisode_delA]

theorem timeoutDecide_ContactAngle (s : Ctrl) :
    (timeoutDecide s).ContactAngle = correctionAngleMagnitude s.sign s.ActualDuration := by
  unfold timeoutDecide
  rw [decisionTimeout_eq, phaseAlign_ContactAngle, steeringTimeout_ContactAngle]

theorem timeoutDecide_delA (s : Ctrl) :
    (timeoutDecide s).delA =
      -|(3.14159265 / 12) * correctionAngleMagnitude s.sign s.ActualDuration / 100| := by
  unfold timeoutDecide
  rw [decisionTimeout_eq, phaseAlign_delA_abs, steeringTimeout_delA]

theorem phaseAlign_aligned (s : Ctrl) (he : 0 ≤ s.ContactEnd) :
    (phaseAlign s).delA = alignedAngle s.delA s.ContactEnd ∧
    (phaseAlign s).AMMStart = alignedStart s.delA s.ContactEnd := by
  have hk : 0 ≤ ⌈s.ContactEnd * 2⌉ := Int.ceil_nonneg (by linarith)
  have hmod : Int.tmod ⌈s.ContactEnd * 2⌉ 2 = ⌈s.ContactEnd * 2⌉ % 2 :=
    Int.tmod_eq_emod hk (by decide)
  have hcomm : 2 * s.ContactEnd = s.ContactEnd * 2 := by ring
  obtain ⟨h1, h2⟩ := phaseAlign_spec s
  rw [h1, h2]
  unfold alignedAngle alignedStart
  rw [hmod, hcomm]
  exact ⟨rfl, rfl⟩

theorem timeoutDecide_AMMStart (s : Ctrl) (he : 0 ≤ s.ContactEnd) :
    (timeoutDecide s).AMMStart =
      alignedStart ((3.14159265 / 12) * correctionAngleMagnitude s.sign s.ActualDuration / 100)
        s.ContactEnd := by
  unfold timeoutDecide
  rw [decisionTimeout_eq]
  have hce := (steeringTimeout_frame
    { s with WaitState := false, FinalContact := true, out := s.out ++ [Msg.onlyOneContact] }).1
  rw [(phaseAlign_aligned _ (by rw [hce]; exact he)).2, steeringTimeout_delA, hce]

/-- A tick of the waiting machine on which no second contact is under way and
the wait time has run out: the timeout decision is taken from the first
episode's `sign`, `ActualDuration` and `ContactEnd`. -/
theorem tick_timeout (s : Ctrl) (inp : Input) (hw : Waiting s) (hF : s.FinalContact = false)
    (hc : isContact inp.last_input = false) (hi : s.wInitialContact = false)
    (he : s.wEndCounter ≠ 3) (hT : inp.t - s.WaitInitialTime > 1) (hce : 0 ≤ s.ContactEnd) :
    (tick s inp).FinalContact = true ∧ (tick s inp).sign = s.sign ∧
    (tick s inp).delA =
      -|(3.14159265 / 12) * correctionAngleMagnitude s.sign s.ActualDuration / 100| ∧
    (tick s inp).AMMStart =
      alignedStart ((3.14159265 / 12) * correctionAngleMagnitude s.sign s.ActualDuration / 100)
        s.ContactEnd ∧
    (tick s inp).st = s.st + 2.5 * dst := by
  obtain ⟨hI, hL, hW⟩ := hw
  have hW' := hW hF
  have e1 : ((1.0 : ℚ)) = 1 := by norm_num
  have e : tick s inp = advance (timeoutDecide
      { s with ContactCounter := 0, wContactCounter := 0, LoopTime := inp.t - s.WaitInitialTime })
      inp := by
    simp [tick, stateMachine, updateContactCounter_eq, detectContactStart, detectEndContact,
      waitingState, latchWaitTimer, trackSecondContact, hI, hW', hF, hL, hc, hi, he, e1, hT]
  rw [e]
  refine ⟨?_, ?_, ?_, ?_, ?_⟩
  · simp [advance]
  · simp [advance]
  · simp only [advance]
    exact timeoutDecide_delA _
  · simp only [advance]
    exact timeoutDecide_AMMStart _ hce
  · simp [advance]

theorem finalizeSecond_AMMStart (s : Ctrl) (inp : Input) (he : 0 ≤ s.ContactEnd) :
    (finalizeSecond s inp).AMMStart =
      alignedStart ((3.14159265 / 12) * ((finalizeSecond s inp).sign : ℚ) *
        correctionAngleMagnitude (finalizeSecond s inp).sign (finalizeSecond s inp).ActualDuration
          / 100) s.ContactEnd := by
  rw [finalizeSecond_sign_eq, finalizeSecond_ActualDuration_eq]
  unfold finalizeSecond
  simp only
  split_ifs
  all_goals
    rw [decisionTwoEpisode_eq]
    rw [(phaseAlign_aligned _ (by rw [(steeringTwoEpisode_frame _).1]; exact he)).2,
      steeringTwoEpisode_delA, (steeringTwoEpisode_frame _).1]

theorem finalizeSecond_wContactEnd (s : Ctrl) (inp : Input) :
    (finalizeSecond s inp).wContactEnd = s.st := by
  obtain ⟨sg, cd, ad, p, n, g, a, b, c, l, h, -⟩ := finalizeSecond_frame s inp; rw [h]

theorem finalizeSecond_out_second (s : Ctrl) (inp : Input)
    (h : inp.t - s.wActualStart > s.ActualDuration) :
    Msg.steeringBasedOnSecond ∈ (finalizeSecond s inp).out := by
  unfold finalizeSecond
  simp only [h, if_true]
  obtain ⟨p, n, g, a, b, c, m, hh, -⟩ := decisionTwoEpisode_frame
    { s with wContactEnd := s.st, wActualEnd := inp.t, FinalContact := true, wsign := classifySecond s.wend_state, wContactDuration := s.st - s.wContactStart, wActualDuration := inp.t - s.wActualStart, sign := classifySecond s.wend_state, ContactDuration := s.st - s.wContactStart, ActualDuration := inp.t - s.wActualStart, out := s.out ++ [Msg.secondEndTime, classifySecondMsg s.wend_state] ++ [Msg.steeringBasedOnSecond] }
  rw [hh]
  simp

/-- Facts about the end-to-end scenario just before the frame at t = 2. -/
theorem timeoutTicks_state6 :
    Waiting (stateAt zeroCtrl timeoutTicks 6) ∧
    (stateAt zeroCtrl timeoutTicks 6).FinalContact = false ∧
    (stateAt zeroCtrl timeoutTicks 6).wInitialContact = false ∧
    (stateAt zeroCtrl timeoutTicks 6).wEndCounter = 0 ∧
    (stateAt zeroCtrl timeoutTicks 6).WaitInitialTime = 0.06 ∧
    (stateAt zeroCtrl timeoutTicks 6).ContactEnd = 0.0125 ∧
    (stateAt zeroCtrl timeoutTicks 6).sign = -1 ∧
    (stateAt zeroCtrl timeoutTicks 6).ActualDuration = 0.03 ∧
    (stateAt zeroCtrl timeoutTicks 6).st = 0.015 := by
  refine ⟨?_, ?_, ?_, ?_, ?_, ?_, ?_, ?_, ?_⟩
  all_goals
    simp [Waiting, timeoutTicks, sixTicks, stateAt, runTicks, tick, advance, stateMachine,
      updateContactCounter_eq, detectContactStart, detectEndContact, waitingState, latchWaitTimer,
      trackSecondContact, finalizeFirst, classifyFirst, initTrial, zeroCtrl, isContact, isRelease,
      one_not_lt_zero]
    try norm_num [dst]

/-- Facts about the both-front scenario just before the frame at t = 2. -/
theorem bothFrontTimeoutTicks_state6 :
    Waiting (stateAt zeroCtrl bothFrontTimeoutTicks 6) ∧
    (stateAt zeroCtrl bothFrontTimeoutTicks 6).FinalContact = false ∧
    (stateAt zeroCtrl bothFrontTimeoutTicks 6).wInitialContact = false ∧
    (stateAt zeroCtrl bothFrontTimeoutTicks 6).wEndCounter = 0 ∧
    (stateAt zeroCtrl bothFrontTimeoutTicks 6).WaitInitialTime = 0.06 ∧
    (stateAt zeroCtrl bothFrontTimeoutTicks 6).ContactEnd = 0.0125 ∧
    (stateAt zeroCtrl bothFrontTimeoutTicks 6).sign = 0 ∧
    (stateAt zeroCtrl bothFrontTimeoutTicks 6).ActualDuration = 0.03 ∧
    (stateAt zeroCtrl bothFrontTimeoutTicks 6).out =
      [Msg.firstContactMade, Msg.firstEndTime, Msg.controllerError] := by
  refine ⟨?_, ?_, ?_, ?_, ?_, ?_, ?_, ?_, ?_⟩
  all_goals
    simp [Waiting, bothFrontTimeoutTicks, bothFrontTicks, stateAt, runTicks, tick, advance,
      stateMachine, updateContactCounter_eq, detectContactStart, detectEndContact, waitingState,
      latchWaitTimer, trackSecondContact, finalizeFirst, classifyFirst, classifyFirstMsg,
      initTrial, zeroCtrl, isContact, isRelease, one_not_lt_zero]
    try norm_num [dst]

theorem correctionAngleMagnitude_pos (sign : Int) (d : ℚ) (hs : sign ≤ 0) (hd : 0 ≤ d) :
    0 < correctionAngleMagnitude sign d := by
  unfold correctionAngleMagnitude
  rw [if_neg (by omega)]
  apply div_pos <;> norm_num
  linarith

theorem alignedStart_small_pos (b : ℚ) (hb : 0 < b) : alignedStart b 0.0125 = 0.5 := by
  have hc : ⌈(2 : ℚ) * 0.0125⌉ = 1 := by rw [Int.ceil_eq_iff]; norm_num
  unfold alignedStart
  rw [hc]
  have : -b < 0 := by linarith
  norm_num [this]

theorem alignedStart_small_neg (b : ℚ) (hb : b < 0) : alignedStart b 0.0125 = 1 := by
  have hc : ⌈(2 : ℚ) * 0.0125⌉ = 1 := by rw [Int.ceil_eq_iff]; norm_num
  unfold alignedStart
  rw [hc]
  have : ¬ (-b < 0) := by linarith
  norm_num [this]

theorem sin_joint3_at_one :
    Real.sin (2 * Real.pi * ((3 : ℕ) : ℝ) / ((N : ℕ) : ℝ) - 2 * Real.pi * 1) = 1 := by
  have e : 2 * Real.pi * ((3 : ℕ) : ℝ) / ((N : ℕ) : ℝ) - 2 * Real.pi * 1 =
      Real.pi / 2 - 2 * Real.pi := by
    simp only [N]; push_cast; ring
  rw [e, Real.sin_sub_two_pi, Real.sin_pi_div_two]

theorem phaseAlign_endPhase13 (s : Ctrl) (he : s.ContactEnd = 1.3) :
    ⌈s.ContactEnd * 2⌉ = 3 ∧
    (0 < s.delA → (phaseAlign s).delA = -s.delA ∧ (phaseAlign s).AMMStart = 1.5) ∧
    (s.delA ≤ 0 → (phaseAlign s).delA = s.delA ∧ (phaseAlign s).AMMStart = 2) := by
  have hc : ⌈s.ContactEnd * 2⌉ = 3 := by rw [he, Int.ceil_eq_iff]; norm_num
  obtain ⟨h1, h2⟩ := phaseAlign_spec s
  rw [hc] at h1 h2
  have hodd : Int.tmod 3 2 = 1 := by decide
  simp only [hodd, if_true] at h1 h2
  refine ⟨hc, ?_, ?_⟩
  · intro hp
    have : -s.delA < 0 := by linarith
    rw [h1, h2, if_pos this, if_pos this]
    norm_num
  · intro hn
    have : ¬ (-s.delA < 0) := by linarith
    rw [h1, h2, if_neg this, if_neg this]
    norm_num

/-! ## The injector window and the decided machine -/

/-- Outside the open window of joint `i` the injector computes the nominal
angle, whatever `delA` is; inside it the modulated one. -/
theorem snakeAMM2_angle_cases (t delA AMMStart : ℝ) (i : Nat) :
    ((AMMStart + ((i : ℝ) - 1) / 12 < t ∧ t < AMMStart + 0.5 + ((i : ℝ) - 1) / 12) →
      snakeAMM2_angle Real.sin Real.pi t delA AMMStart i =
        (0.4 + delA) * Real.sin (2 * Real.pi * (i : ℝ) / 12 - 2 * Real.pi * t)) ∧
    ((t ≤ AMMStart + ((i : ℝ) - 1) / 12 ∨ AMMStart + 0.5 + ((i : ℝ) - 1) / 12 ≤ t) →
      snakeAMM2_angle Real.sin Real.pi t delA AMMStart i =
        0.4 * Real.sin (2 * Real.pi * (i : ℝ) / 12 - 2 * Real.pi * t)) := by
  have e1 : AMMmin AMMStart i = AMMStart + ((i : ℝ) - 1) / 12 := by
    unfold AMMmin N; norm_num
  have e2 : AMMmax AMMStart i = AMMStart + 0.5 + ((i : ℝ) - 1) / 12 := by
    unfold AMMmax N; norm_num
  have e3 : ((N : ℕ) : ℝ) = 12 := by unfold N; norm_num
  unfold snakeAMM2_angle
  rw [e1, e2, e3]
  constructor
  · rintro ⟨h1, h2⟩
    rw [if_pos ⟨h1, h2⟩]
    simp [B0]
  · intro h
    have : ¬ (t > AMMStart + ((i : ℝ) - 1) / 12 ∧ t < AMMStart + 0.5 + ((i : ℝ) - 1) / 12) := by
      rintro ⟨h1, h2⟩
      rcases h with h | h <;> linarith
    rw [if_neg this]
    simp [B0]

theorem snakeUpdatePosition_angle_eq (t : ℝ) (cc : Int) (i : Nat) :
    snakeUpdatePosition_angle Real.sin Real.pi t cc i =
      0.4 * Real.sin (2 * Real.pi * (i : ℝ) / 12 - 2 * Real.pi * t) := by
  unfold snakeUpdatePosition_angle N B0
  norm_num

theorem stateMachine_final (s : Ctrl) (inp : Input) (hI : s.InitialContact = true)
    (hF : s.FinalContact = true) : stateMachine s inp = updateContactCounter s inp := by
  simp [stateMachine, updateContactCounter_eq, detectContactStart, detectEndContact,
    waitingState, hI, hF]

/-- Once the machine is decided it stays decided with the same `delA` and
`AMMStart`, and the gait time advances by `2.5 * dst` per tick. -/
theorem decided_mono (junk : Ctrl) (inps : List Input) (k m : Nat) (hkm : k ≤ m)
    (hm : m ≤ inps.length) (hdec : (stateAt junk inps k).FinalContact = true) :
    (stateAt junk inps m).FinalContact = true ∧ (stateAt junk inps m).InitialContact = true ∧
    (stateAt junk inps m).delA = (stateAt junk inps k).delA ∧
    (stateAt junk inps m).AMMStart = (stateAt junk inps k).AMMStart ∧
    (stateAt junk inps m).sign = (stateAt junk inps k).sign ∧
    (stateAt junk inps m).st = (stateAt junk inps k).st + ((m - k : ℕ) : ℚ) * (2.5 * dst) := by
  have hIC : ∀ n, n ≤ inps.length → (stateAt junk inps n).FinalContact = true →
      (stateAt junk inps n).InitialContact = true := by
    intro n hn hF
    rcases phase_stateAt junk inps n hn with h | h | h
    · rw [h.2.2.1] at hF; exact absurd hF (by decide)
    · rw [h.2.2.1] at hF; exact absurd hF (by decide)
    · exact h.1
  induction m, hkm using Nat.le_induction with
  | base => exact ⟨hdec, hIC k hm hdec, rfl, rfl, rfl, by simp⟩
  | succ m hkm ih =>
    have hm' : m < inps.length := hm
    obtain ⟨f, ic, d, a, sg, st⟩ := ih (Nat.le_of_lt hm')
    have hs := stateAt_succ junk inps m hm'
    rw [tick_final _ _ ic f] at hs
    rw [hs]
    refine ⟨?_, ?_, ?_, ?_, ?_, ?_⟩
    · simp [advance, updateContactCounter_eq, f]
    · simp [advance, updateContactCounter_eq, ic]
    · simp [advance, updateContactCounter_eq, d]
    · simp [advance, updateContactCounter_eq, a]
    · simp [advance, updateContactCounter_eq, sg]
    · simp only [advance, updateContactCounter_eq]
      rw [st]
      have : m + 1 - k = (m - k) + 1 := by omega
      rw [this]
      push_cast
      ring

theorem decidedTicks_state7 : (stateAt zeroCtrl decidedTicks 7).FinalContact = true := by
  simp [decidedTicks, timeoutTicks, sixTicks, stateAt, runTicks, tick, advance, stateMachine,
    updateContactCounter_eq, detectContactStart, detectEndContact, waitingState, latchWaitTimer,
    trackSecondContact, finalizeFirst, initTrial, zeroCtrl, isContact, isRelease, one_not_lt_zero]
  split_ifs with h
  · simp
  · exact absurd h (by norm_num)

/-! ## The claims, continued -/

/-- C11: on the tick that finalizes the second episode, `wActualDuration` is the
second episode's wall duration and `wsign` its classification; if it is
strictly greater than the first episode's `ActualDuration`, `sign` and
`ActualDuration` become the second episode's, otherwise (also on a tie) they
stay the first episode's; the regression and the corrective amplitude are
computed from the selected pair.  For first and second durations 0.4 and 0.7
the second episode's sign +1 and duration 0.7 are used, for 0.7 and 0.4 the
first episode's sign -1 and duration 0.7. -/
theorem longer_episode_is_selected (s : Ctrl) (inp : Input) :
    ((finalizeSecond s inp).wsign = classifySecond s.wend_state ∧
      (finalizeSecond s inp).wActualDuration = inp.t - s.wActualStart) ∧
    (s.ActualDuration < inp.t - s.wActualStart →
      (finalizeSecond s inp).sign = classifySecond s.wend_state ∧
      (finalizeSecond s inp).ActualDuration = inp.t - s.wActualStart) ∧
    (inp.t - s.wActualStart ≤ s.ActualDuration →
      (finalizeSecond s inp).sign = s.sign ∧
      (finalizeSecond s inp).ActualDuration = s.ActualDuration) ∧
    ((finalizeSecond s inp).ContactAngle =
        correctionAngleMagnitude (finalizeSecond s inp).sign
          (finalizeSecond s inp).ActualDuration ∧
      (finalizeSecond s inp).delA =
        -|(3.14159265 / 12) * ((finalizeSecond s inp).sign : ℚ) *
          correctionAngleMagnitude (finalizeSecond s inp).sign
            (finalizeSecond s inp).ActualDuration / 100|) ∧
    ((finalizeSecond firstShorterState ⟨1.55, "0000"⟩).wActualDuration = 0.7 ∧
      (finalizeSecond firstShorterState ⟨1.55, "0000"⟩).sign = 1 ∧
      (finalizeSecond firstShorterState ⟨1.55, "0000"⟩).ActualDuration = 0.7) ∧
    ((finalizeSecond firstLongerState ⟨1.55, "0000"⟩).wActualDuration = 0.4 ∧
      (finalizeSecond firstLongerState ⟨1.55, "0000"⟩).sign = -1 ∧
      (finalizeSecond firstLongerState ⟨1.55, "0000"⟩).ActualDuration = 0.7) := by
  refine ⟨⟨finalizeSecond_wsign s inp, finalizeSecond_wActualDuration s inp⟩, ?_, ?_,
    ⟨finalizeSecond_ContactAngle s inp, finalizeSecond_delA s inp⟩, ?_, ?_⟩
  · intro h
    rw [finalizeSecond_sign_eq, finalizeSecond_ActualDuration_eq, if_pos h, if_pos h]
    exact ⟨rfl, rfl⟩
  · intro h
    rw [finalizeSecond_sign_eq, finalizeSecond_ActualDuration_eq, if_neg (not_lt.mpr h),
      if_neg (not_lt.mpr h)]
    exact ⟨rfl, rfl⟩
  · rw [finalizeSecond_sign_eq, finalizeSecond_ActualDuration_eq, finalizeSecond_wActualDuration]
    norm_num [firstShorterState, zeroCtrl, classifySecond]
    decide
  · rw [finalizeSecond_sign_eq, finalizeSecond_ActualDuration_eq, finalizeSecond_wActualDuration]
    norm_num [firstLongerState, zeroCtrl, classifySecond]

/-- C11, worked example: first duration 0.4, second duration 0.7. -/
theorem longer_episode_is_selected_witness :
    firstShorterState.ActualDuration < (1.55 : ℚ) - firstShorterState.wActualStart ∧
    (finalizeSecond firstShorterState ⟨1.55, "0000"⟩).sign =
      classifySecond firstShorterState.wend_state ∧
    (finalizeSecond firstShorterState ⟨1.55, "0000"⟩).ActualDuration =
      (1.55 : ℚ) - firstShorterState.wActualStart := by
  have h : firstShorterState.ActualDuration < (1.55 : ℚ) - firstShorterState.wActualStart := by
    norm_num [firstShorterState, zeroCtrl]
  exact ⟨h, (longer_episode_is_selected firstShorterState ⟨1.55, "0000"⟩).2.1 h⟩

/-- C12: on both decision paths the correction-angle magnitude `ContactAngle`
is `((-25.2 * duration) + 2.1) / 0.85` when `sign > 0` and
`((14.1 * duration) + 2.3) / 0.85` otherwise, for every sign and duration. -/
theorem correction_angle_magnitude (s : Ctrl) :
    ((decisionTwoEpisode s).ContactAngle =
      if s.sign > 0 then ((-25.2 * s.ActualDuration) + 2.1) / 0.85
      else ((14.1 * s.ActualDuration) + 2.3) / 0.85) ∧
    ((decisionTimeout s).ContactAngle =
      if s.sign > 0 then ((-25.2 * s.ActualDuration) + 2.1) / 0.85
      else ((14.1 * s.ActualDuration) + 2.3) / 0.85) ∧
    (timeoutDecide s).ContactAngle = correctionAngleMagnitude s.sign s.ActualDuration ∧
    (∀ inp, (finalizeSecond s inp).ContactAngle =
      correctionAngleMagnitude (finalizeSecond s inp).sign (finalizeSecond s inp).ActualDuration) := by
  refine ⟨?_, ?_, timeoutDecide_ContactAngle s, fun inp => finalizeSecond_ContactAngle s inp⟩
  · rw [decisionTwoEpisode_eq, phaseAlign_ContactAngle, steeringTwoEpisode_ContactAngle]
    rfl
  · rw [decisionTimeout_eq, phaseAlign_ContactAngle, steeringTimeout_ContactAngle]
    rfl

/-- C13: the base corrective amplitude carries the factor `sign` on the
two-episode path only.  On the timeout path the base `delA` is
`(3.14159265/12) * correctionAngleMagnitude / 100` without `sign`: in the
end-to-end scenario followed by a timeout (sign -1, duration 0.03) it is
positive where the claimed formula is negative, and the start phase comes out
as 0.5 where the claimed base would give 1.0. -/
theorem timeout_path_omits_sign :
    (∀ s : Ctrl, (steeringTwoEpisode s).delA =
      (3.14159265 / 12) * (s.sign : ℚ) * correctionAngleMagnitude s.sign s.ActualDuration / 100) ∧
    (∀ s : Ctrl, (steeringTimeout s).delA =
      (3.14159265 / 12) * correctionAngleMagnitude s.sign s.ActualDuration / 100) ∧
    ((stateAt zeroCtrl timeoutTicks 6).sign = -1 ∧
      (stateAt zeroCtrl timeoutTicks 6).ActualDuration = 0.03 ∧
      0 < (steeringTimeout (stateAt zeroCtrl timeoutTicks 6)).delA ∧
      (3.14159265 / 12) * ((-1 : Int) : ℚ) * correctionAngleMagnitude (-1) 0.03 / 100 < 0 ∧
      (stateAt zeroCtrl timeoutTicks 7).AMMStart = 0.5 ∧
      alignedStart ((3.14159265 / 12) * ((-1 : Int) : ℚ) * correctionAngleMagnitude (-1) 0.03 / 100)
        0.0125 = 1) := by
  obtain ⟨hw, hF, hi, he, hwt, hce, hsg, had, -⟩ := timeoutTicks_state6
  have hmag : 0 < correctionAngleMagnitude (-1) 0.03 :=
    correctionAngleMagnitude_pos (-1) 0.03 (by decide) (by norm_num)
  have hbase : 0 < (3.14159265 / 12 : ℚ) * correctionAngleMagnitude (-1) 0.03 / 100 := by
    apply div_pos _ (by norm_num)
    exact mul_pos (by norm_num) hmag
  have hclaim : (3.14159265 / 12 : ℚ) * ((-1 : Int) : ℚ) *
      correctionAngleMagnitude (-1) 0.03 / 100 < 0 := by
    have : (3.14159265 / 12 : ℚ) * ((-1 : Int) : ℚ) * correctionAngleMagnitude (-1) 0.03 / 100 =
        -((3.14159265 / 12 : ℚ) * correctionAngleMagnitude (-1) 0.03 / 100) := by
      push_cast; ring
    rw [this]; linarith
  have hm : 6 < timeoutTicks.length := by simp [timeoutTicks, sixTicks]
  have hT : (timeoutTicks.get ⟨6, hm⟩).t - (stateAt zeroCtrl timeoutTicks 6).WaitInitialTime > 1 := by
    rw [hwt]
    show (2 : ℚ) - 0.06 > 1
    norm_num
  have hc : isContact (timeoutTicks.get ⟨6, hm⟩).last_input = false := by
    show isContact "0000" = false
    simp [isContact]
  obtain ⟨-, -, -, t4, -⟩ := tick_timeout (stateAt zeroCtrl timeoutTicks 6)
    (timeoutTicks.get ⟨6, hm⟩) hw hF hc hi (by rw [he]; decide) hT
    (by rw [hce]; norm_num)
  rw [← stateAt_succ zeroCtrl timeoutTicks 6 hm, hsg, had, hce] at t4
  refine ⟨steeringTwoEpisode_delA, steeringTimeout_delA, hsg, had, ?_, hclaim, ?_, ?_⟩
  · rw [steeringTimeout_delA, hsg, had]; exact hbase
  · rw [t4]; exact alignedStart_small_pos _ hbase
  · exact alignedStart_small_neg _ hclaim

/-- C14: with `sign = 0` the two-episode path yields `delA = 0`, but the timeout
path yields a negative `delA` for every non-negative duration.  In the
both-front scenario followed by a timeout the first episode is classified
UNKNOWN (the log holds the controller-error line), the machine is decided with
`delA < 0` and start phase 0.5, and at gait time 1 the injector's angle for
joint 3 is `0.4 + delA`, not the nominal 0.4. -/
theorem unknown_side_steers_on_timeout :
    (∀ s : Ctrl, s.sign = 0 → (decisionTwoEpisode s).delA = 0) ∧
    (∀ s : Ctrl, s.sign = 0 → 0 ≤ s.ActualDuration → (timeoutDecide s).delA < 0) ∧
    ((stateAt zeroCtrl bothFrontTimeoutTicks 6).out =
        [Msg.firstContactMade, Msg.firstEndTime, Msg.controllerError] ∧
      (stateAt zeroCtrl bothFrontTimeoutTicks 7).sign = 0 ∧
      (stateAt zeroCtrl bothFrontTimeoutTicks 7).FinalContact = true ∧
      (stateAt zeroCtrl bothFrontTimeoutTicks 7).delA < 0 ∧
      (stateAt zeroCtrl bothFrontTimeoutTicks 7).AMMStart = 0.5 ∧
      snakeAMM2_angle Real.sin Real.pi 1
          (((stateAt zeroCtrl bothFrontTimeoutTicks 7).delA : ℚ) : ℝ)
          (((stateAt zeroCtrl bothFrontTimeoutTicks 7).AMMStart : ℚ) : ℝ) 3 =
        0.4 + (((stateAt zeroCtrl bothFrontTimeoutTicks 7).delA : ℚ) : ℝ) ∧
      snakeUpdatePosition_angle Real.sin Real.pi 1 0 3 = 0.4) := by
  have hgen : ∀ s : Ctrl, s.sign = 0 → 0 ≤ s.ActualDuration → (timeoutDecide s).delA < 0 := by
    intro s hs hd
    rw [timeoutDecide_delA]
    have hmag := correctionAngleMagnitude_pos s.sign s.ActualDuration (by omega) hd
    have : 0 < (3.14159265 / 12 : ℚ) * correctionAngleMagnitude s.sign s.ActualDuration / 100 :=
      div_pos (mul_pos (by norm_num) hmag) (by norm_num)
    rw [abs_of_pos this]; linarith
  obtain ⟨hw, hF, hi, he, hwt, hce, hsg, had, hout⟩ := bothFrontTimeoutTicks_state6
  have hm : 6 < bothFrontTimeoutTicks.length := by simp [bothFrontTimeoutTicks, bothFrontTicks]
  have hT : (bothFrontTimeoutTicks.get ⟨6, hm⟩).t -
      (stateAt zeroCtrl bothFrontTimeoutTicks 6).WaitInitialTime > 1 := by
    rw [hwt]
    show (2 : ℚ) - 0.06 > 1
    norm_num
  have hc : isContact (bothFrontTimeoutTicks.get ⟨6, hm⟩).last_input = false := by
    show isContact "0000" = false
    simp [isContact]
  obtain ⟨t1, t2, t3, t4, -⟩ := tick_timeout (stateAt zeroCtrl bothFrontTimeoutTicks 6)
    (bothFrontTimeoutTicks.get ⟨6, hm⟩) hw hF hc hi (by rw [he]; decide) hT
    (by rw [hce]; norm_num)
  rw [← stateAt_succ zeroCtrl bothFrontTimeoutTicks 6 hm] at t1 t2 t3 t4
  rw [hsg, had] at t3
  rw [hsg, had, hce] at t4
  have hmag : 0 < correctionAngleMagnitude 0 0.03 :=
    correctionAngleMagnitude_pos 0 0.03 (by decide) (by norm_num)
  have hbase : 0 < (3.14159265 / 12 : ℚ) * correctionAngleMagnitude 0 0.03 / 100 :=
    div_pos (mul_pos (by norm_num) hmag) (by norm_num)
  have hA : (stateAt zeroCtrl bothFrontTimeoutTicks 7).AMMStart = 0.5 := by
    rw [t4]; exact alignedStart_small_pos _ hbase
  have hD : (stateAt zeroCtrl bothFrontTimeoutTicks 7).delA < 0 := by
    rw [t3, abs_of_pos hbase]; linarith
  refine ⟨?_, hgen, hout, by rw [t2, hsg], t1, hD, hA, ?_, ?_⟩
  · intro s hs
    rw [decisionTwoEpisode_eq, phaseAlign_delA_abs, steeringTwoEpisode_delA, hs]
    simp
  · rw [hA]
    unfold snakeAMM2_angle AMMmin AMMmax
    rw [sin_joint3_at_one]
    have h1 : (1 : ℝ) > ((0.5 : ℚ) : ℝ) + ((((3 : ℕ) : ℝ) - 1.0) / ((N : ℕ) : ℝ)) := by
      simp only [N]; push_cast; norm_num
    have h2 : (1 : ℝ) < ((0.5 : ℚ) : ℝ) + 0.5 + ((((3 : ℕ) : ℝ) - 1.0) / ((N : ℕ) : ℝ)) := by
      simp only [N]; push_cast; norm_num
    rw [if_pos ⟨h1, h2⟩]
    simp [B0]
  · unfold snakeUpdatePosition_angle
    rw [sin_joint3_at_one]
    simp [B0]

/-- C15: the phase is always taken from `ContactEnd`, the first episode's end
gait time, also when the second episode is selected; the second episode's end
gait time only goes to `wContactEnd`.  With the first episode ended at gait
time 0.4975, the second one ended at 0.5175 and selected (wall duration 0.05
against 0.03), the start phase is 0.5, computed from `ceil(2 * 0.4975) = 1`;
computed from the second episode's end, `ceil(2 * 0.5175) = 2`, it would be
1.5. -/
theorem phase_taken_from_first_episode :
    (∀ (s : Ctrl) (inp : Input), 0 ≤ s.ContactEnd →
      (finalizeSecond s inp).wContactEnd = s.st ∧
      (finalizeSecond s inp).AMMStart =
        alignedStart ((3.14159265 / 12) * ((finalizeSecond s inp).sign : ℚ) *
          correctionAngleMagnitude (finalizeSecond s inp).sign
            (finalizeSecond s inp).ActualDuration / 100) s.ContactEnd) ∧
    ((finalizeSecond secondSelectedState ⟨2.08, "0000"⟩).wContactEnd = 0.5175 ∧
      (finalizeSecond secondSelectedState ⟨2.08, "0000"⟩).wActualDuration = 0.05 ∧
      (finalizeSecond secondSelectedState ⟨2.08, "0000"⟩).sign = 1 ∧
      (finalizeSecond secondSelectedState ⟨2.08, "0000"⟩).ActualDuration = 0.05 ∧
      Msg.steeringBasedOnSecond ∈ (finalizeSecond secondSelectedState ⟨2.08, "0000"⟩).out ∧
      (finalizeSecond secondSelectedState ⟨2.08, "0000"⟩).AMMStart = 0.5 ∧
      alignedStart ((3.14159265 / 12) * ((1 : Int) : ℚ) * correctionAngleMagnitude 1 0.05 / 100)
        0.5175 = 1.5) := by
  have hsel : (⟨2.08, "0000"⟩ : Input).t - secondSelectedState.wActualStart >
      secondSelectedState.ActualDuration := by
    norm_num [secondSelectedState, zeroCtrl]
  have hsg : (finalizeSecond secondSelectedState ⟨2.08, "0000"⟩).sign = 1 := by
    rw [finalizeSecond_sign_eq, if_pos hsel]
    simp [secondSelectedState, zeroCtrl, classifySecond]
  have had : (finalizeSecond secondSelectedState ⟨2.08, "0000"⟩).ActualDuration = 0.05 := by
    rw [finalizeSecond_ActualDuration_eq, if_pos hsel]
    norm_num [secondSelectedState, zeroCtrl]
  have hmag : 0 < correctionAngleMagnitude 1 0.05 := by
    unfold correctionAngleMagnitude
    norm_num
  have hbase : 0 < (3.14159265 / 12 : ℚ) * ((1 : Int) : ℚ) * correctionAngleMagnitude 1 0.05 / 100 :=
    div_pos (mul_pos (by norm_num) hmag) (by norm_num)
  have hce : secondSelectedState.ContactEnd = 0.4975 := rfl
  refine ⟨fun s inp he => ⟨finalizeSecond_wContactEnd s inp, finalizeSecond_AMMStart s inp he⟩,
    ?_, ?_, hsg, had, finalizeSecond_out_second _ _ hsel, ?_, ?_⟩
  · rw [finalizeSecond_wContactEnd]; rfl
  · rw [finalizeSecond_wActualDuration]
    norm_num [secondSelectedState, zeroCtrl]
  · rw [finalizeSecond_AMMStart _ _ (by rw [hce]; norm_num), hsg, had, hce]
    have hc : ⌈(2 : ℚ) * 0.4975⌉ = 1 := by rw [Int.ceil_eq_iff]; norm_num
    unfold alignedStart
    rw [hc]
    have hlt : -((3.14159265 / 12 : ℚ) * ((1 : Int) : ℚ) * correctionAngleMagnitude 1 0.05 / 100) < 0 := by
      linarith
    have hodd : (1 : Int) % 2 = 1 := by decide
    simp only [hodd, if_true]
    rw [if_pos hlt]
    norm_num
  · have hc : ⌈(2 : ℚ) * 0.5175⌉ = 2 := by rw [Int.ceil_eq_iff]; norm_num
    unfold alignedStart
    rw [hc]
    have hge : ¬ ((3.14159265 / 12 : ℚ) * ((1 : Int) : ℚ) * correctionAngleMagnitude 1 0.05 / 100 < 0) := by
      linarith
    have heven : ¬ ((2 : Int) % 2 = 1) := by decide
    simp only [heven, if_false]
    rw [if_neg hge]
    norm_num

/-- C16: for an end phase `e >= 0` one execution of the decision computation
yields, with `k = ceil(2e)` and `d = -delA` if `k` is odd, else `delA`: the
correction angle `d` and start phase `k/2` if `d < 0`, otherwise `-d` and
`k/2 + 0.5`.  The two-episode path and the timeout path both compute this
from their base `delA`. -/
theorem phase_alignment_computation (s : Ctrl) (he : 0 ≤ s.ContactEnd) :
    ((phaseAlign s).delA = alignedAngle s.delA s.ContactEnd ∧
      (phaseAlign s).AMMStart = alignedStart s.delA s.ContactEnd) ∧
    ((decisionTwoEpisode s).delA = alignedAngle (steeringTwoEpisode s).delA s.ContactEnd ∧
      (decisionTwoEpisode s).AMMStart = alignedStart (steeringTwoEpisode s).delA s.ContactEnd) ∧
    ((decisionTimeout s).delA = alignedAngle (steeringTimeout s).delA s.ContactEnd ∧
      (decisionTimeout s).AMMStart = alignedStart (steeringTimeout s).delA s.ContactEnd) := by
  refine ⟨phaseAlign_aligned s he, ?_, ?_⟩
  · have h := (steeringTwoEpisode_frame s).1
    rw [decisionTwoEpisode_eq, ← h]
    exact phaseAlign_aligned _ (by rw [h]; exact he)
  · have h := (steeringTimeout_frame s).1
    rw [decisionTimeout_eq, ← h]
    exact phaseAlign_aligned _ (by rw [h]; exact he)

/-- C16, worked example: end phase 1.3, where `k = 3`. -/
theorem phase_alignment_computation_witness :
    0 ≤ endPhase13State.ContactEnd ∧
    (phaseAlign endPhase13State).delA = alignedAngle endPhase13State.delA endPhase13State.ContactEnd ∧
    (phaseAlign endPhase13State).AMMStart =
      alignedStart endPhase13State.delA endPhase13State.ContactEnd := by
  have he : 0 ≤ endPhase13State.ContactEnd := by
    show (0 : ℚ) ≤ 1.3
    norm_num
  exact ⟨he, (phase_alignment_computation endPhase13State he).1⟩

/-- C17, as stated, fails: with end phase 1.3, sign -1 and duration 0.03 on the
two-episode path, `ceil(2.6) = 3` and `delA` is negated once, but the base
`delA` is negative, so the negated value is positive, the other branch is
taken and the start phase is 2.0, not 1.5. -/
theorem end_phase_13_counterexample :
    ⌈endPhase13State.ContactEnd * 2⌉ = 3 ∧
    (steeringTwoEpisode endPhase13State).delA < 0 ∧
    (decisionTwoEpisode endPhase13State).AMMStart = 2 ∧
    (decisionTwoEpisode endPhase13State).AMMStart ≠ 1.5 := by
  have hb : (steeringTwoEpisode endPhase13State).delA < 0 := by
    rw [steeringTwoEpisode_delA]
    have hmag : 0 < correctionAngleMagnitude endPhase13State.sign endPhase13State.ActualDuration :=
      correctionAngleMagnitude_pos _ _ (by decide) (by show (0 : ℚ) ≤ 0.03; norm_num)
    have hs : ((endPhase13State.sign : Int) : ℚ) = -1 := by
      show (((-1 : Int)) : ℚ) = -1
      norm_num
    rw [hs]
    have : (3.14159265 / 12 : ℚ) * -1 *
        correctionAngleMagnitude endPhase13State.sign endPhase13State.ActualDuration / 100 =
        -((3.14159265 / 12 : ℚ) *
          correctionAngleMagnitude endPhase13State.sign endPhase13State.ActualDuration / 100) := by
      ring
    rw [this]
    have : 0 < (3.14159265 / 12 : ℚ) *
        correctionAngleMagnitude endPhase13State.sign endPhase13State.ActualDuration / 100 :=
      div_pos (mul_pos (by norm_num) hmag) (by norm_num)
    linarith
  have he : (steeringTwoEpisode endPhase13State).ContactEnd = 1.3 := by
    rw [(steeringTwoEpisode_frame _).1]; rfl
  obtain ⟨hc, -, h2⟩ := phaseAlign_endPhase13 _ he
  rw [he] at hc
  have hA : (decisionTwoEpisode endPhase13State).AMMStart = 2 := by
    rw [decisionTwoEpisode_eq]; exact (h2 (le_of_lt hb)).2
  refine ⟨by rw [show endPhase13State.ContactEnd = 1.3 from rfl]; exact hc, hb, hA, ?_⟩
  rw [hA]; norm_num

/-- C17, amended: with end phase 1.3 the decision computes `ceil(2.6) = 3`,
which is odd, and negates `delA` once; if the base `delA` is positive the
negated value is negative, the steer-immediately branch is taken and the start
phase is 1.5; if the base `delA` is zero or negative the other branch negates
it back and the start phase is 2.0.  On both decision paths. -/
theorem end_phase_13_decision (s : Ctrl) (he : s.ContactEnd = 1.3) :
    ⌈s.ContactEnd * 2⌉ = 3 ∧
    ((0 < (steeringTwoEpisode s).delA →
        (decisionTwoEpisode s).delA = -(steeringTwoEpisode s).delA ∧
        (decisionTwoEpisode s).AMMStart = 1.5) ∧
      ((steeringTwoEpisode s).delA ≤ 0 →
        (decisionTwoEpisode s).delA = (steeringTwoEpisode s).delA ∧
        (decisionTwoEpisode s).AMMStart = 2)) ∧
    ((0 < (steeringTimeout s).delA →
        (decisionTimeout s).delA = -(steeringTimeout s).delA ∧
        (decisionTimeout s).AMMStart = 1.5) ∧
      ((steeringTimeout s).delA ≤ 0 →
        (decisionTimeout s).delA = (steeringTimeout s).delA ∧
        (decisionTimeout s).AMMStart = 2)) := by
  have h2 : (steeringTwoEpisode s).ContactEnd = 1.3 := by
    rw [(steeringTwoEpisode_frame s).1]; exact he
  have hT : (steeringTimeout s).ContactEnd = 1.3 := by
    rw [(steeringTimeout_frame s).1]; exact he
  obtain ⟨a1, a2, a3⟩ := phaseAlign_endPhase13 _ h2
  obtain ⟨-, b2, b3⟩ := phaseAlign_endPhase13 _ hT
  exact ⟨(phaseAlign_endPhase13 s he).1, ⟨a2, a3⟩, ⟨b2, b3⟩⟩

/-- C17, worked example: end phase 1.3 with sign -1 and duration 0.03 on the
timeout path, where the base `delA` is positive. -/
theorem end_phase_13_decision_witness :
    endPhase13State.ContactEnd = 1.3 ∧ 0 < (steeringTimeout endPhase13State).delA ∧
    (decisionTimeout endPhase13State).AMMStart = 1.5 := by
  have he : endPhase13State.ContactEnd = 1.3 := rfl
  have hb : 0 < (steeringTimeout endPhase13State).delA := by
    rw [steeringTimeout_delA]
    have hmag : 0 < correctionAngleMagnitude endPhase13State.sign endPhase13State.ActualDuration :=
      correctionAngleMagnitude_pos _ _ (by decide) (by show (0 : ℚ) ≤ 0.03; norm_num)
    exact div_pos (mul_pos (by norm_num) hmag) (by norm_num)
  exact ⟨he, hb, ((end_phase_13_decision endPhase13State he).2.2.1 hb).2⟩

/-- C18, as stated, fails at the left endpoint: for joint 1, start phase 0.5 and
`delA = -0.01`, the gait time 0.5 satisfies
`startPhase + 0/12 <= t < startPhase + 0.5 + 0/12`, but `snakeAMM2` tests
`t > AMMmin` and computes the nominal angle -0.2, not
`(0.4 + delA) * sin(2*pi/12 - 2*pi*0.5) = -0.195`. -/
theorem window_left_endpoint_counterexample :
    ((0.5 : ℝ) + (((1 : ℕ) : ℝ) - 1) / 12 ≤ 0.5 ∧
      (0.5 : ℝ) < 0.5 + 0.5 + (((1 : ℕ) : ℝ) - 1) / 12) ∧
    snakeAMM2_angle Real.sin Real.pi 0.5 (-0.01) 0.5 1 = -0.2 ∧
    (0.4 + (-0.01 : ℝ)) * Real.sin (2 * Real.pi * ((1 : ℕ) : ℝ) / 12 - 2 * Real.pi * 0.5) =
      -0.195 ∧
    snakeAMM2_angle Real.sin Real.pi 0.5 (-0.01) 0.5 1 ≠
      (0.4 + (-0.01 : ℝ)) * Real.sin (2 * Real.pi * ((1 : ℕ) : ℝ) / 12 - 2 * Real.pi * 0.5) := by
  have hs : Real.sin (2 * Real.pi * ((1 : ℕ) : ℝ) / 12 - 2 * Real.pi * 0.5) = -(1 / 2) := by
    have e : 2 * Real.pi * ((1 : ℕ) : ℝ) / 12 - 2 * Real.pi * 0.5 = Real.pi / 6 - Real.pi := by
      push_cast; ring
    rw [e, Real.sin_sub_pi, Real.sin_pi_div_six]
  have ha : snakeAMM2_angle Real.sin Real.pi 0.5 (-0.01) 0.5 1 = -0.2 := by
    rw [(snakeAMM2_angle_cases 0.5 (-0.01) 0.5 1).2 (Or.inl (by push_cast; norm_num)), hs]
    norm_num
  have hb : (0.4 + (-0.01 : ℝ)) *
      Real.sin (2 * Real.pi * ((1 : ℕ) : ℝ) / 12 - 2 * Real.pi * 0.5) = -0.195 := by
    rw [hs]; norm_num
  refine ⟨⟨by push_cast; norm_num, by push_cast; norm_num⟩, ha, hb, ?_⟩
  rw [ha, hb]; norm_num

/-- C18, amended: for every joint `i`, start phase, `delA` and gait time `t`
strictly inside the window, `startPhase + (i-1)/12 < t < startPhase + 0.5 +
(i-1)/12`, the injector computes `(0.4 + delA) * sin(2*pi*i/12 - 2*pi*t)`. -/
theorem window_inside_modulated (i : Nat) (startPhase delA t : ℝ)
    (hlo : startPhase + ((i : ℝ) - 1) / 12 < t)
    (hhi : t < startPhase + 0.5 + ((i : ℝ) - 1) / 12) :
    snakeAMM2_angle Real.sin Real.pi t delA startPhase i =
      (0.4 + delA) * Real.sin (2 * Real.pi * (i : ℝ) / 12 - 2 * Real.pi * t) :=
  (snakeAMM2_angle_cases t delA startPhase i).1 ⟨hlo, hhi⟩

/-- C18, worked example: joint 3, start phase 0.5, gait time 1. -/
theorem window_inside_modulated_witness :
    ((0.5 : ℝ) + (((3 : ℕ) : ℝ) - 1) / 12 < 1 ∧ (1 : ℝ) < 0.5 + 0.5 + (((3 : ℕ) : ℝ) - 1) / 12) ∧
    snakeAMM2_angle Real.sin Real.pi 1 (-0.01) 0.5 3 =
      (0.4 + (-0.01)) * Real.sin (2 * Real.pi * ((3 : ℕ) : ℝ) / 12 - 2 * Real.pi * 1) :=
  ⟨⟨by push_cast; norm_num, by push_cast; norm_num⟩,
    window_inside_modulated 3 0.5 (-0.01) 1 (by push_cast; norm_num) (by push_cast; norm_num)⟩

/-- C19: for every joint `i` and every gait time `t` outside the joint's
window, `t < startPhase + (i-1)/12` or `t >= startPhase + 0.5 + (i-1)/12`, the
injector's angle is the nominal `0.4 * sin(2*pi*i/12 - 2*pi*t)`, the angle
`snakeUpdatePosition` computes, whatever `delA` is. -/
theorem window_outside_nominal (i : Nat) (startPhase delA t : ℝ) (ContactCondition : Int)
    (hout : t < startPhase + ((i : ℝ) - 1) / 12 ∨ t ≥ startPhase + 0.5 + ((i : ℝ) - 1) / 12) :
    snakeAMM2_angle Real.sin Real.pi t delA startPhase i =
        0.4 * Real.sin (2 * Real.pi * (i : ℝ) / 12 - 2 * Real.pi * t) ∧
    snakeAMM2_angle Real.sin Real.pi t delA startPhase i =
        snakeUpdatePosition_angle Real.sin Real.pi t ContactCondition i := by
  have h := (snakeAMM2_angle_cases t delA startPhase i).2
    (hout.elim (fun h => Or.inl (le_of_lt h)) (fun h => Or.inr h))
  exact ⟨h, by rw [h, snakeUpdatePosition_angle_eq]⟩

/-- C19, worked example: joint 1, start phase 0.5, gait time 1, the right
endpoint of the window. -/
theorem window_outside_nominal_witness :
    ((1 : ℝ) < 0.5 + (((1 : ℕ) : ℝ) - 1) / 12 ∨ (1 : ℝ) ≥ 0.5 + 0.5 + (((1 : ℕ) : ℝ) - 1) / 12) ∧
    snakeAMM2_angle Real.sin Real.pi 1 (-0.01) 0.5 1 =
      0.4 * Real.sin (2 * Real.pi * ((1 : ℕ) : ℝ) / 12 - 2 * Real.pi * 1) :=
  ⟨Or.inr (by push_cast; norm_num),
    (window_outside_nominal 1 0.5 (-0.01) 1 0 (Or.inr (by push_cast; norm_num))).1⟩

/-- C20: for every decision `(delA, AMMStart)` and every gait time
`t >= AMMStart + 2`, the angles `snakeAMM2` computes for the joints 1..12 are
the nominal ones.  Once the machine is decided, every later tick of the trial
calls `snakeAMM2` with the same `delA` and `AMMStart` and with a gait time that
grows by `2.5 * dst` per tick, so from the first tick with `st >= AMMStart + 2`
on all 12 angles are nominal on every tick. -/
theorem one_correction_per_trial (junk : Ctrl) (inps : List Input) (k m : Nat)
    (hkm : k ≤ m) (hm : m < inps.length)
    (hdec : (stateAt junk inps k).FinalContact = true) :
    (∀ (delA AMMStart t : ℝ) (cc : Int) (i : Nat), AMMStart + 2 ≤ t → 1 ≤ i → i ≤ 12 →
      snakeAMM2_angle Real.sin Real.pi t delA AMMStart i =
        snakeUpdatePosition_angle Real.sin Real.pi t cc i) ∧
    commandAt junk inps m hm =
      Command.AMM2 (stateAt junk inps m).st (stateAt junk inps k).delA
        (stateAt junk inps k).AMMStart ∧
    (stateAt junk inps m).st =
      (stateAt junk inps k).st + ((m - k : ℕ) : ℚ) * (2.5 * dst) ∧
    ((stateAt junk inps k).AMMStart + 2 ≤ (stateAt junk inps k).st →
      ∀ (cc : Int) (i : Nat), 1 ≤ i → i ≤ 12 →
        snakeAMM2_angle Real.sin Real.pi (((stateAt junk inps m).st : ℚ) : ℝ)
            (((stateAt junk inps k).delA : ℚ) : ℝ) (((stateAt junk inps k).AMMStart : ℚ) : ℝ) i =
          snakeUpdatePosition_angle Real.sin Real.pi (((stateAt junk inps m).st : ℚ) : ℝ) cc i) := by
  have hgen : ∀ (delA AMMStart t : ℝ) (cc : Int) (i : Nat), AMMStart + 2 ≤ t → 1 ≤ i → i ≤ 12 →
      snakeAMM2_angle Real.sin Real.pi t delA AMMStart i =
        snakeUpdatePosition_angle Real.sin Real.pi t cc i := by
    intro delA AMMStart t cc i ht _ h12
    have hi : (i : ℝ) ≤ 12 := by exact_mod_cast h12
    rw [(snakeAMM2_angle_cases t delA AMMStart i).2 (Or.inr (by linarith)),
      snakeUpdatePosition_angle_eq]
  obtain ⟨f, ic, d, a, -, st⟩ := decided_mono junk inps k m hkm (Nat.le_of_lt hm) hdec
  refine ⟨hgen, ?_, st, ?_⟩
  · unfold commandAt
    rw [stateMachine_final _ _ ic f]
    simp [controllerCommand, updateContactCounter_eq, f, d, a]
  · intro hst cc i h1 h12
    apply hgen _ _ _ cc i _ h1 h12
    have h0 : (0 : ℚ) ≤ ((m - k : ℕ) : ℚ) * (2.5 * dst) := by
      apply mul_nonneg (Nat.cast_nonneg _)
      norm_num [dst]
    have : (stateAt junk inps k).AMMStart + 2 ≤ (stateAt junk inps m).st := by
      rw [st]; linarith
    exact_mod_cast this

/-- C20, worked example: the end-to-end scenario is decided by the timeout on
the seventh tick; the eighth tick calls `snakeAMM2` with the decision. -/
theorem one_correction_per_trial_witness :
    (7 ≤ 7 ∧ 7 < decidedTicks.length ∧ (stateAt zeroCtrl decidedTicks 7).FinalContact = true) ∧
    commandAt zeroCtrl decidedTicks 7 (by simp [decidedTicks, timeoutTicks, sixTicks]) =
      Command.AMM2 (stateAt zeroCtrl decidedTicks 7).st (stateAt zeroCtrl decidedTicks 7).delA
        (stateAt zeroCtrl decidedTicks 7).AMMStart :=
  ⟨⟨le_refl 7, by simp [decidedTicks, timeoutTicks, sixTicks], decidedTicks_state7⟩,
    (one_correction_per_trial zeroCtrl decidedTicks 7 7 (le_refl 7)
      (by simp [decidedTicks, timeoutTicks, sixTicks]) decidedTicks_state7).2.1⟩


/-! ## Gait time, flags and the bus -/

theorem sixTicks_duration (junk : Ctrl) (t1 t2 t3 t4 t5 t6 : ℚ) :
    (stateAt junk (sixTicks t1 t2 t3 t4 t5 t6) 6).ActualStart = t3 ∧
    (stateAt junk (sixTicks t1 t2 t3 t4 t5 t6) 6).ActualEnd = t6 ∧
    (stateAt junk (sixTicks t1 t2 t3 t4 t5 t6) 6).ActualDuration = t6 - t3 ∧
    (stateAt junk (sixTicks t1 t2 t3 t4 t5 t6) 6).WaitState = true := by
  refine ⟨?_, ?_, ?_, ?_⟩
  all_goals
    simp [stateAt, runTicks, sixTicks, tick, advance, stateMachine, updateContactCounter_eq,
      detectContactStart, detectEndContact, waitingState, latchWaitTimer, trackSecondContact,
      finalizeFirst, initTrial, isContact, isRelease, one_not_lt_zero]

theorem detectContactStart_st (u : Ctrl) (inp : Input) :
    (detectContactStart u inp).st = u.st := by
  unfold detectContactStart
  split_ifs <;> rfl

theorem detectEndContact_st (u : Ctrl) (inp : Input) :
    (detectEndContact u inp).st = u.st := by
  unfold detectEndContact finalizeFirst
  simp only
  split_ifs <;> rfl

theorem waitingState_st (u : Ctrl) (inp : Input) :
    (waitingState u inp).st = u.st := by
  unfold waitingState latchWaitTimer
  simp only
  split_ifs <;> simp

/-- Every processed tick advances the gait time by `2.5 * dst`, on every state. -/
theorem tick_st (s : Ctrl) (inp : Input) : (tick s inp).st = s.st + 2.5 * dst := by
  have : (tick s inp).st = (stateMachine s inp).st + 2.5 * dst := rfl
  rw [this]
  unfold stateMachine
  rw [waitingState_st, detectEndContact_st, detectContactStart_st, updateContactCounter_eq]

theorem tick_prev_t (s : Ctrl) (inp : Input) : (tick s inp).prev_t = inp.t := rfl

theorem gait_step : (2.5 : ℚ) * dst = 0.0025 := by
  unfold dst; norm_num

theorem alignedStart_halves (b e : ℚ) :
    alignedStart b e = (⌈2 * e⌉ : ℚ) / 2 ∨ alignedStart b e = (⌈2 * e⌉ : ℚ) / 2 + 0.5 := by
  unfold alignedStart
  split_ifs <;> first | exact Or.inl rfl | exact Or.inr rfl

theorem phaseAlign_AMMStart_halves (s : Ctrl) :
    (phaseAlign s).AMMStart = (⌈s.ContactEnd * 2⌉ : ℚ) / 2 ∨
    (phaseAlign s).AMMStart = (⌈s.ContactEnd * 2⌉ : ℚ) / 2 + 0.5 := by
  rw [(phaseAlign_spec s).2]
  split_ifs <;> first | exact Or.inl rfl | exact Or.inr rfl

/-- The start phase of one phase alignment is a multiple of 0.5 in
`[ContactEnd, ContactEnd + 1)`, for the value of `ContactEnd` on entry. -/
theorem phaseAlign_AMMStart_bounds (s : Ctrl) :
    (∃ j : Int, (phaseAlign s).AMMStart = (j : ℚ) * 0.5) ∧
    s.ContactEnd ≤ (phaseAlign s).AMMStart ∧ (phaseAlign s).AMMStart < s.ContactEnd + 1 := by
  have h1 : s.ContactEnd * 2 ≤ (⌈s.ContactEnd * 2⌉ : ℚ) := Int.le_ceil _
  have h2 : (⌈s.ContactEnd * 2⌉ : ℚ) < s.ContactEnd * 2 + 1 := Int.ceil_lt_add_one _
  rcases phaseAlign_AMMStart_halves s with h | h
  · rw [h]
    refine ⟨⟨⌈s.ContactEnd * 2⌉, by norm_num; ring⟩, by linarith, by linarith⟩
  · rw [h]
    refine ⟨⟨⌈s.ContactEnd * 2⌉ + 1, by push_cast; norm_num; ring⟩, by norm_num; linarith,
      by norm_num; linarith⟩

/-- For an end phase `e >= 0`: a positive base `delA` gives a start phase
`n + 0.5`, a negative one an integer start phase. -/
theorem phaseAlign_AMMStart_fraction (s : Ctrl) (he : 0 ≤ s.ContactEnd) :
    (0 < s.delA → ∃ n : Int, (phaseAlign s).AMMStart = (n : ℚ) + 0.5) ∧
    (s.delA < 0 → ∃ n : Int, (phaseAlign s).AMMStart = (n : ℚ)) := by
  have hk : 0 ≤ ⌈s.ContactEnd * 2⌉ := Int.ceil_nonneg (by linarith)
  have hmod : Int.tmod ⌈s.ContactEnd * 2⌉ 2 = ⌈s.ContactEnd * 2⌉ % 2 :=
    Int.tmod_eq_emod hk (by decide)
  obtain ⟨-, h2⟩ := phaseAlign_spec s
  rw [hmod] at h2
  rcases Int.emod_two_eq_zero_or_one ⌈s.ContactEnd * 2⌉ with hev | hodd
  · -- `k` even
    have hne : ¬ (⌈s.ContactEnd * 2⌉ % 2 = 1) := by omega
    simp only [hne, if_false] at h2
    obtain ⟨n, hn⟩ : ∃ n : Int, ⌈s.ContactEnd * 2⌉ = 2 * n := ⟨⌈s.ContactEnd * 2⌉ / 2, by omega⟩
    constructor
    · intro hp
      rw [h2, if_neg (by linarith), hn]
      exact ⟨n, by push_cast; ring⟩
    · intro hn'
      rw [h2, if_pos hn', hn]
      exact ⟨n, by push_cast; ring⟩
  · -- `k` odd
    simp only [hodd, if_true] at h2
    obtain ⟨n, hn⟩ : ∃ n : Int, ⌈s.ContactEnd * 2⌉ = 2 * n + 1 :=
      ⟨⌈s.ContactEnd * 2⌉ / 2, by omega⟩
    constructor
    · intro hp
      rw [h2, if_pos (by linarith), hn]
      exact ⟨n, by push_cast; norm_num; ring⟩
    · intro hn'
      rw [h2, if_neg (by linarith), hn]
      exact ⟨n + 1, by push_cast; norm_num; ring⟩

theorem range_joints : List.range' 1 N = [1, 2, 3, 4, 5, 6, 7, 8, 9, 10, 11, 12] := by
  unfold N; rfl

/-- With every parameter accepted, `snakeUpdatePosition` transmits once, after
the loop, a packet with the joint ids 0..11. -/
theorem snakeUpdatePosition_packets (t : ℝ) (cc : Int) :
    packetIds (snakeUpdatePosition_bus Real.sin Real.pi busAllOk t cc).1 =
      [[0, 1, 2, 3, 4, 5, 6, 7, 8, 9, 10, 11]] ∧
    (snakeUpdatePosition_bus Real.sin Real.pi busAllOk t cc).2 = none := by
  unfold snakeUpdatePosition_bus
  rw [range_joints]
  simp [snakeUpdatePosition_loop, busAllOk, packetIds, packets]

/-- With every parameter accepted, `snakeAMM2` transmits inside the loop: twelve
packets of one joint each. -/
theorem snakeAMM2_packets (t delA AMMStart : ℝ) :
    packetIds (snakeAMM2_bus Real.sin Real.pi busAllOk t delA AMMStart).1 =
      [[0], [1], [2], [3], [4], [5], [6], [7], [8], [9], [10], [11]] := by
  unfold snakeAMM2_bus
  rw [range_joints]
  simp [snakeAMM2_loop, busAllOk, packetIds, packets]

theorem snakeUpdatePosition_rejected (t : ℝ) (cc : Int) :
    packetIds (snakeUpdatePosition_bus Real.sin Real.pi busRejects t cc).1 = [] ∧
    (snakeUpdatePosition_bus Real.sin Real.pi busRejects t cc).1.length = 1 ∧
    (snakeUpdatePosition_bus Real.sin Real.pi busRejects t cc).2 = some 0 := by
  unfold snakeUpdatePosition_bus
  rw [range_joints]
  simp [snakeUpdatePosition_loop, busRejects, packetIds, packets]

theorem snakeUpdatePosition_goal_range (t : ℝ) (cc : Int) (i : Nat) :
    375 ≤ snakeUpdatePosition_goal Real.sin Real.pi t cc i ∧
    snakeUpdatePosition_goal Real.sin Real.pi t cc i ≤ 649 := by
  unfold snakeUpdatePosition_goal snakeUpdatePosition_angle cRound offset B0
  have h1 := Real.neg_one_le_sin (2 * Real.pi * (i : ℝ) / ((N : ℕ) : ℝ) - 2 * Real.pi * t)
  have h2 := Real.sin_le_one (2 * Real.pi * (i : ℝ) / ((N : ℕ) : ℝ) - 2 * Real.pi * t)
  set x := Real.sin (2 * Real.pi * (i : ℝ) / ((N : ℕ) : ℝ) - 2 * Real.pi * t) with hx
  have hpos : (0 : ℝ) ≤ 0.4 * x * 1024 / 3 + 512 + 0 := by
    norm_num; linarith
  rw [if_pos hpos]
  constructor
  · rw [Int.le_floor]
    push_cast
    norm_num
    linarith
  · have : ⌊(0.4 : ℝ) * x * 1024 / 3 + 512 + 0 + 1 / 2⌋ < 650 := by
      rw [Int.floor_lt]
      push_cast
      norm_num
      linarith
    omega

theorem bytes_of_command (g : Int) (h0 : 0 ≤ g) (h1 : g ≤ 1023) :
    DXL_LOBYTE g + 256 * DXL_HIBYTE g = g ∧ 0 ≤ DXL_LOBYTE g ∧ DXL_LOBYTE g < 256 ∧
    0 ≤ DXL_HIBYTE g ∧ DXL_HIBYTE g < 256 := by
  unfold DXL_LOBYTE DXL_HIBYTE
  omega

theorem trackSecondContact_wInitialContact (u : Ctrl) (inp : Input)
    (h : u.wInitialContact = true) : (trackSecondContact u inp).wInitialContact = true := by
  unfold trackSecondContact
  simp only
  split_ifs <;> simp_all

theorem waitingState_wInitialContact (u : Ctrl) (inp : Input)
    (h : u.wInitialContact = true) : (waitingState u inp).wInitialContact = true := by
  have hl : (latchWaitTimer u inp).wInitialContact = true := by
    unfold latchWaitTimer; split_ifs <;> simp [h]
  have ht := trackSecondContact_wInitialContact (latchWaitTimer u inp) inp hl
  unfold waitingState
  simp only
  split_ifs <;> simp [ht, h]

theorem tick_waiting_wInitialContact (s : Ctrl) (inp : Input) (hw : Waiting s)
    (h : s.wInitialContact = true) : (tick s inp).wInitialContact = true := by
  obtain ⟨hI, hL, hW⟩ := hw
  by_cases hF : s.FinalContact = true
  · rw [tick_final s inp hI hF]
    simp [advance, updateContactCounter_eq, h]
  · have hF' : s.FinalContact = false := by simpa using hF
    have e : tick s inp = advance (waitingState (updateContactCounter s inp) inp) inp := by
      simp [tick, stateMachine, updateContactCounter_eq, detectContactStart, detectEndContact, hI,
        hW hF']
    rw [e]
    have := waitingState_wInitialContact (updateContactCounter s inp) inp
      (by simp [updateContactCounter_eq, h])
    simpa [advance] using this

/-- The flag implications hold in every state of a trial. -/
theorem flags_of_phase (s : Ctrl) (h : Idle s ∨ FirstActive s ∨ Waiting s) :
    (s.WaitState = true → s.InitialContact = true) ∧
    (s.InitializeWait = true → s.InitialContact = true) ∧
    (s.wInitialContact = true → s.InitializeWait = true) ∧
    (s.FinalContact = true → s.InitialContact = true ∧ s.InitializeWait = true) := by
  rcases h with h | h | h
  · obtain ⟨h1, h2, h3, h4, h5, -⟩ := h
    simp [h1, h2, h3, h4, h5]
  · obtain ⟨h1, h2, h3, h4, h5, -⟩ := h
    simp [h1, h2, h3, h4, h5]
  · obtain ⟨h1, h2, -⟩ := h
    simp [h1, h2]

/-- One tick of a trial never clears `InitialContact`, `InitializeWait`,
`wInitialContact` or `FinalContact`. -/
theorem flags_step (s : Ctrl) (inp : Input) (h : Idle s ∨ FirstActive s ∨ Waiting s) :
    (s.InitialContact = true → (tick s inp).InitialContact = true) ∧
    (s.InitializeWait = true → (tick s inp).InitializeWait = true) ∧
    (s.wInitialContact = true → (tick s inp).wInitialContact = true) ∧
    (s.FinalContact = true → (tick s inp).FinalContact = true) := by
  rcases h with h | h | h
  · obtain ⟨h1, h2, h3, h4, h5, -⟩ := h
    simp [h1, h3, h4, h5]
  · obtain ⟨-, -, t3, t4⟩ := tick_firstActive s inp h
    obtain ⟨h1, h2, h3, h4, h5, -⟩ := h
    refine ⟨fun _ => ?_, by simp [h4], by simp [h5], by simp [h3]⟩
    by_cases h3' : (tick s inp).EndCounter = 3
    · exact (t4 h3').1.1
    · exact (t3 h3').1
  · obtain ⟨w, -, t3, -, -⟩ := tick_waiting s inp h
    exact ⟨fun _ => w.1, fun _ => w.2.1, tick_waiting_wInitialContact s inp h,
      fun hF => (t3 hF).1⟩

theorem flags_mono (junk : Ctrl) (inps : List Input) (k m : Nat) (hkm : k ≤ m)
    (hm : m ≤ inps.length) :
    ((stateAt junk inps k).InitialContact = true → (stateAt junk inps m).InitialContact = true) ∧
    ((stateAt junk inps k).InitializeWait = true → (stateAt junk inps m).InitializeWait = true) ∧
    ((stateAt junk inps k).wInitialContact = true →
      (stateAt junk inps m).wInitialContact = true) ∧
    ((stateAt junk inps k).FinalContact = true → (stateAt junk inps m).FinalContact = true) := by
  induction m, hkm using Nat.le_induction with
  | base => exact ⟨id, id, id, id⟩
  | succ m hkm ih =>
    have hm' : m < inps.length := hm
    obtain ⟨i1, i2, i3, i4⟩ := ih (Nat.le_of_lt hm')
    obtain ⟨s1, s2, s3, s4⟩ := flags_step (stateAt junk inps m) (inps.get ⟨m, hm'⟩)
      (phase_stateAt junk inps m (Nat.le_of_lt hm'))
    rw [stateAt_succ junk inps m hm']
    exact ⟨fun h => s1 (i1 h), fun h => s2 (i2 h), fun h => s3 (i3 h), fun h => s4 (i4 h)⟩

/-! ## Two decisions on one tick -/

theorem phaseAlign_ContactEnd (s : Ctrl) : (phaseAlign s).ContactEnd = s.ContactEnd * 2 := by
  unfold phaseAlign
  simp only
  split_ifs <;> rfl

theorem phaseAlign_decisionsRun (s : Ctrl) :
    decisionsRun (phaseAlign s) = decisionsRun s + 1 := by
  obtain ⟨a, b, c, m, h, hm⟩ := phaseAlign_frame s
  rw [h]
  rcases hm with rfl | rfl <;> simp [decisionsRun, List.countP_append]

theorem steeringTwoEpisode_decisionsRun (s : Ctrl) :
    decisionsRun (steeringTwoEpisode s) = decisionsRun s := by
  unfold decisionsRun
  rw [(steeringTwoEpisode_frame s).2.2.2.1]

theorem steeringTimeout_decisionsRun (s : Ctrl) :
    decisionsRun (steeringTimeout s) = decisionsRun s := by
  unfold decisionsRun
  rw [(steeringTimeout_frame s).2.2.2.1]

theorem classifySecondMsg_not_steer (e : String) :
    classifySecondMsg e ≠ Msg.steerNow ∧ classifySecondMsg e ≠ Msg.waitToSteer := by
  unfold classifySecondMsg
  split_ifs <;> exact ⟨by decide, by decide⟩

/-- The body of `if (wEndCounter == 3)` runs the decision computation once and
doubles `ContactEnd`. -/
theorem finalizeSecond_decision (s : Ctrl) (inp : Input) :
    decisionsRun (finalizeSecond s inp) = decisionsRun s + 1 ∧
    (finalizeSecond s inp).ContactEnd = s.ContactEnd * 2 := by
  obtain ⟨n1, n2⟩ := classifySecondMsg_not_steer s.wend_state
  unfold finalizeSecond
  simp only
  split_ifs
  all_goals
    rw [decisionTwoEpisode_eq, phaseAlign_decisionsRun, steeringTwoEpisode_decisionsRun,
      phaseAlign_ContactEnd, (steeringTwoEpisode_frame _).1]
    simp [decisionsRun, List.countP_append, List.countP_cons, n1, n2]

/-- The body of `if (LoopTime > 1.0)` runs the decision computation once and
doubles `ContactEnd`. -/
theorem timeoutDecide_decision (s : Ctrl) :
    decisionsRun (timeoutDecide s) = decisionsRun s + 1 ∧
    (timeoutDecide s).ContactEnd = s.ContactEnd * 2 ∧
    Msg.onlyOneContact ∈ (timeoutDecide s).out := by
  unfold timeoutDecide
  rw [decisionTimeout_eq, phaseAlign_decisionsRun, steeringTimeout_decisionsRun,
    phaseAlign_ContactEnd, (steeringTimeout_frame _).1]
  refine ⟨by simp [decisionsRun, List.countP_append], rfl, ?_⟩
  obtain ⟨a, b, c, m, h, -⟩ := phaseAlign_frame (steeringTimeout
    { s with WaitState := false, FinalContact := true, out := s.out ++ [Msg.onlyOneContact] })
  rw [h]
  simp [(steeringTimeout_frame _).2.2.2.1]

/-- A tick of the waiting machine that completes the second release debounce
and lies more than 1.0 after the latched time: the body of
`if (wEndCounter == 3)` runs, and then the body of `if (LoopTime > 1.0)`. -/
theorem tick_double_decision (s : Ctrl) (inp : Input) (hw : Waiting s)
    (hF : s.FinalContact = false) (hi : s.wInitialContact = true) (he : s.wEndCounter = 2)
    (hr : isRelease inp.last_input = true) (hT : inp.t - s.WaitInitialTime > 1) :
    decisionsRun (tick s inp) = decisionsRun s + 2 ∧
    (tick s inp).ContactEnd = s.ContactEnd * 2 * 2 ∧
    Msg.secondEndTime ∈ (tick s inp).out ∧ Msg.onlyOneContact ∈ (tick s inp).out := by
  obtain ⟨hI, hL, hW⟩ := hw
  have hW' := hW hF
  have hc := isRelease_not_isContact _ hr
  have e1 : ((1.0 : ℚ)) = 1 := by norm_num
  have e : tick s inp = advance (timeoutDecide
      { finalizeSecond { s with ContactCounter := 0, wContactCounter := 0, wEndCounter := 3 } inp with LoopTime := inp.t - s.WaitInitialTime })
      inp := by
    simp [tick, stateMachine, updateContactCounter_eq, detectContactStart, detectEndContact,
      waitingState, latchWaitTimer, trackSecondContact, hI, hW', hF, hL, hc, hi, he, hr, e1, hT]
  rw [e]
  obtain ⟨d1, d2, d3⟩ := timeoutDecide_decision
    { finalizeSecond { s with ContactCounter := 0, wContactCounter := 0, wEndCounter := 3 } inp with LoopTime := inp.t - s.WaitInitialTime }
  obtain ⟨f1, f2⟩ := finalizeSecond_decision
    { s with ContactCounter := 0, wContactCounter := 0, wEndCounter := 3 } inp
  have m1 := finalizeSecond_out_mem
    { s with ContactCounter := 0, wContactCounter := 0, wEndCounter := 3 } inp
  refine ⟨?_, ?_, ?_, ?_⟩
  · have : decisionsRun (advance (timeoutDecide
      { finalizeSecond { s with ContactCounter := 0, wContactCounter := 0, wEndCounter := 3 } inp with LoopTime := inp.t - s.WaitInitialTime })
      inp) = decisionsRun (timeoutDecide
      { finalizeSecond { s with ContactCounter := 0, wContactCounter := 0, wEndCounter := 3 } inp with LoopTime := inp.t - s.WaitInitialTime }) := rfl
    rw [this, d1]
    have : decisionsRun { finalizeSecond { s with ContactCounter := 0, wContactCounter := 0, wEndCounter := 3 } inp with LoopTime := inp.t - s.WaitInitialTime } = decisionsRun (finalizeSecond { s with ContactCounter := 0, wContactCounter := 0, wEndCounter := 3 } inp) := rfl
    rw [this, f1]
    rfl
  · simp only [advance]
    rw [d2]
    simp only
    rw [f2]
  · simp only [advance]
    simpa using m1
  · simpa [advance] using d3

set_option maxHeartbeats 2000000 in
set_option maxRecDepth 4000 in
theorem doubleDecisionTicks_state11 :
    Waiting (stateAt zeroCtrl doubleDecisionTicks 11) ∧
    (stateAt zeroCtrl doubleDecisionTicks 11).FinalContact = false ∧
    (stateAt zeroCtrl doubleDecisionTicks 11).wInitialContact = true ∧
    (stateAt zeroCtrl doubleDecisionTicks 11).wEndCounter = 2 ∧
    (stateAt zeroCtrl doubleDecisionTicks 11).WaitInitialTime = 0.6 ∧
    (stateAt zeroCtrl doubleDecisionTicks 11).ContactEnd = 0.0125 ∧
    (stateAt zeroCtrl doubleDecisionTicks 11).out =
      [Msg.firstContactMade, Msg.firstEndTime, Msg.contactLeft, Msg.secondContactMade] := by
  have h1 : ¬ ((1.0 : ℚ) < 0.7 - 0.6) := by norm_num
  have h2 : ¬ ((1.0 : ℚ) < 0.8 - 0.6) := by norm_num
  have h3 : ¬ ((1.0 : ℚ) < 0.9 - 0.6) := by norm_num
  have h4 : ¬ ((1.0 : ℚ) < 1.0 - 0.6) := by norm_num
  have h5 : ¬ ((1.0 : ℚ) < 1.1 - 0.6) := by norm_num
  refine ⟨?_, ?_, ?_, ?_, ?_, ?_, ?_⟩
  all_goals
    simp [Waiting, doubleDecisionTicks, stateAt, runTicks, tick, advance, stateMachine,
      updateContactCounter_eq, detectContactStart, detectEndContact, waitingState, latchWaitTimer,
      trackSecondContact, finalizeFirst, classifyFirst, classifyFirstMsg, initTrial, zeroCtrl,
      isContact, isRelease, one_not_lt_zero, h1, h2, h3, h4, h5]
  norm_num [dst]

/-! ## The claims, concluded -/

/-- C21, as stated, fails: on the end-to-end scenario at frames 0.01 apart the
finalized first episode has `ActualDuration = 0.03`, three frame spacings, not
`5 * 0.01`: `ActualStart` is the timestamp of the third contact sample, on
which the debounced start is detected. -/
theorem first_episode_duration_counterexample :
    scenarioTicks = uniformTicks 0 0.01 ["0100", "0100", "0100", "0000", "0000", "0000"] ∧
    (stateAt zeroCtrl scenarioTicks 6).ActualStart = 0.03 ∧
    (stateAt zeroCtrl scenarioTicks 6).ActualEnd = 0.06 ∧
    (stateAt zeroCtrl scenarioTicks 6).ActualDuration = 0.03 ∧
    (stateAt zeroCtrl scenarioTicks 6).ActualDuration ≠ 5 * 0.01 := by
  obtain ⟨h1, h2, h3, -⟩ := sixTicks_duration zeroCtrl 0.01 0.02 0.03 0.04 0.05 0.06
  have e : scenarioTicks =
      uniformTicks 0 0.01 ["0100", "0100", "0100", "0000", "0000", "0000"] := by
    simp only [scenarioTicks, sixTicks, uniformTicks]
    norm_num
  refine ⟨e, h1, h2, ?_, ?_⟩
  · show (stateAt zeroCtrl (sixTicks 0.01 0.02 0.03 0.04 0.05 0.06) 6).ActualDuration = 0.03
    rw [h3]; norm_num
  · show (stateAt zeroCtrl (sixTicks 0.01 0.02 0.03 0.04 0.05 0.06) 6).ActualDuration ≠ 5 * 0.01
    rw [h3]; norm_num

/-- C21, amended: for the samples "0100","0100","0100","0000","0000","0000" on
six consecutive ticks with timestamps `t0 + dt, ..., t0 + 6 * dt`, the first
episode is finalized on the sixth tick with `ActualStart` the timestamp of the
third tick, `ActualEnd` that of the sixth and `ActualDuration = 3 * dt`,
whatever the variables held before the trial. -/
theorem first_episode_duration (junk : Ctrl) (t0 dt : ℚ) :
    (stateAt junk
      (uniformTicks t0 dt ["0100", "0100", "0100", "0000", "0000", "0000"]) 6).WaitState = true ∧
    (stateAt junk
      (uniformTicks t0 dt ["0100", "0100", "0100", "0000", "0000", "0000"]) 6).ActualStart =
        t0 + 3 * dt ∧
    (stateAt junk
      (uniformTicks t0 dt ["0100", "0100", "0100", "0000", "0000", "0000"]) 6).ActualEnd =
        t0 + 6 * dt ∧
    (stateAt junk
      (uniformTicks t0 dt ["0100", "0100", "0100", "0000", "0000", "0000"]) 6).ActualDuration =
        3 * dt := by
  have e : uniformTicks t0 dt ["0100", "0100", "0100", "0000", "0000", "0000"] =
      sixTicks (t0 + dt) (t0 + dt + dt) (t0 + dt + dt + dt) (t0 + dt + dt + dt + dt)
        (t0 + dt + dt + dt + dt + dt) (t0 + dt + dt + dt + dt + dt + dt) := rfl
  rw [e]
  obtain ⟨h1, h2, h3, h4⟩ := sixTicks_duration junk (t0 + dt) (t0 + dt + dt) (t0 + dt + dt + dt)
    (t0 + dt + dt + dt + dt) (t0 + dt + dt + dt + dt + dt) (t0 + dt + dt + dt + dt + dt + dt)
  refine ⟨h4, ?_, ?_, ?_⟩
  · rw [h1]; ring
  · rw [h2]; ring
  · rw [h3]; ring

/-- C22: on every processed tick with an accepting bus, the nominal path
(`FinalContact` false after the state machine part, `snakeUpdatePosition`)
issues one transmit carrying the joint ids 0..11, whereas the steering path
(`FinalContact` true, `snakeAMM2`) issues twelve transmits of one joint each,
because its `txPacket` and `clearParam` calls are inside the joint loop. -/
theorem steering_path_transmits_per_joint (s : Ctrl) (inp : Input) :
    packetIds (tickBus Real.sin Real.pi busAllOk s inp).2 =
      if (stateMachine s inp).FinalContact = true then
        [[0], [1], [2], [3], [4], [5], [6], [7], [8], [9], [10], [11]]
      else [[0, 1, 2, 3, 4, 5, 6, 7, 8, 9, 10, 11]] := by
  unfold tickBus controllerCommand
  split_ifs with h
  · exact snakeAMM2_packets _ _ _
  · exact (snakeUpdatePosition_packets _ _).1

/-- C23, as stated, fails: on the first tick of a trial with a bus that rejects
the parameter staging, `snakeUpdatePosition` makes one rejected `addParam`
call, transmits nothing and returns 0, and the gait time is advanced from 0 to
0.0025 all the same. -/
theorem bus_failure_counterexample :
    packetIds (tickBus Real.sin Real.pi busRejects (initTrial zeroCtrl) ⟨0.01, "0000"⟩).2 = [] ∧
    (snakeUpdatePosition_bus Real.sin Real.pi busRejects
      (((stateMachine (initTrial zeroCtrl) ⟨0.01, "0000"⟩).st : ℚ) : ℝ) 0).2 = some 0 ∧
    (initTrial zeroCtrl).st = 0 ∧
    (tickBus Real.sin Real.pi busRejects (initTrial zeroCtrl) ⟨0.01, "0000"⟩).1.st = 0.0025 ∧
    (tickBus Real.sin Real.pi busRejects (initTrial zeroCtrl) ⟨0.01, "0000"⟩).1.st ≠
      (initTrial zeroCtrl).st := by
  have hst : (tickBus Real.sin Real.pi busRejects (initTrial zeroCtrl) ⟨0.01, "0000"⟩).1.st =
      0.0025 := by
    show (tick (initTrial zeroCtrl) ⟨0.01, "0000"⟩).st = 0.0025
    rw [tick_st, gait_step]
    show (0 : ℚ) + 0.0025 = 0.0025
    norm_num
  have hF : (stateMachine (initTrial zeroCtrl) ⟨0.01, "0000"⟩).FinalContact = false := by
    simp [stateMachine, updateContactCounter_eq, detectContactStart, detectEndContact,
      waitingState, initTrial, zeroCtrl, isContact]
  refine ⟨?_, (snakeUpdatePosition_rejected _ _).2.2, rfl, hst, ?_⟩
  · unfold tickBus controllerCommand
    simp only [hF]
    exact (snakeUpdatePosition_rejected _ _).1
  · rw [hst]
    show (0.0025 : ℚ) ≠ 0
    norm_num

/-- C23, amended: the state after a processed tick does not depend on the
results of the bus calls: for every bus, every state and every input the tick
ends in `tick s inp`, with the gait time advanced by `2.5 * dst = 0.0025`; the
return value of the generator is discarded and nothing is retried. -/
theorem gait_time_advances_whatever_the_bus (bus : BusResults) (s : Ctrl) (inp : Input) :
    (tickBus Real.sin Real.pi bus s inp).1 = tick s inp ∧
    (tickBus Real.sin Real.pi bus s inp).1.st = s.st + 0.0025 ∧
    (loopIterationBus Real.sin Real.pi bus s inp).1 = loopIteration s inp := by
  refine ⟨rfl, ?_, ?_⟩
  · show (tick s inp).st = s.st + 0.0025
    rw [tick_st, gait_step]
  · unfold loopIterationBus loopIteration
    split_ifs <;> rfl

/-- C24: a loop iteration whose timestamp equals `prev_t` leaves the whole
controller state unchanged and makes no bus call; an iteration with a different
timestamp is a processed tick, which advances `st` by exactly 0.0025 and sets
`prev_t` to the timestamp. -/
theorem duplicate_frame_suppression (bus : BusResults) (s : Ctrl) (inp : Input) :
    (s.prev_t = inp.t →
      loopIterationBus Real.sin Real.pi bus s inp = (s, []) ∧ loopIteration s inp = s) ∧
    (s.prev_t ≠ inp.t →
      (loopIterationBus Real.sin Real.pi bus s inp).1 = tick s inp ∧
      loopIteration s inp = tick s inp ∧
      (loopIteration s inp).st = s.st + 0.0025 ∧ 2.5 * dst = 0.0025 ∧
      (loopIteration s inp).prev_t = inp.t) := by
  constructor
  · intro h
    simp [loopIterationBus, loopIteration, h]
  · intro h
    have e : loopIteration s inp = tick s inp := by simp [loopIteration, h]
    have e2 : (loopIterationBus Real.sin Real.pi bus s inp).1 = tick s inp := by
      simp [loopIterationBus, h, tickBus, tick]
    refine ⟨e2, e, ?_, gait_step, ?_⟩
    · rw [e, tick_st, gait_step]
    · rw [e, tick_prev_t]

/-- C24, worked example: after the first tick of a trial, at timestamp 0.01, a
second iteration at timestamp 0.01 changes nothing and makes no bus call, and
an iteration at timestamp 0.02 advances the gait time by 0.0025. -/
theorem duplicate_frame_suppression_witness :
    ((tick (initTrial zeroCtrl) ⟨0.01, "0100"⟩).prev_t = (⟨0.01, "0100"⟩ : Input).t ∧
      loopIterationBus Real.sin Real.pi busAllOk (tick (initTrial zeroCtrl) ⟨0.01, "0100"⟩)
          ⟨0.01, "0100"⟩ = (tick (initTrial zeroCtrl) ⟨0.01, "0100"⟩, [])) ∧
    ((tick (initTrial zeroCtrl) ⟨0.01, "0100"⟩).prev_t ≠ (⟨0.02, "0100"⟩ : Input).t ∧
      (loopIteration (tick (initTrial zeroCtrl) ⟨0.01, "0100"⟩) ⟨0.02, "0100"⟩).st =
        (tick (initTrial zeroCtrl) ⟨0.01, "0100"⟩).st + 0.0025) := by
  have h1 : (tick (initTrial zeroCtrl) ⟨0.01, "0100"⟩).prev_t = (⟨0.01, "0100"⟩ : Input).t := rfl
  have h2 : (tick (initTrial zeroCtrl) ⟨0.01, "0100"⟩).prev_t ≠ (⟨0.02, "0100"⟩ : Input).t := by
    show (0.01 : ℚ) ≠ 0.02
    norm_num
  exact ⟨⟨h1, ((duplicate_frame_suppression busAllOk _ _).1 h1).1⟩,
    ⟨h2, ((duplicate_frame_suppression busAllOk _ _).2 h2).2.2.1⟩⟩

/-- C25: the decision computation can run twice in a trial.  On the twelfth
tick of `doubleDecisionTicks` the second release debounce completes and the
frame lies more than 1.0 after the latched wait time, so the body of
`if (wEndCounter == 3)` runs and then the body of `if (LoopTime > 1.0)`: no
decision had run before the tick, two have run after it, `ContactEnd` has been
doubled twice and the log holds both "Second End Time" and "Only One Contact
Detected". -/
theorem decision_runs_twice_on_one_tick :
    (stateAt zeroCtrl doubleDecisionTicks 11).FinalContact = false ∧
    decisionsRun (stateAt zeroCtrl doubleDecisionTicks 11) = 0 ∧
    decisionsRun (stateAt zeroCtrl doubleDecisionTicks 12) = 2 ∧
    (stateAt zeroCtrl doubleDecisionTicks 11).ContactEnd = 0.0125 ∧
    (stateAt zeroCtrl doubleDecisionTicks 12).ContactEnd = 0.05 ∧
    Msg.secondEndTime ∈ (stateAt zeroCtrl doubleDecisionTicks 12).out ∧
    Msg.onlyOneContact ∈ (stateAt zeroCtrl doubleDecisionTicks 12).out := by
  obtain ⟨hw, hF, hi, he, hT, hce, hout⟩ := doubleDecisionTicks_state11
  have hlen : 11 < doubleDecisionTicks.length := by simp [doubleDecisionTicks]
  have hs := stateAt_succ zeroCtrl doubleDecisionTicks 11 hlen
  have hinp : doubleDecisionTicks.get ⟨11, hlen⟩ = ⟨1.7, "0000"⟩ := rfl
  rw [hinp] at hs
  have h0 : decisionsRun (stateAt zeroCtrl doubleDecisionTicks 11) = 0 := by
    unfold decisionsRun
    rw [hout]
    decide
  obtain ⟨d1, d2, d3, d4⟩ := tick_double_decision (stateAt zeroCtrl doubleDecisionTicks 11)
    ⟨1.7, "0000"⟩ hw hF hi he (by simp [isRelease])
    (by rw [hT]; show (1.7 : ℚ) - 0.6 > 1; norm_num)
  rw [← hs] at d1 d2 d3 d4
  refine ⟨hF, h0, ?_, hce, ?_, d3, d4⟩
  · rw [d1, h0]
  · rw [d2, hce]; norm_num

/-- C26: for every state entering it, the phase alignment outputs
`delA = -|delA|`, which is never positive; so do both decision blocks for their
base `delA`, and the amplitude `B0 + delA` of the injector never exceeds
`B0 = 0.4`. -/
theorem correction_angle_never_positive (s : Ctrl) :
    ((phaseAlign s).delA = -|s.delA| ∧ (phaseAlign s).delA ≤ 0) ∧
    ((decisionTwoEpisode s).delA = -|(steeringTwoEpisode s).delA| ∧
      (decisionTwoEpisode s).delA ≤ 0 ∧ (B0 : ℚ) + (decisionTwoEpisode s).delA ≤ 0.4) ∧
    ((decisionTimeout s).delA = -|(steeringTimeout s).delA| ∧
      (decisionTimeout s).delA ≤ 0 ∧ (B0 : ℚ) + (decisionTimeout s).delA ≤ 0.4) := by
  have key : ∀ u : Ctrl, (phaseAlign u).delA = -|u.delA| ∧ (phaseAlign u).delA ≤ 0 := by
    intro u
    have h := phaseAlign_delA_abs u
    exact ⟨h, by rw [h]; exact neg_nonpos.mpr (abs_nonneg _)⟩
  have hB : (B0 : ℚ) = 0.4 := rfl
  refine ⟨key s, ?_, ?_⟩
  · rw [decisionTwoEpisode_eq]
    obtain ⟨h1, h2⟩ := key (steeringTwoEpisode s)
    exact ⟨h1, h2, by rw [hB]; linarith⟩
  · rw [decisionTimeout_eq]
    obtain ⟨h1, h2⟩ := key (steeringTimeout s)
    exact ⟨h1, h2, by rw [hB]; linarith⟩

/-- C27: for every end phase `e >= 0` (the value of `ContactEnd` on entry), on
both decision paths: if the base `delA` is strictly positive the start phase is
`n + 0.5` for an integer `n`, and if it is strictly negative the start phase is
an integer. -/
theorem start_phase_fraction (s : Ctrl) (he : 0 ≤ s.ContactEnd) :
    ((0 < (steeringTwoEpisode s).delA →
        ∃ n : Int, (decisionTwoEpisode s).AMMStart = (n : ℚ) + 0.5) ∧
      ((steeringTwoEpisode s).delA < 0 →
        ∃ n : Int, (decisionTwoEpisode s).AMMStart = (n : ℚ))) ∧
    ((0 < (steeringTimeout s).delA →
        ∃ n : Int, (decisionTimeout s).AMMStart = (n : ℚ) + 0.5) ∧
      ((steeringTimeout s).delA < 0 →
        ∃ n : Int, (decisionTimeout s).AMMStart = (n : ℚ))) ∧
    ((0 < s.delA → ∃ n : Int, (phaseAlign s).AMMStart = (n : ℚ) + 0.5) ∧
      (s.delA < 0 → ∃ n : Int, (phaseAlign s).AMMStart = (n : ℚ))) := by
  refine ⟨?_, ?_, phaseAlign_AMMStart_fraction s he⟩
  · rw [decisionTwoEpisode_eq]
    exact phaseAlign_AMMStart_fraction _ (by rw [(steeringTwoEpisode_frame s).1]; exact he)
  · rw [decisionTimeout_eq]
    exact phaseAlign_AMMStart_fraction _ (by rw [(steeringTimeout_frame s).1]; exact he)

/-- C27, worked example: end phase 1.3 with sign -1 and duration 0.03 on the
timeout path, where the base `delA` is positive: the start phase is `n + 0.5`. -/
theorem start_phase_fraction_witness :
    0 ≤ endPhase13State.ContactEnd ∧ 0 < (steeringTimeout endPhase13State).delA ∧
    ∃ n : Int, (decisionTimeout endPhase13State).AMMStart = (n : ℚ) + 0.5 := by
  have he : 0 ≤ endPhase13State.ContactEnd := by
    show (0 : ℚ) ≤ 1.3
    norm_num
  have hb : 0 < (steeringTimeout endPhase13State).delA := by
    rw [steeringTimeout_delA]
    have hmag : 0 < correctionAngleMagnitude endPhase13State.sign endPhase13State.ActualDuration :=
      correctionAngleMagnitude_pos _ _ (by decide) (by show (0 : ℚ) ≤ 0.03; norm_num)
    exact div_pos (mul_pos (by norm_num) hmag) (by norm_num)
  exact ⟨he, hb, (start_phase_fraction endPhase13State he).2.1.1 hb⟩

/-- C28: for every end gait time `e` (the value of `ContactEnd` on entry; the
bound does not need `e >= 0`) and every base `delA`, on both decision paths the
start phase is a multiple of 0.5 with `e <= startPhase < e + 1`. -/
theorem start_phase_within_one_cycle (s : Ctrl) :
    ((∃ j : Int, (decisionTwoEpisode s).AMMStart = (j : ℚ) * 0.5) ∧
      s.ContactEnd ≤ (decisionTwoEpisode s).AMMStart ∧
      (decisionTwoEpisode s).AMMStart < s.ContactEnd + 1) ∧
    ((∃ j : Int, (decisionTimeout s).AMMStart = (j : ℚ) * 0.5) ∧
      s.ContactEnd ≤ (decisionTimeout s).AMMStart ∧
      (decisionTimeout s).AMMStart < s.ContactEnd + 1) ∧
    ((∃ j : Int, (phaseAlign s).AMMStart = (j : ℚ) * 0.5) ∧
      s.ContactEnd ≤ (phaseAlign s).AMMStart ∧ (phaseAlign s).AMMStart < s.ContactEnd + 1) := by
  refine ⟨?_, ?_, phaseAlign_AMMStart_bounds s⟩
  · have h := phaseAlign_AMMStart_bounds (steeringTwoEpisode s)
    rw [(steeringTwoEpisode_frame s).1] at h
    exact h
  · have h := phaseAlign_AMMStart_bounds (steeringTimeout s)
    rw [(steeringTimeout_frame s).1] at h
    exact h

/-- C29: in the state before every tick `m` of a trial and after its last tick,
`WaitState` implies `InitialContact`, `InitializeWait` implies
`InitialContact`, `wInitialContact` implies `InitializeWait`, and
`FinalContact` implies `InitialContact` and `InitializeWait`; and each of
`InitialContact`, `InitializeWait`, `wInitialContact` and `FinalContact` that
is set at a tick `k <= m` is still set at `m`. -/
theorem flag_invariants (junk : Ctrl) (inps : List Input) (k m : Nat) (hkm : k ≤ m)
    (hm : m ≤ inps.length) :
    (((stateAt junk inps m).WaitState = true → (stateAt junk inps m).InitialContact = true) ∧
      ((stateAt junk inps m).InitializeWait = true →
        (stateAt junk inps m).InitialContact = true) ∧
      ((stateAt junk inps m).wInitialContact = true →
        (stateAt junk inps m).InitializeWait = true) ∧
      ((stateAt junk inps m).FinalContact = true →
        (stateAt junk inps m).InitialContact = true ∧
        (stateAt junk inps m).InitializeWait = true)) ∧
    (((stateAt junk inps k).InitialContact = true →
        (stateAt junk inps m).InitialContact = true) ∧
      ((stateAt junk inps k).InitializeWait = true →
        (stateAt junk inps m).InitializeWait = true) ∧
      ((stateAt junk inps k).wInitialContact = true →
        (stateAt junk inps m).wInitialContact = true) ∧
      ((stateAt junk inps k).FinalContact = true →
        (stateAt junk inps m).FinalContact = true)) :=
  ⟨flags_of_phase _ (phase_stateAt junk inps m hm), flags_mono junk inps k m hkm hm⟩

/-- C29, worked example: the end-to-end scenario is decided after its seventh
tick; after the eighth `FinalContact` is still set, and with it
`InitialContact` and `InitializeWait`. -/
theorem flag_invariants_witness :
    (7 ≤ 8 ∧ 8 ≤ decidedTicks.length) ∧
    (stateAt zeroCtrl decidedTicks 7).FinalContact = true ∧
    (stateAt zeroCtrl decidedTicks 8).FinalContact = true ∧
    (stateAt zeroCtrl decidedTicks 8).InitialContact = true ∧
    (stateAt zeroCtrl decidedTicks 8).InitializeWait = true := by
  have h78 : 7 ≤ 8 := by decide
  have hlen : 8 ≤ decidedTicks.length := by simp [decidedTicks, timeoutTicks, sixTicks]
  have h8 := (flag_invariants zeroCtrl decidedTicks 7 8 h78 hlen).2.2.2.2 decidedTicks_state7
  obtain ⟨hI, hL⟩ := (flag_invariants zeroCtrl decidedTicks 7 8 h78 hlen).1.2.2.2 h8
  exact ⟨⟨h78, hlen⟩, decidedTicks_state7, h8, hI, hL⟩

/-! ## The timeout tick and the staged bytes -/

/-- The second end counter after the second-contact tracking does not depend on
the first contact counter. -/
theorem trackSecondContact_wEndCounter_congr (s : Ctrl) (inp : Input) (c : Nat) :
    (trackSecondContact { s with ContactCounter := c } inp).wEndCounter =
      (trackSecondContact s inp).wEndCounter := by
  unfold trackSecondContact
  simp only [apply_ite Ctrl.wEndCounter, apply_ite Ctrl.wContactCounter,
    apply_ite Ctrl.wInitialContact, apply_ite Ctrl.FinalContact]

/-- A tick of the undecided waiting machine on which the second end counter
does not reach 3 and the wait time has run out: the machine is decided by the
timeout with `sign` and `ActualDuration` unchanged. -/
theorem tick_timeout_first (s : Ctrl) (inp : Input) (hw : Waiting s)
    (hF : s.FinalContact = false) (he : (trackSecondContact s inp).wEndCounter ≠ 3)
    (hT : inp.t - s.WaitInitialTime > 1) :
    (tick s inp).FinalContact = true ∧ (tick s inp).sign = s.sign ∧
    (tick s inp).ActualDuration = s.ActualDuration ∧
    Msg.onlyOneContact ∈ (tick s inp).out := by
  obtain ⟨hI, hL, hW⟩ := hw
  have hW' := hW hF
  have e1 : ((1.0 : ℚ)) = 1 := by norm_num
  have he' : (trackSecondContact (updateContactCounter s inp) inp).wEndCounter ≠ 3 := by
    rw [updateContactCounter_eq, trackSecondContact_wEndCounter_congr]
    exact he
  have e : tick s inp = advance (timeoutDecide
      { trackSecondContact (updateContactCounter s inp) inp with LoopTime := inp.t - s.WaitInitialTime })
      inp := by
    have f3 : (trackSecondContact (updateContactCounter s inp) inp).WaitInitialTime =
        s.WaitInitialTime := by simp [updateContactCounter_eq]
    have hu : (updateContactCounter s inp).WaitState = true ∧
        (updateContactCounter s inp).FinalContact = false ∧
        (updateContactCounter s inp).InitializeWait = true ∧
        (updateContactCounter s inp).InitialContact = true := by
      simp [updateContactCounter_eq, hW', hF, hL, hI]
    have hd : detectEndContact (detectContactStart (updateContactCounter s inp) inp) inp =
        updateContactCounter s inp := by
      simp [detectContactStart, detectEndContact, hu.1, hu.2.2.2]
    unfold tick stateMachine
    rw [hd]
    unfold waitingState latchWaitTimer
    simp only [hu.1, hu.2.1, hu.2.2.1, and_self, if_true, Bool.true_eq_false, if_false, he', f3,
      e1, hT]
  rw [e]
  refine ⟨by simp [advance], ?_, ?_, ?_⟩
  · simp [advance, updateContactCounter_eq]
  · simp [advance, updateContactCounter_eq]
  · simp only [advance]
    exact (timeoutDecide_decision _).2.2

/-- A tick of the waiting machine that completes the second release debounce
and lies more than 1.0 after the latched time ends with the `sign` and the
`ActualDuration` the second finalization selected. -/
theorem tick_double_decision_sign (s : Ctrl) (inp : Input) (hw : Waiting s)
    (hF : s.FinalContact = false) (hi : s.wInitialContact = true) (he : s.wEndCounter = 2)
    (hr : isRelease inp.last_input = true) (hT : inp.t - s.WaitInitialTime > 1) :
    (tick s inp).FinalContact = true ∧
    (tick s inp).sign =
      (if inp.t - s.wActualStart > s.ActualDuration then classifySecond s.wend_state
        else s.sign) ∧
    (tick s inp).ActualDuration =
      (if inp.t - s.wActualStart > s.ActualDuration then inp.t - s.wActualStart
        else s.ActualDuration) := by
  obtain ⟨hI, hL, hW⟩ := hw
  have hW' := hW hF
  have hc := isRelease_not_isContact _ hr
  have e1 : ((1.0 : ℚ)) = 1 := by norm_num
  have e : tick s inp = advance (timeoutDecide
      { finalizeSecond { s with ContactCounter := 0, wContactCounter := 0, wEndCounter := 3 } inp with LoopTime := inp.t - s.WaitInitialTime })
      inp := by
    simp [tick, stateMachine, updateContactCounter_eq, detectContactStart, detectEndContact,
      waitingState, latchWaitTimer, trackSecondContact, hI, hW', hF, hL, hc, hi, he, hr, e1, hT]
  rw [e]
  refine ⟨by simp [advance], ?_, ?_⟩
  · simp only [advance, timeoutDecide_sign]
    exact finalizeSecond_sign_eq _ _
  · simp only [advance, timeoutDecide_ActualDuration]
    exact finalizeSecond_ActualDuration_eq _ _

set_option maxHeartbeats 2000000 in
set_option maxRecDepth 4000 in
/-- The two episodes of `doubleDecisionTicks`: the first is finalized on tick 5
with sign -1 and wall duration 0.3; before tick 11 the second has started at
0.9, has end state "0010" and is not finalized. -/
theorem doubleDecisionTicks_episodes :
    (stateAt zeroCtrl doubleDecisionTicks 5).WaitState = false ∧
    (stateAt zeroCtrl doubleDecisionTicks 6).WaitState = true ∧
    (stateAt zeroCtrl doubleDecisionTicks 6).sign = -1 ∧
    (stateAt zeroCtrl doubleDecisionTicks 6).ActualDuration = 0.3 ∧
    (stateAt zeroCtrl doubleDecisionTicks 11).sign = -1 ∧
    (stateAt zeroCtrl doubleDecisionTicks 11).ActualDuration = 0.3 ∧
    (stateAt zeroCtrl doubleDecisionTicks 11).wActualStart = 0.9 ∧
    (stateAt zeroCtrl doubleDecisionTicks 11).wend_state = "0010" := by
  have h1 : ¬ ((1.0 : ℚ) < 0.7 - 0.6) := by norm_num
  have h2 : ¬ ((1.0 : ℚ) < 0.8 - 0.6) := by norm_num
  have h3 : ¬ ((1.0 : ℚ) < 0.9 - 0.6) := by norm_num
  have h4 : ¬ ((1.0 : ℚ) < 1.0 - 0.6) := by norm_num
  have h5 : ¬ ((1.0 : ℚ) < 1.1 - 0.6) := by norm_num
  refine ⟨?_, ?_, ?_, ?_, ?_, ?_, ?_, ?_⟩
  all_goals
    simp [doubleDecisionTicks, stateAt, runTicks, tick, advance, stateMachine,
      updateContactCounter_eq, detectContactStart, detectEndContact, waitingState, latchWaitTimer,
      trackSecondContact, finalizeFirst, classifyFirst, classifyFirstMsg, initTrial, zeroCtrl,
      isContact, isRelease, one_not_lt_zero, h1, h2, h3, h4, h5]
  all_goals norm_num

theorem trackSecondContact_wEndCounter_idle (s : Ctrl) (inp : Input)
    (hi : s.wInitialContact = false) (hc : isContact inp.last_input = false) :
    (trackSecondContact s inp).wEndCounter = s.wEndCounter := by
  unfold trackSecondContact
  simp [hi, hc]

theorem snakeUpdatePosition_loop_ops (bus : BusResults) (t : ℝ) (cc : Int) (l : List Nat)
    (op : BusOp) (h : op ∈ (snakeUpdatePosition_loop Real.sin Real.pi bus t cc l).1) :
    ∃ i, i ∈ l ∧ ∃ r : Bool, op = BusOp.addParam ((i : Int) - 1)
      (DXL_LOBYTE (snakeUpdatePosition_goal Real.sin Real.pi t cc i))
      (DXL_HIBYTE (snakeUpdatePosition_goal Real.sin Real.pi t cc i)) r := by
  induction l with
  | nil => simp [snakeUpdatePosition_loop] at h
  | cons i rest ih =>
    unfold snakeUpdatePosition_loop at h
    split_ifs at h with hb
    · simp only [List.mem_cons] at h
      rcases h with h | h
      · exact ⟨i, List.mem_cons_self _ _, true, h⟩
      · obtain ⟨j, hj, r, hr⟩ := ih h
        exact ⟨j, List.mem_cons_of_mem _ hj, r, hr⟩
    · simp only [List.mem_singleton] at h
      exact ⟨i, List.mem_cons_self _ _, false, h⟩

theorem snakeUpdatePosition_bus_addParam (bus : BusResults) (t : ℝ) (cc : Int)
    (id lo hi : Int) (r : Bool)
    (h : BusOp.addParam id lo hi r ∈ (snakeUpdatePosition_bus Real.sin Real.pi bus t cc).1) :
    BusOp.addParam id lo hi r ∈
      (snakeUpdatePosition_loop Real.sin Real.pi bus t cc (List.range' 1 N)).1 := by
  unfold snakeUpdatePosition_bus at h
  split_ifs at h with h1 h2
  · simpa using h
  · simpa using h
  · exact h

theorem snakeUpdatePosition_packet_bytes (t : ℝ) (cc : Int) :
    packets [] (snakeUpdatePosition_bus Real.sin Real.pi busAllOk t cc).1 =
      [(List.range' 1 N).map (fun (i : Nat) =>
        (((i : Int) - 1, DXL_LOBYTE (snakeUpdatePosition_goal Real.sin Real.pi t cc i),
          DXL_HIBYTE (snakeUpdatePosition_goal Real.sin Real.pi t cc i)) : Int × Int × Int))] := by
  unfold snakeUpdatePosition_bus
  rw [range_joints]
  simp [snakeUpdatePosition_loop, busAllOk, packets]

theorem snakeUpdatePosition_goal_joint1_at_zero :
    snakeUpdatePosition_goal Real.sin Real.pi 0 0 1 = 580 := by
  unfold snakeUpdatePosition_goal
  rw [snakeUpdatePosition_angle_eq]
  have e : 2 * Real.pi * ((1 : ℕ) : ℝ) / 12 - 2 * Real.pi * 0 = Real.pi / 6 := by
    push_cast; ring
  rw [e, Real.sin_pi_div_six]
  unfold cRound offset
  rw [if_pos (by norm_num)]
  rw [Int.floor_eq_iff]
  constructor <;> norm_num

theorem first_joint_staged :
    BusOp.addParam 0 68 2 true ∈ (snakeUpdatePosition_bus Real.sin Real.pi busAllOk 0 0).1 := by
  unfold snakeUpdatePosition_bus
  rw [range_joints]
  simp [snakeUpdatePosition_loop, busAllOk, snakeUpdatePosition_goal_joint1_at_zero,
    DXL_LOBYTE, DXL_HIBYTE]

/-! ## The claims on the timeout and on the staged bytes -/

/-- C10, as stated, fails: in `doubleDecisionTicks` the first episode is
finalized on tick 5 (timestamp 0.6, sign -1, wall duration 0.3).  Before
tick 11 the machine is not decided and the second episode is not finalized, and
the timestamp 1.7 of tick 11 exceeds the latched time by more than 1.0; but the
second release debounce completes on that very tick, its finalization runs
before the timeout test, and the machine is decided with the second episode's
sign +1 and wall duration 0.8. -/
theorem timeout_tick_counterexample :
    ((stateAt zeroCtrl doubleDecisionTicks 5).WaitState = false ∧
      (stateAt zeroCtrl doubleDecisionTicks 6).WaitState = true) ∧
    ((stateAt zeroCtrl doubleDecisionTicks 11).WaitInitialTime = 0.6 ∧
      (doubleDecisionTicks.get ⟨11, by simp [doubleDecisionTicks]⟩).t -
        (doubleDecisionTicks.get ⟨5, by simp [doubleDecisionTicks]⟩).t > 1) ∧
    ((stateAt zeroCtrl doubleDecisionTicks 11).FinalContact = false ∧
      Msg.secondEndTime ∉ (stateAt zeroCtrl doubleDecisionTicks 11).out) ∧
    ((stateAt zeroCtrl doubleDecisionTicks 6).sign = -1 ∧
      (stateAt zeroCtrl doubleDecisionTicks 6).ActualDuration = 0.3) ∧
    (stateAt zeroCtrl doubleDecisionTicks 12).FinalContact = true ∧
    ((stateAt zeroCtrl doubleDecisionTicks 12).sign = 1 ∧
      (stateAt zeroCtrl doubleDecisionTicks 12).ActualDuration = 0.8) ∧
    ((stateAt zeroCtrl doubleDecisionTicks 12).sign ≠
        (stateAt zeroCtrl doubleDecisionTicks 6).sign ∧
      (stateAt zeroCtrl doubleDecisionTicks 12).ActualDuration ≠
        (stateAt zeroCtrl doubleDecisionTicks 6).ActualDuration) := by
  obtain ⟨hw, hF, hi, he, hT, -, hout⟩ := doubleDecisionTicks_state11
  obtain ⟨w5, w6, s6, d6, s11, d11, a11, e11⟩ := doubleDecisionTicks_episodes
  have hlen : 11 < doubleDecisionTicks.length := by simp [doubleDecisionTicks]
  have hs := stateAt_succ zeroCtrl doubleDecisionTicks 11 hlen
  have hinp : doubleDecisionTicks.get ⟨11, hlen⟩ = ⟨1.7, "0000"⟩ := rfl
  rw [hinp] at hs
  obtain ⟨f, sg, ad⟩ := tick_double_decision_sign (stateAt zeroCtrl doubleDecisionTicks 11)
    ⟨1.7, "0000"⟩ hw hF hi he (by simp [isRelease])
    (by rw [hT]; show (1.7 : ℚ) - 0.6 > 1; norm_num)
  rw [← hs] at f sg ad
  have hlong : (1.7 : ℚ) - 0.9 > 0.3 := by norm_num
  have sg12 : (stateAt zeroCtrl doubleDecisionTicks 12).sign = 1 := by
    rw [sg, a11, d11, e11]
    show (if (1.7 : ℚ) - 0.9 > 0.3 then classifySecond "0010" else _) = 1
    rw [if_pos hlong]
    decide
  have ad12 : (stateAt zeroCtrl doubleDecisionTicks 12).ActualDuration = 0.8 := by
    rw [ad, a11, d11]
    show (if (1.7 : ℚ) - 0.9 > 0.3 then (1.7 : ℚ) - 0.9 else _) = 0.8
    rw [if_pos hlong]
    norm_num
  refine ⟨⟨w5, w6⟩, ⟨hT, ?_⟩, ⟨hF, ?_⟩, ⟨s6, d6⟩, f, ⟨sg12, ad12⟩, ?_, ?_⟩
  · show (1.7 : ℚ) - 0.6 > 1
    norm_num
  · rw [hout]
    decide
  · rw [sg12, s6]
    decide
  · rw [ad12, d6]
    norm_num

/-- C10, amended: the wait timer is latched exactly once, on the tick `k` that
finalizes the first episode: `InitializeWait` is false up to that tick, and
after it `WaitInitialTime` is that tick's timestamp for the rest of the trial.
If on a later tick `m` the timestamp exceeds the latched time by more than 1.0
while the machine is not decided, then after tick `m` the machine is decided;
and if the second episode is not finalized on tick `m` either (the second end
counter does not reach 3 on it), `sign` and `ActualDuration` are those of the
first episode. -/
theorem wait_timer_latched_once_and_timeout (junk : Ctrl) (inps : List Input) (k : Nat)
    (hk : k < inps.length)
    (hfin : (stateAt junk inps k).WaitState = false ∧
      (stateAt junk inps (k + 1)).WaitState = true) :
    (∀ m, m ≤ k → (stateAt junk inps m).InitializeWait = false) ∧
    (∀ m, k < m → m ≤ inps.length →
      (stateAt junk inps m).InitializeWait = true ∧
      (stateAt junk inps m).WaitInitialTime = (inps.get ⟨k, hk⟩).t) ∧
    (∀ m (hm : m < inps.length), k < m →
      (inps.get ⟨m, hm⟩).t - (inps.get ⟨k, hk⟩).t > 1 →
      (stateAt junk inps m).FinalContact = false →
      (stateAt junk inps (m + 1)).FinalContact = true ∧
      ((trackSecondContact (stateAt junk inps m) (inps.get ⟨m, hm⟩)).wEndCounter ≠ 3 →
        (stateAt junk inps (m + 1)).sign = (stateAt junk inps (k + 1)).sign ∧
        (stateAt junk inps (m + 1)).ActualDuration =
          (stateAt junk inps (k + 1)).ActualDuration)) := by
  obtain ⟨fa, w, wt⟩ := finalization_state junk inps k hk hfin
  refine ⟨?_, ?_, ?_⟩
  · intro m hm
    rcases phase_stateAt junk inps m (by omega) with h | h | h
    · exact h.2.2.2.1
    · exact h.2.2.2.1
    · have := (waiting_mono junk inps m k hm (Nat.le_of_lt hk) h).1.2.1
      rw [fa.2.2.2.1] at this
      simp at this
  · intro m hkm hm
    obtain ⟨w', wt', -⟩ := waiting_mono junk inps (k + 1) m hkm hm w
    exact ⟨w'.2.1, by rw [wt', wt]⟩
  · intro m hm hkm hT hF
    obtain ⟨w', wt', ws'⟩ := waiting_mono junk inps (k + 1) m hkm (Nat.le_of_lt hm) w
    obtain ⟨s1, s2⟩ := ws' hF
    have hT' : (inps.get ⟨m, hm⟩).t - (stateAt junk inps m).WaitInitialTime > 1 := by
      rw [wt', wt]; exact hT
    obtain ⟨-, -, -, -, t5⟩ := tick_waiting _ (inps.get ⟨m, hm⟩) w'
    rw [← stateAt_succ junk inps m hm] at t5
    refine ⟨(t5 hF hT').1, ?_⟩
    intro he
    obtain ⟨-, f3, f4, -⟩ := tick_timeout_first _ (inps.get ⟨m, hm⟩) w' hF he hT'
    rw [← stateAt_succ junk inps m hm] at f3 f4
    exact ⟨by rw [f3, s1], by rw [f4, s2]⟩

/-- C10, worked example: the end-to-end scenario followed by a frame at
t = 2, on which no second contact has started; the timer is latched at 0.06 and
the machine is decided with sign -1. -/
theorem wait_timer_latched_once_and_timeout_witness :
    ((stateAt zeroCtrl timeoutTicks 5).WaitState = false ∧
      (stateAt zeroCtrl timeoutTicks 6).WaitState = true) ∧
    (stateAt zeroCtrl timeoutTicks 6).WaitInitialTime = 0.06 ∧
    (stateAt zeroCtrl timeoutTicks 7).FinalContact = true ∧
    (stateAt zeroCtrl timeoutTicks 7).sign = -1 := by
  have hk : 5 < timeoutTicks.length := by simp [timeoutTicks, sixTicks]
  have hm : 6 < timeoutTicks.length := by simp [timeoutTicks, sixTicks]
  obtain ⟨-, hF, hi, he0, -, -, hsign, -, -⟩ := timeoutTicks_state6
  have hfin : (stateAt zeroCtrl timeoutTicks 5).WaitState = false ∧
      (stateAt zeroCtrl timeoutTicks 6).WaitState = true := by
    constructor <;>
    simp [stateAt, runTicks, timeoutTicks, sixTicks, tick, advance, stateMachine,
      updateContactCounter_eq, detectContactStart, detectEndContact, waitingState, latchWaitTimer,
      trackSecondContact, finalizeFirst, initTrial, zeroCtrl, isContact, isRelease, one_not_lt_zero]
  have h := wait_timer_latched_once_and_timeout zeroCtrl timeoutTicks 5 hk hfin
  have hT : (timeoutTicks.get ⟨6, hm⟩).t - (timeoutTicks.get ⟨5, hk⟩).t > 1 := by
    show (2 : ℚ) - 0.06 > 1
    norm_num
  have he : (trackSecondContact (stateAt zeroCtrl timeoutTicks 6)
      (timeoutTicks.get ⟨6, hm⟩)).wEndCounter ≠ 3 := by
    rw [trackSecondContact_wEndCounter_idle _ _ hi
      (by show isContact "0000" = false; simp [isContact]), he0]
    decide
  obtain ⟨f1, f2⟩ := h.2.2 6 hm (by decide) hT hF
  refine ⟨hfin, ?_, f1, by rw [(f2 he).1, hsign]⟩
  rw [(h.2.1 6 (by decide) (Nat.le_of_lt hm)).2]
  rfl

/-- C30: for every gait time `t`, every `ContactCondition` and every joint, the
command `snake_goal[i - 1]` of `snakeUpdatePosition` lies in 375..649, hence in
0..1023, and its low and high byte are in 0..255 with `low + 256 * high` equal
to the command.  These are the bytes the generator stages: with an accepting
bus the one transmitted packet holds, for the joints 1..12 in order, the id
`i - 1` with the low and the high byte of `snake_goal[i - 1]`; and whatever the
bus answers, every `addParam` call of the generator is for a joint `i` in
1..12, with id `i - 1` and two bytes `lo`, `hi` in 0..255 such that
`lo + 256 * hi` is `snake_goal[i - 1]` and lies in 375..649. -/
theorem nominal_command_range (t : ℝ) (cc : Int) :
    (∀ i : Nat,
      (375 ≤ snakeUpdatePosition_goal Real.sin Real.pi t cc i ∧
        snakeUpdatePosition_goal Real.sin Real.pi t cc i ≤ 649) ∧
      (0 ≤ snakeUpdatePosition_goal Real.sin Real.pi t cc i ∧
        snakeUpdatePosition_goal Real.sin Real.pi t cc i ≤ 1023) ∧
      DXL_LOBYTE (snakeUpdatePosition_goal Real.sin Real.pi t cc i) +
        256 * DXL_HIBYTE (snakeUpdatePosition_goal Real.sin Real.pi t cc i) =
          snakeUpdatePosition_goal Real.sin Real.pi t cc i ∧
      (0 ≤ DXL_LOBYTE (snakeUpdatePosition_goal Real.sin Real.pi t cc i) ∧
        DXL_LOBYTE (snakeUpdatePosition_goal Real.sin Real.pi t cc i) < 256) ∧
      (0 ≤ DXL_HIBYTE (snakeUpdatePosition_goal Real.sin Real.pi t cc i) ∧
        DXL_HIBYTE (snakeUpdatePosition_goal Real.sin Real.pi t cc i) < 256)) ∧
    packets [] (snakeUpdatePosition_bus Real.sin Real.pi busAllOk t cc).1 =
      [(List.range' 1 N).map (fun (i : Nat) =>
        (((i : Int) - 1, DXL_LOBYTE (snakeUpdatePosition_goal Real.sin Real.pi t cc i),
          DXL_HIBYTE (snakeUpdatePosition_goal Real.sin Real.pi t cc i)) : Int × Int × Int))] ∧
    (∀ (bus : BusResults) (id lo hi : Int) (r : Bool),
      BusOp.addParam id lo hi r ∈ (snakeUpdatePosition_bus Real.sin Real.pi bus t cc).1 →
      (∃ i : Nat, 1 ≤ i ∧ i ≤ 12 ∧ id = (i : Int) - 1 ∧
        lo = DXL_LOBYTE (snakeUpdatePosition_goal Real.sin Real.pi t cc i) ∧
        hi = DXL_HIBYTE (snakeUpdatePosition_goal Real.sin Real.pi t cc i) ∧
        lo + 256 * hi = snakeUpdatePosition_goal Real.sin Real.pi t cc i) ∧
      (375 ≤ lo + 256 * hi ∧ lo + 256 * hi ≤ 649) ∧
      (0 ≤ lo ∧ lo < 256) ∧ (0 ≤ hi ∧ hi < 256)) := by
  have hrange : ∀ i : Nat,
      (375 ≤ snakeUpdatePosition_goal Real.sin Real.pi t cc i ∧
        snakeUpdatePosition_goal Real.sin Real.pi t cc i ≤ 649) ∧
      (0 ≤ snakeUpdatePosition_goal Real.sin Real.pi t cc i ∧
        snakeUpdatePosition_goal Real.sin Real.pi t cc i ≤ 1023) ∧
      DXL_LOBYTE (snakeUpdatePosition_goal Real.sin Real.pi t cc i) +
        256 * DXL_HIBYTE (snakeUpdatePosition_goal Real.sin Real.pi t cc i) =
          snakeUpdatePosition_goal Real.sin Real.pi t cc i ∧
      (0 ≤ DXL_LOBYTE (snakeUpdatePosition_goal Real.sin Real.pi t cc i) ∧
        DXL_LOBYTE (snakeUpdatePosition_goal Real.sin Real.pi t cc i) < 256) ∧
      (0 ≤ DXL_HIBYTE (snakeUpdatePosition_goal Real.sin Real.pi t cc i) ∧
        DXL_HIBYTE (snakeUpdatePosition_goal Real.sin Real.pi t cc i) < 256) := by
    intro i
    obtain ⟨h1, h2⟩ := snakeUpdatePosition_goal_range t cc i
    obtain ⟨b1, b2, b3, b4, b5⟩ :=
      bytes_of_command (snakeUpdatePosition_goal Real.sin Real.pi t cc i) (by omega) (by omega)
    exact ⟨⟨h1, h2⟩, ⟨by omega, by omega⟩, b1, ⟨b2, b3⟩, ⟨b4, b5⟩⟩
  refine ⟨hrange, snakeUpdatePosition_packet_bytes t cc, ?_⟩
  intro bus id lo hi r hmem
  obtain ⟨i, hi', r', hop⟩ := snakeUpdatePosition_loop_ops bus t cc _ _
    (snakeUpdatePosition_bus_addParam bus t cc id lo hi r hmem)
  rw [range_joints] at hi'
  have hi12 : 1 ≤ i ∧ i ≤ 12 := by
    simp only [List.mem_cons, List.mem_singleton, List.not_mem_nil, or_false] at hi'
    omega
  injection hop with e1 e2 e3 e4
  obtain ⟨⟨r1, r2⟩, -, b1, b2, b3⟩ := hrange i
  subst e2 e3
  exact ⟨⟨i, hi12.1, hi12.2, e1, rfl, rfl, b1⟩, ⟨by rw [b1]; exact r1, by rw [b1]; exact r2⟩,
    b2, b3⟩

/-- C30, worked example: at gait time 0 the command of joint 1 is
`round(0.4 * sin(pi/6) * 1024/3 + 512) = 580`, staged under id 0 as the bytes
68 and 2, and `68 + 256 * 2 = 580` lies in 375..649. -/
theorem nominal_command_range_witness :
    snakeUpdatePosition_goal Real.sin Real.pi 0 0 1 = 580 ∧
    BusOp.addParam 0 68 2 true ∈ (snakeUpdatePosition_bus Real.sin Real.pi busAllOk 0 0).1 ∧
    ((375 : Int) ≤ 68 + 256 * 2 ∧ (68 : Int) + 256 * 2 ≤ 649) :=
  ⟨snakeUpdatePosition_goal_joint1_at_zero, first_joint_staged,
    ((nominal_command_range 0 0).2.2 busAllOk 0 68 2 true first_joint_staged).2.1⟩

end Gantry
